import Mathlib

/-!
Stream handles, the standard compute loop and FPS functions, tmux sessions, FITS saving.

A shallow embedding of the handle code of `src/CommandLineInterface/CLIcore_utils.h`
(`makeIMGID`, `makeIMGID_2D`, `makeIMGID_3D`, `resolveIMGID`), of its macros for the
compute loop and the FPS functions, of `src/CommandLineInterface/fps_tmux.c` and of the
file handling and the choice of FITS types of `src/COREMOD_iofits/savefits.c`, and the
facts proved about them.

Conventions of the embedding.

* The image table `data.image[]` is a list of slots; reading a slot outside the list is
  undefined behaviour of the C code and is reported as such, never given a value.
* A pointer `&data.image[i]` is represented by the index `i`; the pointer
  `&data.image[i].md[0]` by the address held in the slot's `md` field; `NULL` is `none`.
* `abort()` does not return: a call ends either by returning a value, or by aborting the
  process, or in undefined behaviour.  The names passed to `image_ID` and the lines printed
  are recorded, in order, next to the final handle.
* C strings are Lean strings; sizes of buffers are counted in UTF-8 bytes.
* Functions, macros and constants that the code uses but that are defined elsewhere
  are parameters; what they answer during a run (return values, statuses) is an input of
  the model, and the calls made are recorded in order.
-/

set_option autoImplicit false

namespace Cream

/-! ## Data model -/

/-- The image datatype codes `_DATATYPE_*` used by the handle code and by the FITS writer.
Their numeric values are declared outside the sources at hand; only their being distinct
matters here. -/
inductive DATATYPE where
  | UINT8 | INT8 | UINT16 | INT16 | UINT32 | INT32 | UINT64 | INT64 | FLOAT | DOUBLE
  deriving DecidableEq, Repr

/-- One slot of `data.image[]`, reduced to the fields the handle code reads:
`name`, `used`, `createcnt`, and the address held by the slot's `md` pointer. -/
structure IMAGE where
  name : String
  used : Int
  createcnt : Int
  md : Nat
  deriving DecidableEq, Repr

/-- The handle `IMGID`.  `im` and `md` are the cached pointers (`none` is `NULL`);
`size` is the array `size[3]`, an entry being `none` while it has not been written.
`NBkw` and `CBsize` are `none` when they hold an indeterminate value, copied from an
`int` that was never written. -/
structure IMGID where
  ID : Int
  name : String
  im : Option Nat
  md : Option Nat
  createcnt : Int
  datatype : DATATYPE
  naxis : Int
  size : List (Option Nat)
  shared : Int
  NBkw : Option Int
  CBsize : Option Int
  deriving DecidableEq, Repr

/-- The error mode codes `ERRMODE_WARN`, `ERRMODE_FAIL`, `ERRMODE_ABORT`.  They are
defined outside the sources at hand and are taken as parameters. -/
structure ERRMODES where
  ERRMODE_WARN : Int
  ERRMODE_FAIL : Int
  ERRMODE_ABORT : Int
  deriving DecidableEq, Repr

/-- How a call of `resolveIMGID` ends.  `lookups` lists the names passed to `image_ID`
during the call, `out` the lines printed. -/
inductive Outcome where
  | returned (ID : Int) (img : IMGID) (lookups : List String) (out : List String)
  | aborted (img : IMGID) (lookups : List String) (out : List String)
  | undefined
  deriving DecidableEq, Repr

/-! ## Name lookup -/

/-- The value of C type `imageID` that a lookup result stands for: the slot index when
the name was found, the sentinel `-1` when it was not. -/
def toImageID : Option Nat → Int
  | some i => (i : Int)
  | none => -1

/-- Scan of the table from slot `i` on: the index of the first slot that is in use and
carries the name, if there is one. -/
def image_ID_from (name : String) : Nat → List IMAGE → Option Nat
  | _, [] => none
  | i, s :: rest => if s.used = 1 ∧ s.name = name then some i else image_ID_from name (i + 1) rest

/-- Modelled from the spec: `image_ID`, the name lookup of the memory module, whose code is
not among the sources at hand ("looks up the stream by name; fails with NotFound if
absent").  It yields the index of the first slot in use that carries the name, and
nothing (the C value `-1`, see `toImageID`) when the name is absent.  The theorems below
take the lookup as a parameter; this definition supplies a concrete one. -/
def image_ID (tbl : List IMAGE) (name : String) : Option Nat :=
  image_ID_from name 0 tbl

/-! ## `resolveIMGID` -/

/-- The slot `data.image[i]`; `none` when `i` lies outside the table. -/
def slotAt (tbl : List IMAGE) (i : Int) : Option IMAGE :=
  if i < 0 then none else tbl[i.toNat]?

/-- The statements shared by both branches of `resolveIMGID`
(`img->ID = image_ID(img->name); if(img->ID > -1) ...`).  The result is the handle
and the names looked up; `none` when the slot read lies outside the table. -/
def relookup (tbl : List IMAGE) (lookup : String → Option Nat) (img : IMGID) :
    Option (IMGID × List String) :=
  let id := toImageID (lookup img.name)
  if id > -1 then
    match slotAt tbl id with
    | some s =>
      some ({ img with ID := id, im := some id.toNat, md := some s.md,
                       createcnt := s.createcnt }, [img.name])
    | none => none
  else
    some ({ img with ID := id }, [img.name])

/-- The first statement of `resolveIMGID`, the `if(img->ID == -1) ... else ...`:
an unresolved handle is looked up by name; a resolved one is looked up again when its
create counter differs from the slot's or the slot is not in use, and is kept otherwise. -/
def resolveStep (tbl : List IMAGE) (lookup : String → Option Nat) (img : IMGID) :
    Option (IMGID × List String) :=
  if img.ID = -1 then
    relookup tbl lookup img
  else
    match slotAt tbl img.ID with
    | none => none
    | some s =>
      if img.createcnt ≠ s.createcnt ∨ s.used ≠ 1 then
        relookup tbl lookup img
      else
        some (img, [])

/-- The escape character written by `(char) 27`. -/
def ESC : String := String.singleton (Char.ofNat 27)

/-- The line printed before `abort()`. -/
def errorLine (name : String) : String :=
  "ERROR: " ++ ESC ++ "[1;31m Cannot resolve image " ++ name ++ " " ++ ESC ++ "[0;m\n"

/-- The line printed under `ERRMODE_WARN`. -/
def warningLine (name : String) : String :=
  "WARNING: " ++ ESC ++ "[1;35m Cannot resolve image " ++ name ++ " " ++ ESC ++ "[0;m\n"

/-- The function `resolveIMGID(img, ERRMODE)`: the resolution step, then the handling of
a handle that is still unresolved. -/
def resolveIMGID (E : ERRMODES) (tbl : List IMAGE) (lookup : String → Option Nat)
    (img : IMGID) (ERRMODE : Int) : Outcome :=
  match resolveStep tbl lookup img with
  | none => Outcome.undefined
  | some (img1, lk) =>
    if img1.ID = -1 then
      if ERRMODE = E.ERRMODE_FAIL ∨ ERRMODE = E.ERRMODE_ABORT then
        Outcome.aborted img1 lk [errorLine img1.name]
      else if ERRMODE = E.ERRMODE_WARN then
        Outcome.returned img1.ID img1 lk [warningLine img1.name]
      else
        Outcome.returned img1.ID img1 lk []
    else
      Outcome.returned img1.ID img1 lk []

/-! ## `makeIMGID` -/

/-- The words that `strtok(namestring, ">")` and the following calls `strtok(NULL, ">")`
return, in order, for the delimiter `d`: the maximal runs of characters other than `d`.
The second argument collects, in reverse, the characters of the word being read. -/
def strtokWords (d : Char) : List Char → List Char → List (List Char)
  | [], cur => if cur = [] then [] else [cur.reverse]
  | c :: cs, cur =>
    if c = d then
      (if cur = [] then strtokWords d cs [] else cur.reverse :: strtokWords d cs [])
    else
      strtokWords d cs (c :: cur)

/-- The white space that a conversion of `sscanf` skips (`isspace` in the C locale). -/
def isspace (c : Char) : Bool :=
  c = ' ' || c = '\t' || c = '\n' || c = Char.ofNat 11 || c = Char.ofNat 12 || c = '\r'

/-- The number written by a run of decimal digits, the most significant first. -/
def decValue (ds : List Char) : Nat :=
  ds.foldl (fun a c => 10 * a + (c.toNat - 48)) 0

/-- The conversion `%d` of `sscanf` applied to the input `s`: white space is skipped, a
sign is accepted, then the longest run of decimal digits is read.  `none` when there is
no digit to read, in which case `sscanf` stores nothing. -/
def scanInt (s : List Char) : Option Int :=
  let s1 := s.dropWhile isspace
  let neg := s1.head? = some '-'
  let s2 := if s1.head? = some '-' ∨ s1.head? = some '+' then s1.tail else s1
  let ds := s2.takeWhile Char.isDigit
  if ds = [] then none
  else some (if neg then -((decValue ds : Nat) : Int) else ((decValue ds : Nat) : Int))

/-- The value of `v` after `int v; sscanf(pch, "k%d", &v);` (and the same with `c`) for
a word `pch` whose first character is the letter of the format.  When nothing is
converted, `sscanf` stores nothing and `v` keeps the indeterminate value of a variable
that was never written: `some none`.  The statements are undefined (`none`) when the
number does not fit an `int`. -/
def scanField (pch : List Char) : Option (Option Int) :=
  match scanInt pch.tail with
  | none => some none
  | some v => if -2147483648 ≤ v ∧ v ≤ 2147483647 then some (some v) else none

/-- The body of the `while(pch != NULL)` loop of `makeIMGID` for the word `pch`, without
the lines it prints. -/
def applyWord (img : IMGID) (pch : List Char) : Option IMGID := do
  let img := if pch = "s".toList then { img with shared := 1 } else img
  let img := if pch = "tui8".toList then { img with datatype := DATATYPE.UINT8 } else img
  let img := if pch = "tsi8".toList then { img with datatype := DATATYPE.INT8 } else img
  let img := if pch = "tui16".toList then { img with datatype := DATATYPE.UINT16 } else img
  let img := if pch = "tsi16".toList then { img with datatype := DATATYPE.INT16 } else img
  let img := if pch = "tui32".toList then { img with datatype := DATATYPE.UINT32 } else img
  let img := if pch = "tsi32".toList then { img with datatype := DATATYPE.INT32 } else img
  let img := if pch = "tui64".toList then { img with datatype := DATATYPE.UINT64 } else img
  let img := if pch = "tsi64".toList then { img with datatype := DATATYPE.INT64 } else img
  let img := if pch = "tf32".toList then { img with datatype := DATATYPE.FLOAT } else img
  let img := if pch = "tf64".toList then { img with datatype := DATATYPE.DOUBLE } else img
  let img ← if pch.head? = some 'k' then
      (scanField pch).map (fun v => { img with NBkw := v })
    else some img
  let img ← if pch.head? = some 'c' then
      (scanField pch).map (fun v => { img with CBsize := v })
    else some img
  return img

/-- The `while(pch != NULL)` loop of `makeIMGID` over the words that `strtok` returns. -/
def wordLoop : IMGID → List (List Char) → Option IMGID
  | img, [] => some img
  | img, pch :: rest =>
    match applyWord img pch with
    | none => none
    | some img1 => wordLoop img1 rest

/-- The handle after the assignments `// default values for image creation`; the fields
written only at the end of `makeIMGID` carry the values they will get there, and
`size[2]` is not written. -/
def defaultIMGID : IMGID :=
  { ID := -1, name := "", im := none, md := none, createcnt := -1,
    datatype := DATATYPE.FLOAT, naxis := 2, size := [some 1, some 1, none],
    shared := 0, NBkw := some 100, CBsize := some 0 }

/-- The function `makeIMGID(name)`.  `NAMELEN` is the size of the array `img.name`, which
is declared outside the sources at hand.  The result is `none` where the C code has no
defined behaviour: `strcpy` into `namestring[200]` or into `img.name` past the end of
the array, `pch1` read without a word having been found, and a number after `k` or `c`
that does not fit an `int`. -/
def makeIMGID (NAMELEN : Nat) (name : String) : Option IMGID :=
  if 200 ≤ name.utf8ByteSize then none
  else
    let words := strtokWords '>' name.toList []
    match words.getLast? with
    | none => none
    | some pch1 =>
      match wordLoop defaultIMGID words with
      | none => none
      | some img =>
        if NAMELEN ≤ (String.mk pch1).utf8ByteSize then none
        else some { img with ID := -1, createcnt := -1, name := String.mk pch1,
                             im := none, md := none }

/-- The function `makeIMGID_2D(name, xsize, ysize)`. -/
def makeIMGID_2D (NAMELEN : Nat) (name : String) (xsize ysize : Nat) : Option IMGID :=
  (makeIMGID NAMELEN name).map fun img =>
    { img with naxis := 2, size := (img.size.set 0 (some xsize)).set 1 (some ysize) }

/-- The function `makeIMGID_3D(name, xsize, ysize, zsize)`. -/
def makeIMGID_3D (NAMELEN : Nat) (name : String) (xsize ysize zsize : Nat) : Option IMGID :=
  (makeIMGID NAMELEN name).map fun img =>
    { img with naxis := 3,
               size := ((img.size.set 0 (some xsize)).set 1 (some ysize)).set 2 (some zsize) }

/-! ## Sample data used by the instances below -/

/-- A choice of pairwise distinct error mode codes. -/
def sampleModes : ERRMODES :=
  { ERRMODE_WARN := 1, ERRMODE_FAIL := 2, ERRMODE_ABORT := 3 }

/-- A table with two streams in use and one free slot. -/
def sampleTable : List IMAGE :=
  [ { name := "im0", used := 1, createcnt := 4, md := 1000 },
    { name := "", used := 0, createcnt := 7, md := 0 },
    { name := "im2", used := 1, createcnt := 2, md := 3000 } ]

/-- A handle as `makeIMGID` leaves it, for the given name. -/
def freshHandle (name : String) : IMGID :=
  { ID := -1, name := name, im := none, md := none, createcnt := -1,
    datatype := DATATYPE.FLOAT, naxis := 2, size := [some 1, some 1, none],
    shared := 0, NBkw := some 100, CBsize := some 0 }

/-- A handle that points at slot 0 of `sampleTable` with the counter of that slot, but
whose cached pointers were never filled in. -/
def bareHandle : IMGID :=
  { freshHandle "im0" with ID := 0, createcnt := 4 }

/-- A handle resolved to slot 2 of `sampleTable` at a time when the counter of the slot
was 1. -/
def staleHandle (name : String) : IMGID :=
  { freshHandle name with ID := 2, im := some 2, md := some 2000, createcnt := 1 }

/-- A handle resolved to slot 2 of `sampleTable`, holding the counter, the slot pointer
and the metadata address of that slot. -/
def cachedHandle : IMGID :=
  { freshHandle "im2" with ID := 2, im := some 2, md := some 3000, createcnt := 2 }

/-- The words that `makeIMGID` takes for a setting by comparing the whole word. -/
def optionWords : List (List Char) :=
  ["s".toList, "tui8".toList, "tsi8".toList, "tui16".toList, "tsi16".toList,
   "tui32".toList, "tsi32".toList, "tui64".toList, "tsi64".toList, "tf32".toList,
   "tf64".toList]

/-- A character that `%d` reads as a digit: it is neither white space, nor a sign, nor
the separator `>`. -/
def plainDigit (c : Char) : Prop :=
  c.isDigit = true ∧ isspace c = false ∧ c ≠ '-' ∧ c ≠ '+' ∧ c ≠ '>'

/-! ## Return codes -/

/-- The codes `RETURN_SUCCESS` and `RETURN_FAILURE`, defined outside the sources at hand
and taken as parameters. -/
structure RETURNCODES where
  RETURN_SUCCESS : Int
  RETURN_FAILURE : Int
  deriving DecidableEq, Repr

/-! ## The standard compute loop (`INSERT_STD_PROCINFO_COMPUTEFUNC_START` / `_END`) -/

/-- How the code placed between the two macros ends in one cycle: it runs to its end,
`value` being what the step it wraps returned, or it ends the process (`abort()`,
`exit()`) and nothing after it is executed. -/
inductive BodyEnd where
  | returns (value : Int)
  | endsProcess
  deriving DecidableEq, Repr

/-- What the surroundings answer during one cycle of the loop: the value returned by
`processinfo_loopstep`, the value returned by `processinfo_compute_status`, and how the
body ends if it is run. -/
structure Cycle where
  loopstep : Int
  compstatus : Int
  body : BodyEnd
  deriving DecidableEq, Repr

/-- The calls made by the code of the two macros, and the run of the body. -/
inductive LoopCall where
  | processinfo_setup (name : String)
  | fps_to_processinfo
  | image_ID (name : String)
  | processinfo_waitoninputstream_init
  | processinfo_loopstart
  | processinfo_loopstep
  | processinfo_waitoninputstream
  | processinfo_exec_start
  | processinfo_compute_status
  | body
  | processinfo_exec_end
  | processinfo_cleanExit
  deriving DecidableEq, Repr

/-- How a run of the loop stands when the recorded answers are used up: the `while` loop
has been left and the code after it has run (`left`), the process was ended inside the
loop or before it (`ended`), or the loop is still running and waits for the answers of
a further cycle (`running`). -/
inductive LoopEnd where
  | left
  | ended
  | running
  deriving DecidableEq, Repr

/-- The settings that the macros read: the flag `CLICMDFLAG_PROCINFO` of the command,
`CLIcmddata.key`, whether `data.fpsptr` is not `NULL`, `data.FPS_name`, and the name of
the trigger stream. -/
structure LoopSetup where
  PROCINFO : Bool
  key : String
  fpsptr : Bool
  FPS_name : String
  triggerstreamname : String
  deriving DecidableEq, Repr

/-- The value of `snprintf(pinfodescr, 200, "function %.10s", key)`: nine characters and
at most ten bytes of the key. -/
def pinfodescr_slen (key : String) : Nat :=
  9 + min 10 key.utf8ByteSize

/-- The code of `INSERT_STD_PROCINFO_COMPUTEFUNC_START` before the `while`: the calls it
makes, or `none` when it calls `abort()`. -/
def loopStart (S : LoopSetup) : Option (List LoopCall) :=
  if S.PROCINFO then
    if pinfodescr_slen S.key < 1 then none
    else if 200 ≤ pinfodescr_slen S.key then none
    else
      some ((if S.fpsptr then
              [LoopCall.processinfo_setup S.FPS_name, LoopCall.fps_to_processinfo]
            else
              [LoopCall.processinfo_setup S.key]) ++
        [LoopCall.image_ID S.triggerstreamname,
         LoopCall.processinfo_waitoninputstream_init,
         LoopCall.processinfo_loopstart])
  else some []

/-- The loop `while(processloopOK == 1) ...` with the body between the two macros, run
on the answers of the successive cycles; the second argument is `processloopOK`.  The
result lists the calls made and tells how the run stands. -/
def whileLoop (PROCINFO : Bool) : List Cycle → Int → List LoopCall × LoopEnd
  | [], processloopOK =>
    if processloopOK = 1 then ([], LoopEnd.running) else ([], LoopEnd.left)
  | c :: rest, processloopOK =>
    if processloopOK = 1 then
      let ok1 : Int := if PROCINFO then c.loopstep else 0
      let head : List LoopCall :=
        if PROCINFO then
          [LoopCall.processinfo_loopstep, LoopCall.processinfo_waitoninputstream,
           LoopCall.processinfo_exec_start]
        else []
      let processcompstatus : Int := if PROCINFO then c.compstatus else 1
      let status : List LoopCall :=
        if PROCINFO then [LoopCall.processinfo_compute_status] else []
      let tail : List LoopCall :=
        if PROCINFO then [LoopCall.processinfo_exec_end] else []
      if processcompstatus = 1 then
        match c.body with
        | BodyEnd.endsProcess => (head ++ status ++ [LoopCall.body], LoopEnd.ended)
        | BodyEnd.returns _ =>
          let r := whileLoop PROCINFO rest ok1
          (head ++ status ++ [LoopCall.body] ++ tail ++ r.1, r.2)
      else
        let r := whileLoop PROCINFO rest ok1
        (head ++ status ++ tail ++ r.1, r.2)
    else ([], LoopEnd.left)

/-- The code of the two macros around a body: the start, the loop, and after the loop
the call of `processinfo_cleanExit` when the flag is set. -/
def stdLoop (S : LoopSetup) (cycles : List Cycle) : List LoopCall × LoopEnd :=
  match loopStart S with
  | none => ([], LoopEnd.ended)
  | some start =>
    let r := whileLoop S.PROCINFO cycles 1
    match r.2 with
    | LoopEnd.left =>
      (start ++ r.1 ++ (if S.PROCINFO then [LoopCall.processinfo_cleanExit] else []),
       LoopEnd.left)
    | e => (start ++ r.1, e)

/-- The function `compute_function` of `savefits.c`: the standard loop around the call
`saveFITS(inimname, outfname, *outbitpix)`, whose value is not kept, then
`return RETURN_SUCCESS`.  In each cycle the body ends as the call of `saveFITS` does.
The result is the value returned, `none` when the function does not return. -/
def compute_function (R : RETURNCODES) (S : LoopSetup) (cycles : List Cycle) :
    List LoopCall × Option Int :=
  match stdLoop S cycles with
  | (calls, LoopEnd.left) => (calls, some R.RETURN_SUCCESS)
  | (calls, _) => (calls, none)

/-- The calls of one cycle of the loop when the flag is set and the body, if run,
returns. -/
def cycleCalls (c : Cycle) : List LoopCall :=
  [LoopCall.processinfo_loopstep, LoopCall.processinfo_waitoninputstream,
   LoopCall.processinfo_exec_start, LoopCall.processinfo_compute_status] ++
  (if c.compstatus = 1 then [LoopCall.body] else []) ++
  [LoopCall.processinfo_exec_end]

/-- The cycles that a run goes through: all cycles up to and including the first one in
which `processinfo_loopstep` returns a value other than 1. -/
def executed : List Cycle → List Cycle
  | [] => []
  | c :: rest => if c.loopstep = 1 then c :: executed rest else [c]

/-- Whether `processinfo_loopstep` returns a value other than 1 in one of the cycles, so
that the loop is left. -/
def stops (cycles : List Cycle) : Bool :=
  cycles.any fun c => decide (c.loopstep ≠ 1)

/-- The calls `processinfo_exec_start` and `processinfo_exec_end`. -/
def isExecBracket : LoopCall → Bool
  | LoopCall.processinfo_exec_start => true
  | LoopCall.processinfo_exec_end => true
  | _ => false

/-- The calls `processinfo_loopstep` and `processinfo_exec_end`. -/
def isStepOrEnd : LoopCall → Bool
  | LoopCall.processinfo_loopstep => true
  | LoopCall.processinfo_exec_end => true
  | _ => false

/-- The settings of the command `saveFITS` run with the flag set and a parameter
structure connected. -/
def sampleSetup : LoopSetup :=
  { PROCINFO := true, key := "saveFITS", fpsptr := true, FPS_name := "savefits-00",
    triggerstreamname := "trig" }

/-- A choice of distinct return codes. -/
def sampleCodes : RETURNCODES :=
  { RETURN_SUCCESS := 0, RETURN_FAILURE := 1 }

/-- How a body made of the single call `resolveIMGID(img, ERRMODE)` ends, given how the
call ends; nothing is said (`none`) for a call with undefined behaviour. -/
def resolveBody : Outcome → Option BodyEnd
  | Outcome.returned r _ _ _ => some (BodyEnd.returns r)
  | Outcome.aborted _ _ _ => some BodyEnd.endsProcess
  | Outcome.undefined => none

/-! ## The standard FPS run function and CLI function -/

/-- The mode given to `FPS_CONNECT`. -/
inductive FPSCONNECT where
  | FPSCONNECT_CONF
  | FPSCONNECT_RUN
  deriving DecidableEq, Repr

/-- The calls made by `FPSRUNfunction`.  A call records the value that `data.fpsptr` has
when it is made: `none` for `NULL`, the name of the connected structure for `&fps`. -/
inductive RunCall where
  | FPS_CONNECT (name : String) (mode : FPSCONNECT)
  | STD_FARG_LINKfunction (fpsptr : Option String)
  | compute_function (fpsptr : Option String)
  | function_parameter_RUNexit (fps : String) (fpsptr : Option String)
  deriving DecidableEq, Repr

/-- The state that `FPSRUNfunction` works on: the global `data.fpsptr` and the calls made
so far. -/
structure RunState where
  fpsptr : Option String
  calls : List RunCall
  deriving DecidableEq, Repr

/-- The function `FPSRUNfunction` of `INSERT_STD_FPSRUNfunction`, for a connection that
succeeds (`FPS_CONNECT` is a macro defined outside the sources at hand).  `FPS_name` is
`data.FPS_name`, `fpsptr0` the value of `data.fpsptr` on entry, `compute` how
`compute_function` ends.  The result is the final state and the value returned, `none`
when the function does not return. -/
def FPSRUNfunction (FPS_name : String) (fpsptr0 : Option String) (compute : BodyEnd) :
    RunState × Option Int :=
  let s0 : RunState := { fpsptr := fpsptr0, calls := [] }
  -- FPS_CONNECT(data.FPS_name, FPSCONNECT_RUN);
  let s1 : RunState :=
    { s0 with calls := s0.calls ++ [RunCall.FPS_CONNECT FPS_name FPSCONNECT.FPSCONNECT_RUN] }
  -- data.fpsptr = &fps;
  let s2 : RunState := { s1 with fpsptr := some FPS_name }
  -- STD_FARG_LINKfunction
  let s3 : RunState := { s2 with calls := s2.calls ++ [RunCall.STD_FARG_LINKfunction s2.fpsptr] }
  -- errno_t fret = compute_function();
  let s4 : RunState := { s3 with calls := s3.calls ++ [RunCall.compute_function s3.fpsptr] }
  match compute with
  | BodyEnd.endsProcess => (s4, none)
  | BodyEnd.returns fret =>
    -- data.fpsptr = NULL;
    let s5 : RunState := { s4 with fpsptr := none }
    -- function_parameter_RUNexit(&fps);
    let s6 : RunState :=
      { s5 with calls := s5.calls ++ [RunCall.function_parameter_RUNexit FPS_name s5.fpsptr] }
    -- return fret;
    (s6, some fret)

/-- The code `RETURN_CLICHECKARGARRAY_SUCCESS`. -/
def RETURN_CLICHECKARGARRAY_SUCCESS : Int := 0

/-- The code `RETURN_CLICHECKARGARRAY_FAILURE`. -/
def RETURN_CLICHECKARGARRAY_FAILURE : Int := 1

/-- The code `RETURN_CLICHECKARGARRAY_FUNCPARAMSET`. -/
def RETURN_CLICHECKARGARRAY_FUNCPARAMSET : Int := 2

/-- The code `RETURN_CLICHECKARGARRAY_HELP`. -/
def RETURN_CLICHECKARGARRAY_HELP : Int := 3

/-- The calls made by `CLIfunction` of `INSERT_STD_FPSCLIfunction`. -/
inductive CLICall where
  | function_parameter_getFPSargs_from_CLIfunc
  | function_parameter_execFPScmd
  | CLI_checkarg_array
  | STD_FARG_LINKfunction
  | compute_function
  | help_function
  deriving DecidableEq, Repr

/-- The function `CLIfunction` of `INSERT_STD_FPSCLIfunction`.  `fpsFlag` tells whether
the command has the flag `CLICMDFLAG_FPS`, `FPS_CMDCODE` is the value of
`data.FPS_CMDCODE` when it is tested, `retval` the value returned by
`CLI_checkarg_array` and `compute` the value returned by `compute_function`, for the
case that they are called.  The result lists the calls made and gives the value
returned. -/
def CLIfunction (R : RETURNCODES) (fpsFlag : Bool) (FPS_CMDCODE : Int) (retval : Int)
    (compute : Int) : List CLICall × Int :=
  let calls0 : List CLICall :=
    if fpsFlag then [CLICall.function_parameter_getFPSargs_from_CLIfunc] else []
  if fpsFlag = true ∧ FPS_CMDCODE ≠ 0 then
    (calls0 ++ [CLICall.function_parameter_execFPScmd], R.RETURN_SUCCESS)
  else
    let calls1 := calls0 ++ [CLICall.CLI_checkarg_array]
    if retval = RETURN_CLICHECKARGARRAY_SUCCESS then
      (calls1 ++ [CLICall.STD_FARG_LINKfunction, CLICall.compute_function], compute)
    else if retval = RETURN_CLICHECKARGARRAY_HELP then
      (calls1 ++ [CLICall.help_function], R.RETURN_SUCCESS)
    else if retval = RETURN_CLICHECKARGARRAY_FUNCPARAMSET then
      (calls1, R.RETURN_SUCCESS)
    else
      (calls1, retval)

/-! ## tmux sessions (`fps_tmux.c`) -/

/-- The fields of `fps[fpsindex].md` read by `fps_tmux.c`.  `nameindexW` holds the
entries `nameindexW[0]` ... `nameindexW[NBnameindex - 1]` of the name-index table, so
`NBnameindex` is the length of the list. -/
structure FPS_MD where
  name : String
  callprogname : String
  callfuncname : String
  nameindexW : List String
  deriving DecidableEq, Repr

/-- The shell commands that `fps_tmux.c` hands to `EXECUTE_SYSTEM_COMMAND`.  `keys` are
the arguments after the target, as they are written in the command line; `quiet` tells
whether the line ends with `2> /dev/null`. -/
inductive TmuxCmd where
  | send_keys (session window : String) (keys : List String) (quiet : Bool)
  | kill_session (session : String)
  | new_session (session : String)
  | rename_window (session : String) (index : Nat) (name : String)
  | new_window (session name : String)
  deriving DecidableEq, Repr

/-- The command line of a command, as the format strings of `fps_tmux.c` write it. -/
def TmuxCmd.text : TmuxCmd → String
  | TmuxCmd.send_keys s w keys quiet =>
    "tmux send-keys -t " ++ s ++ ":" ++ w ++ " " ++ String.intercalate " " keys ++
      (if quiet then " 2> /dev/null" else "")
  | TmuxCmd.kill_session s => "tmux kill-session -t " ++ s ++ " 2> /dev/null"
  | TmuxCmd.new_session s => "tmux new-session -s " ++ s ++ " -d"
  | TmuxCmd.rename_window s i n => "tmux rename-window -t " ++ s ++ ":" ++ toString i ++ " " ++ n
  | TmuxCmd.new_window s n => "tmux new-window -t " ++ s ++ " -n " ++ n

/-- The function `functionparameter_FPS_tmux_kill`: the commands issued, in order, and
the value returned.  `EXECUTE_SYSTEM_COMMAND` is a macro defined outside the sources at
hand; it is taken to run the command line and return. -/
def functionparameter_FPS_tmux_kill (R : RETURNCODES) (md : FPS_MD) : List TmuxCmd × Int :=
  ([ TmuxCmd.send_keys md.name "ctrl" ["C-c"] true,
     TmuxCmd.send_keys md.name "ctrl" ["\"exit\"", "C-m"] true,
     TmuxCmd.send_keys md.name "conf" ["C-c"] true,
     TmuxCmd.send_keys md.name "conf" ["\"exit\"", "C-m"] true,
     TmuxCmd.send_keys md.name "run" ["C-c"] true,
     TmuxCmd.send_keys md.name "run" ["\"exit\"", "C-m"] true,
     TmuxCmd.kill_session md.name ],
   R.RETURN_SUCCESS)

/-- The longest prefix of the characters `cs` that takes at most `n` bytes. -/
def takeBytes : Nat → List Char → List Char
  | _, [] => []
  | n, c :: cs => if c.utf8Size ≤ n then c :: takeBytes (n - c.utf8Size) cs else []

/-- The string that `snprintf(buf, maxlen, "%s...", ...)` leaves in `buf` when the text
to write is `s`: the text itself if it takes fewer than `maxlen` bytes, else what fits in
`maxlen - 1` bytes (a character cut in the middle is left out whole). -/
def snprintf (maxlen : Nat) (s : String) : String :=
  if s.utf8ByteSize < maxlen then s else String.mk (takeBytes (maxlen - 1) s.toList)

/-- The content of `argstring` after the code of `functionparameter_FPS_tmux_init` that
fills it, `argstring_maxlen` being 1000: the first entry of the table, or a single space
when the table is empty, then for each further entry
`snprintf(argstringcp, 1000, "%s %s", argstring, entry); strcpy(argstring, argstringcp)`. -/
def argstring (md : FPS_MD) : String :=
  match md.nameindexW with
  | [] => " "
  | e0 :: rest => rest.foldl (fun a e => snprintf 1000 (a ++ " " ++ e)) (snprintf 1000 e0)

/-- The text that `sprintf(functionstring, ...)` writes for `fpsconfstart`. -/
def functionstring_confstart (md : FPS_MD) : String :=
  "function fpsconfstart \x7b\n" ++
  "echo \"STARTING CONF PROCESS\"\n" ++
  md.callprogname ++ "-exec -n " ++ md.name ++ " \\\"" ++ md.callfuncname ++
    " _CONFSTART_ " ++ argstring md ++ "\\\"\n" ++
  "\x7d\n"

/-- The text that `sprintf(functionstring, ...)` writes for `fpsrunstart`. -/
def functionstring_runstart (md : FPS_MD) : String :=
  "function fpsrunstart \x7b\n" ++
  "echo \"STARTING RUN PROCESS\"\n" ++
  md.callprogname ++ "-exec -n " ++ md.name ++ " \\\"" ++ md.callfuncname ++
    " _RUNSTART_ " ++ argstring md ++ "\\\"\n" ++
  "\x7d\n"

/-- The text that `sprintf(functionstring, ...)` writes for `fpsrunstop`. -/
def functionstring_runstop (md : FPS_MD) : String :=
  "function fpsrunstop \x7b\n" ++
  "echo \"STOPPING RUN PROCESS\"\n" ++
  md.callprogname ++ "-exec -n " ++ md.name ++ " \\\"" ++ md.callfuncname ++
    " _RUNSTOP_ " ++ argstring md ++ "\\\"\n" ++
  "\x7d\n"

/-- The function `functionparameter_FPS_tmux_init`: the commands issued, in order, and
the value returned; `none` when one of the three texts does not fit the array
`functionstring` of `funcstring_maxlen` = 2000 bytes, `sprintf` then writing past its
end. -/
def functionparameter_FPS_tmux_init (R : RETURNCODES) (md : FPS_MD) :
    Option (List TmuxCmd × Int) :=
  let start : List TmuxCmd :=
    (functionparameter_FPS_tmux_kill R md).1 ++
    [ TmuxCmd.kill_session md.name,
      TmuxCmd.new_session md.name,
      TmuxCmd.rename_window md.name 0 "ctrl",
      TmuxCmd.new_window md.name "conf",
      TmuxCmd.new_window md.name "run" ]
  if 2000 ≤ (functionstring_confstart md).utf8ByteSize then none
  else
    let c1 := TmuxCmd.send_keys md.name "conf"
      ["\"" ++ functionstring_confstart md ++ "\"", "C-m"] false
    if 2000 ≤ (functionstring_runstart md).utf8ByteSize then none
    else
      let c2 := TmuxCmd.send_keys md.name "run"
        ["\"" ++ functionstring_runstart md ++ "\"", "C-m"] false
      if 2000 ≤ (functionstring_runstop md).utf8ByteSize then none
      else
        let c3 := TmuxCmd.send_keys md.name "run"
          ["\"" ++ functionstring_runstop md ++ "\"", "C-m"] false
        some (start ++ [c1, c2, c3], R.RETURN_SUCCESS)

/-- A window of a tmux session: its name and the keys sent to it so far. -/
structure TmuxWindow where
  name : String
  typed : List String
  deriving DecidableEq, Repr

/-- A tmux session: its name and its windows, in the order of their indices. -/
structure TmuxSession where
  name : String
  windows : List TmuxWindow
  deriving DecidableEq, Repr

/-- The effect of `tmux send-keys -t session:window keys` on one session.  `typing`
tells what becomes of a window when keys are sent to it (`none`: the window has
closed); a session whose last window has closed ends. -/
def sendKeysTo (typing : TmuxWindow → List String → Option TmuxWindow)
    (session window : String) (keys : List String) (s : TmuxSession) :
    Option TmuxSession :=
  if s.name = session then
    let ws := s.windows.filterMap fun w => if w.name = window then typing w keys else some w
    if ws = [] ∧ s.windows ≠ [] then none else some { s with windows := ws }
  else some s

/-- Whether a session has another name than `session`. -/
def notNamed (session : String) (s : TmuxSession) : Bool :=
  decide (s.name ≠ session)

/-- A model of the tmux server, the state being the list of sessions: a command aimed at
a session or a window that does not exist has no effect; `send-keys` acts on the window
it names, `kill-session` removes the session it names, `new-session` adds a session with
one window unless the name is taken, `rename-window` and `new-window` act on the session
they name. -/
def tmuxRun (typing : TmuxWindow → List String → Option TmuxWindow) :
    TmuxCmd → List TmuxSession → List TmuxSession
  | TmuxCmd.send_keys session window keys _, st =>
    st.filterMap (sendKeysTo typing session window keys)
  | TmuxCmd.kill_session session, st => st.filter (notNamed session)
  | TmuxCmd.new_session session, st =>
    if st.any (fun s => decide (s.name = session)) then st
    else st ++ [{ name := session, windows := [{ name := "", typed := [] }] }]
  | TmuxCmd.rename_window session index name, st =>
    st.map fun s =>
      if s.name = session then
        { s with windows := s.windows.modify (fun w => { w with name := name }) index }
      else s
  | TmuxCmd.new_window session name, st =>
    st.map fun s =>
      if s.name = session then
        { s with windows := s.windows ++ [{ name := name, typed := [] }] }
      else s

/-- The state of the tmux server after the commands have been run in order. -/
def tmuxRunAll (typing : TmuxWindow → List String → Option TmuxWindow)
    (cmds : List TmuxCmd) (st : List TmuxSession) : List TmuxSession :=
  cmds.foldl (fun st c => tmuxRun typing c st) st

/-- Keys sent to a window are added to what the window has received; the window stays. -/
def recordKeys (w : TmuxWindow) (keys : List String) : Option TmuxWindow :=
  some { w with typed := w.typed ++ keys }

/-- The metadata of a parameter structure with two entries in its name-index table. -/
def sampleMD : FPS_MD :=
  { name := "savefits-00", callprogname := "milk", callfuncname := "saveFITS",
    nameindexW := ["00", "cam"] }

/-- A tmux server with the session of `sampleMD` and a session of another name. -/
def sampleServer : List TmuxSession :=
  [ { name := "savefits-00",
      windows := [{ name := "ctrl", typed := [] }, { name := "conf", typed := [] },
                  { name := "run", typed := [] }] },
    { name := "other", windows := [{ name := "ctrl", typed := [] }] } ]

/-! ## Saving an image to a FITS file (`savefits.c`): files written and renamed -/

/-- The type-specific writers of `savefits.c`. -/
inductive Writer where
  | save_db_fits
  | save_fl_fits
  | save_sh16_fits
  | save_ush16_fits
  | save_int32_fits
  | save_uint32_fits
  | save_int64_fits
  deriving DecidableEq, Repr

/-- The image datatype that a writer stores without conversion. -/
def Writer.native : Writer → DATATYPE
  | Writer.save_db_fits => DATATYPE.DOUBLE
  | Writer.save_fl_fits => DATATYPE.FLOAT
  | Writer.save_sh16_fits => DATATYPE.INT16
  | Writer.save_ush16_fits => DATATYPE.UINT16
  | Writer.save_int32_fits => DATATYPE.INT32
  | Writer.save_uint32_fits => DATATYPE.UINT32
  | Writer.save_int64_fits => DATATYPE.INT64

/-- What the surroundings answer to a writer: the global `data.overwrite`, the function
`file_exists`, whether `malloc` returns a buffer, and the status that
`check_FITSIO_status` reports after `fits_create_file`. -/
structure WriterEnv where
  overwrite : Int
  file_exists : String → Bool
  malloc_ok : Bool
  create_status : Int

/-- The operations on files.  `fits_create_file` names the file in the way of the FITS
library, a leading `!` asking to overwrite the file; the three operations after it act
on the file it has opened.  `mv` is the shell command `mv src dst`. -/
inductive FileOp where
  | fits_create_file (name : String)
  | fits_create_img
  | fits_write_img
  | fits_close_file
  | mv (src dst : String)
  deriving DecidableEq, Repr

/-- The file that a name given to `fits_create_file` stands for. -/
def cfitsioFile (name : String) : String :=
  if name.toList.head? = some '!' then String.mk name.toList.tail else name

/-- The name `file_name1` that a writer gives to `fits_create_file`. -/
def file_name1 (env : WriterEnv) (w : Writer) (file_name : String) : String :=
  if w = Writer.save_db_fits then "!" ++ file_name
  else if env.overwrite = 1 ∧ file_name.toList.head? ≠ some '!' ∧
      env.file_exists file_name = true then "!" ++ file_name
  else file_name

/-- A type-specific writer called as `w(ID_name, file_name)`, at the level of the files
it touches: the operations made, and whether the writer returns (`false`: it calls
`exit(0)`).  `datatypeOf i` is the datatype in the metadata of slot `i`, `none` for a
code that is none of the ten `_DATATYPE_*` codes of the `switch`. -/
def writerRun (env : WriterEnv) (lookup : String → Option Nat)
    (datatypeOf : Nat → Option DATATYPE) (w : Writer) (ID_name file_name : String) :
    List FileOp × Bool :=
  match lookup ID_name with
  | none => ([], true)
  | some ID =>
    -- data conversion required: malloc, then the switch on the datatype
    if datatypeOf ID ≠ some w.native ∧ (env.malloc_ok = false ∨ datatypeOf ID = none) then
      ([], false)
    else if env.create_status ≠ 0 ∧ w ≠ Writer.save_db_fits ∧
        env.file_exists (file_name1 env w file_name) = true then
      ([FileOp.fits_create_file (file_name1 env w file_name)], false)
    else
      ([FileOp.fits_create_file (file_name1 env w file_name), FileOp.fits_create_img,
        FileOp.fits_write_img, FileOp.fits_close_file], true)

/-- The name of the temporary file, `"_savefits_atomic_%s_%d_%ld.tmp.fits"` filled with
the image name, the process id and the thread id. -/
def fnametmp (ID_name : String) (pid tid : Int) : String :=
  "_savefits_atomic_" ++ ID_name ++ "_" ++ toString pid ++ "_" ++ toString tid ++ ".tmp.fits"

/-- The writer that the `switch(datatype)` of `save_fits_atomic` calls. -/
def writerFor : DATATYPE → Writer
  | DATATYPE.UINT8 => Writer.save_ush16_fits
  | DATATYPE.INT8 => Writer.save_sh16_fits
  | DATATYPE.UINT16 => Writer.save_ush16_fits
  | DATATYPE.INT16 => Writer.save_sh16_fits
  | DATATYPE.UINT32 => Writer.save_uint32_fits
  | DATATYPE.INT32 => Writer.save_int32_fits
  | DATATYPE.UINT64 => Writer.save_int64_fits
  | DATATYPE.INT64 => Writer.save_int64_fits
  | DATATYPE.FLOAT => Writer.save_fl_fits
  | DATATYPE.DOUBLE => Writer.save_db_fits

/-- The function `save_fits_atomic(ID_name, file_name)`: the operations on files, and
the value returned, `none` when the process is ended by the writer.  `pid` and `tid` are
the values of `getpid()` and `pthread_self()`.  `WRITE_FILENAME` and
`EXECUTE_SYSTEM_COMMAND` are macros defined outside the sources at hand; they are taken
to format the name and to run the command. -/
def save_fits_atomic (R : RETURNCODES) (env : WriterEnv) (lookup : String → Option Nat)
    (datatypeOf : Nat → Option DATATYPE) (pid tid : Int) (ID_name file_name : String) :
    List FileOp × Option Int :=
  let savename := fnametmp ID_name pid tid
  match lookup ID_name with
  | none => ([], some R.RETURN_SUCCESS)
  | some ID =>
    let written : List FileOp × Bool :=
      match datatypeOf ID with
      | some d => writerRun env lookup datatypeOf (writerFor d) ID_name savename
      | none => ([], true)
    if written.2 then
      (written.1 ++ [FileOp.mv (fnametmp ID_name pid tid) file_name], some R.RETURN_SUCCESS)
    else (written.1, none)

/-- The function `save_fits(ID_name, file_name)`: `none` when the name copied does not
fit the array `savename[1000]`. -/
def save_fits (R : RETURNCODES) (env : WriterEnv) (lookup : String → Option Nat)
    (datatypeOf : Nat → Option DATATYPE) (pid tid : Int) (ID_name file_name : String) :
    Option (List FileOp × Option Int) :=
  let savename : String :=
    if file_name.toList.head? = some '!' then String.mk file_name.toList.tail else file_name
  if 1000 ≤ savename.utf8ByteSize then none
  else some (save_fits_atomic R env lookup datatypeOf pid tid ID_name savename)

/-- The files that the operations create or write. -/
def filesWritten (ops : List FileOp) : List String :=
  ops.filterMap fun op =>
    match op with
    | FileOp.fits_create_file n => some (cfitsioFile n)
    | _ => none

/-- The renames among the operations. -/
def renames (ops : List FileOp) : List (String × String) :=
  ops.filterMap fun op =>
    match op with
    | FileOp.mv s d => some (s, d)
    | _ => none

/-- Surroundings in which no file exists yet, `malloc` succeeds and the FITS library
reports no error. -/
def quietEnv : WriterEnv :=
  { overwrite := 0, file_exists := fun _ => false, malloc_ok := true, create_status := 0 }

/-- Surroundings in which `malloc` returns `NULL`. -/
def noMemoryEnv : WriterEnv :=
  { overwrite := 0, file_exists := fun _ => false, malloc_ok := false, create_status := 0 }

/-- The datatypes of the slots of `sampleTable`: slot 0 holds 8-bit unsigned integers,
slot 2 floats. -/
def sampleDatatype : Nat → Option DATATYPE
  | 0 => some DATATYPE.UINT8
  | 2 => some DATATYPE.FLOAT
  | _ => none

/-- Surroundings in which every file asked for exists already, `data.overwrite` is 0, and
the FITS library reports that it could not create the file. -/
def staleFileEnv : WriterEnv :=
  { overwrite := 0, file_exists := fun _ => true, malloc_ok := true, create_status := 105 }

/-! ## Saving an image to a FITS file: element types and buffers -/

/-- The in-memory element types of the FITS library that `savefits.c` names. -/
inductive FITSIOTYPE where
  | TBYTE | TSBYTE | TUSHORT | TSHORT | TUINT | TINT | TULONG | TLONG | TFLOAT | TDOUBLE
  deriving DecidableEq, Repr

/-- The on-disk image types of the FITS library that `savefits.c` names. -/
inductive IMGTYPE where
  | BYTE_IMG | SBYTE_IMG | SHORT_IMG | USHORT_IMG | LONG_IMG | ULONG_IMG
  | LONGLONG_IMG | ULONGLONG_IMG | FLOAT_IMG | DOUBLE_IMG
  deriving DecidableEq, Repr

/-- An element type: its width in bits, whether it is signed, whether it is a floating
point type. -/
structure ELEMENT where
  bits : Nat
  signed : Bool
  floating : Bool
  deriving DecidableEq, Repr

/-- The element type of an image datatype `_DATATYPE_*`. -/
def DATATYPE.element : DATATYPE → ELEMENT
  | DATATYPE.UINT8 => { bits := 8, signed := false, floating := false }
  | DATATYPE.INT8 => { bits := 8, signed := true, floating := false }
  | DATATYPE.UINT16 => { bits := 16, signed := false, floating := false }
  | DATATYPE.INT16 => { bits := 16, signed := true, floating := false }
  | DATATYPE.UINT32 => { bits := 32, signed := false, floating := false }
  | DATATYPE.INT32 => { bits := 32, signed := true, floating := false }
  | DATATYPE.UINT64 => { bits := 64, signed := false, floating := false }
  | DATATYPE.INT64 => { bits := 64, signed := true, floating := false }
  | DATATYPE.FLOAT => { bits := 32, signed := true, floating := true }
  | DATATYPE.DOUBLE => { bits := 64, signed := true, floating := true }

/-- The element type that the FITS library stores for an on-disk image type, as the
library defines the codes: `BYTE_IMG` is the unsigned and `SBYTE_IMG` the signed 8-bit
integer.  The library is outside the sources at hand. -/
def IMGTYPE.element : IMGTYPE → ELEMENT
  | IMGTYPE.BYTE_IMG => { bits := 8, signed := false, floating := false }
  | IMGTYPE.SBYTE_IMG => { bits := 8, signed := true, floating := false }
  | IMGTYPE.SHORT_IMG => { bits := 16, signed := true, floating := false }
  | IMGTYPE.USHORT_IMG => { bits := 16, signed := false, floating := false }
  | IMGTYPE.LONG_IMG => { bits := 32, signed := true, floating := false }
  | IMGTYPE.ULONG_IMG => { bits := 32, signed := false, floating := false }
  | IMGTYPE.LONGLONG_IMG => { bits := 64, signed := true, floating := false }
  | IMGTYPE.ULONGLONG_IMG => { bits := 64, signed := false, floating := false }
  | IMGTYPE.FLOAT_IMG => { bits := 32, signed := true, floating := true }
  | IMGTYPE.DOUBLE_IMG => { bits := 64, signed := true, floating := true }

/-- The element type that the FITS library reads from memory for an in-memory type, as
the library defines the codes: `TBYTE` is `unsigned char`, `TSBYTE` `signed char`,
`TUSHORT` and `TSHORT` the short, `TUINT` and `TINT` the plain and `TULONG` and `TLONG`
the long integers.  `LONGBITS` is the width of the C type `long`. -/
def FITSIOTYPE.element (LONGBITS : Nat) : FITSIOTYPE → ELEMENT
  | FITSIOTYPE.TBYTE => { bits := 8, signed := false, floating := false }
  | FITSIOTYPE.TSBYTE => { bits := 8, signed := true, floating := false }
  | FITSIOTYPE.TUSHORT => { bits := 16, signed := false, floating := false }
  | FITSIOTYPE.TSHORT => { bits := 16, signed := true, floating := false }
  | FITSIOTYPE.TUINT => { bits := 32, signed := false, floating := false }
  | FITSIOTYPE.TINT => { bits := 32, signed := true, floating := false }
  | FITSIOTYPE.TULONG => { bits := LONGBITS, signed := false, floating := false }
  | FITSIOTYPE.TLONG => { bits := LONGBITS, signed := true, floating := false }
  | FITSIOTYPE.TFLOAT => { bits := 32, signed := true, floating := true }
  | FITSIOTYPE.TDOUBLE => { bits := 64, signed := true, floating := true }

/-- The buffers handed to `fits_write_img`.  `image ID member` is
`data.image[ID].array.member`: the data of image `ID`, read through the member of the
union `array` for the datatype `member`.  `array ID src` is the local `array` after
`malloc` and the conversion loop of `case _DATATYPE_src`: a fresh buffer holding each
element of `data.image[ID].array.src` converted.  `NULL` is the null pointer. -/
inductive Buffer where
  | image (ID : Nat) (member : DATATYPE)
  | array (ID : Nat) (src : DATATYPE)
  | NULL
  deriving DecidableEq, Repr

/-- The calls made to the FITS library and to the shell, with the arguments that decide
what is stored.  The buffer of `fits_write_img` is `none` for a pointer that was never
assigned. -/
inductive FITSCall where
  | fits_create_file (name : String)
  | fits_create_img (bitpix : IMGTYPE)
  | fits_write_img (datatype : FITSIOTYPE) (buffer : Option Buffer)
  | fits_close_file
  | rm (name : String)
  | mv (src dst : String)
  deriving DecidableEq, Repr

/-- The three variables that the `switch(datatype)` of `saveFITS` sets. -/
structure TypeChoice where
  FITSIOdatatype : FITSIOTYPE
  bitpix : IMGTYPE
  datainptr : Option Buffer
  deriving DecidableEq, Repr

/-- The `switch(datatype)` of `saveFITS` for the image `IDin`, after the initialisations
`FITSIOdatatype = TFLOAT`, `bitpix = FLOAT_IMG` and the declaration of `datainptr`.  The
datatype is `none` for a code that is none of the ten cases; the `switch` has no
`default`. -/
def datatypeSwitch (IDin : Nat) : Option DATATYPE → TypeChoice
  | some DATATYPE.UINT8 =>
    { FITSIOdatatype := FITSIOTYPE.TBYTE, bitpix := IMGTYPE.BYTE_IMG,
      datainptr := some (Buffer.image IDin DATATYPE.UINT8) }
  | some DATATYPE.INT8 =>
    { FITSIOdatatype := FITSIOTYPE.TSBYTE, bitpix := IMGTYPE.SBYTE_IMG,
      datainptr := some (Buffer.image IDin DATATYPE.INT8) }
  | some DATATYPE.UINT16 =>
    { FITSIOdatatype := FITSIOTYPE.TUSHORT, bitpix := IMGTYPE.SHORT_IMG,
      datainptr := some (Buffer.image IDin DATATYPE.UINT16) }
  | some DATATYPE.INT16 =>
    { FITSIOdatatype := FITSIOTYPE.TUSHORT, bitpix := IMGTYPE.SHORT_IMG,
      datainptr := some (Buffer.image IDin DATATYPE.INT16) }
  | some DATATYPE.UINT32 =>
    { FITSIOdatatype := FITSIOTYPE.TUINT, bitpix := IMGTYPE.ULONG_IMG,
      datainptr := some (Buffer.image IDin DATATYPE.UINT32) }
  | some DATATYPE.INT32 =>
    { FITSIOdatatype := FITSIOTYPE.TINT, bitpix := IMGTYPE.LONG_IMG,
      datainptr := some (Buffer.image IDin DATATYPE.INT32) }
  | some DATATYPE.UINT64 =>
    { FITSIOdatatype := FITSIOTYPE.TULONG, bitpix := IMGTYPE.ULONGLONG_IMG,
      datainptr := some (Buffer.image IDin DATATYPE.UINT64) }
  | some DATATYPE.INT64 =>
    { FITSIOdatatype := FITSIOTYPE.TLONG, bitpix := IMGTYPE.LONGLONG_IMG,
      datainptr := some (Buffer.image IDin DATATYPE.INT64) }
  | some DATATYPE.FLOAT =>
    { FITSIOdatatype := FITSIOTYPE.TFLOAT, bitpix := IMGTYPE.FLOAT_IMG,
      datainptr := some (Buffer.image IDin DATATYPE.FLOAT) }
  | some DATATYPE.DOUBLE =>
    { FITSIOdatatype := FITSIOTYPE.TDOUBLE, bitpix := IMGTYPE.DOUBLE_IMG,
      datainptr := some (Buffer.image IDin DATATYPE.DOUBLE) }
  | none =>
    { FITSIOdatatype := FITSIOTYPE.TFLOAT, bitpix := IMGTYPE.FLOAT_IMG, datainptr := none }

/-- The `switch(outputbitpix)` of `saveFITS`: the value of `bitpix` after it, `bitpix`
being the value before.  The `switch` has no `default`. -/
def outputbitpixSwitch (outputbitpix : Int) (bitpix : IMGTYPE) : IMGTYPE :=
  if outputbitpix = 8 then IMGTYPE.BYTE_IMG
  else if outputbitpix = 10 then IMGTYPE.SBYTE_IMG
  else if outputbitpix = 16 then IMGTYPE.SHORT_IMG
  else if outputbitpix = 20 then IMGTYPE.USHORT_IMG
  else if outputbitpix = 32 then IMGTYPE.LONG_IMG
  else if outputbitpix = 40 then IMGTYPE.ULONG_IMG
  else if outputbitpix = 64 then IMGTYPE.LONGLONG_IMG
  else if outputbitpix = 80 then IMGTYPE.ULONGLONG_IMG
  else if outputbitpix = -32 then IMGTYPE.FLOAT_IMG
  else if outputbitpix = -64 then IMGTYPE.DOUBLE_IMG
  else bitpix

/-- The values that `check_FITSIO_status` returns after the four calls to the FITS
library in `saveFITS`. -/
structure FITSIOEnv where
  create_file : Int
  create_img : Int
  write_img : Int
  close_file : Int

/-- The function `saveFITS(inputimname, outputFITSname, outputbitpix)`: the calls made,
and the value returned, `none` when `abort()` is called.  `pid` and `tid` are the values
of `(int) getpid()` and `(long) pthread_self()`. -/
def saveFITS (R : RETURNCODES) (env : FITSIOEnv) (lookup : String → Option Nat)
    (datatypeOf : Nat → Option DATATYPE) (pid tid : Int)
    (inputimname outputFITSname : String) (outputbitpix : Int) :
    List FITSCall × Option Int :=
  let tmp := fnametmp inputimname pid tid
  match lookup inputimname with
  | none => ([], some R.RETURN_SUCCESS)
  | some IDin =>
    let c := datatypeSwitch IDin (datatypeOf IDin)
    let bitpix := outputbitpixSwitch outputbitpix c.bitpix
    if env.create_file ≠ 0 then ([FITSCall.fits_create_file tmp], none)
    else if env.create_img ≠ 0 then
      ([FITSCall.fits_create_file tmp, FITSCall.fits_create_img bitpix, FITSCall.rm tmp],
       some R.RETURN_FAILURE)
    else if env.write_img ≠ 0 ∧ env.write_img ≠ 412 then
      ([FITSCall.fits_create_file tmp, FITSCall.fits_create_img bitpix,
        FITSCall.fits_write_img c.FITSIOdatatype c.datainptr, FITSCall.rm tmp],
       some R.RETURN_FAILURE)
    else if env.close_file ≠ 0 then
      ([FITSCall.fits_create_file tmp, FITSCall.fits_create_img bitpix,
        FITSCall.fits_write_img c.FITSIOdatatype c.datainptr, FITSCall.fits_close_file,
        FITSCall.rm tmp],
       some R.RETURN_FAILURE)
    else
      ([FITSCall.fits_create_file tmp, FITSCall.fits_create_img bitpix,
        FITSCall.fits_write_img c.FITSIOdatatype c.datainptr, FITSCall.fits_close_file,
        FITSCall.mv tmp outputFITSname],
       some R.RETURN_SUCCESS)

/-- The on-disk image types asked for by the calls. -/
def imagesCreated (calls : List FITSCall) : List IMGTYPE :=
  calls.filterMap fun c =>
    match c with
    | FITSCall.fits_create_img t => some t
    | _ => none

/-- The in-memory types and buffers handed to `fits_write_img` by the calls. -/
def buffersWritten (calls : List FITSCall) : List (FITSIOTYPE × Option Buffer) :=
  calls.filterMap fun c =>
    match c with
    | FITSCall.fits_write_img t b => some (t, b)
    | _ => none

/-- The writer `save_int64_fits(ID_name, file_name)`: the calls made, and whether the
writer returns (`false`: it calls `exit(0)`).  The local `array` starts as `NULL`; it is
allocated and filled when `datatype != _DATATYPE_INT64`. -/
def save_int64_fits (env : WriterEnv) (lookup : String → Option Nat)
    (datatypeOf : Nat → Option DATATYPE) (ID_name file_name : String) :
    List FITSCall × Bool :=
  let name1 := file_name1 env Writer.save_int64_fits file_name
  match lookup ID_name with
  | none => ([], true)
  | some ID =>
    let array : Option Buffer :=
      if datatypeOf ID ≠ some DATATYPE.INT64 then
        if env.malloc_ok = false then none
        else
          match datatypeOf ID with
          | some d => some (Buffer.array ID d)
          | none => none
      else some Buffer.NULL
    match array with
    | none => ([], false)
    | some array =>
      if env.create_status ≠ 0 ∧ env.file_exists name1 = true then
        ([FITSCall.fits_create_file name1], false)
      else
        ([FITSCall.fits_create_file name1, FITSCall.fits_create_img IMGTYPE.LONGLONG_IMG,
          (if datatypeOf ID = some DATATYPE.INT32 then
            FITSCall.fits_write_img FITSIOTYPE.TLONG (some (Buffer.image ID DATATYPE.INT64))
          else FITSCall.fits_write_img FITSIOTYPE.TLONG (some array)),
          FITSCall.fits_close_file], true)

/-- The operations on files among the calls, without their arguments on types. -/
def FITSCall.fileOp : FITSCall → Option FileOp
  | FITSCall.fits_create_file n => some (FileOp.fits_create_file n)
  | FITSCall.fits_create_img _ => some FileOp.fits_create_img
  | FITSCall.fits_write_img _ _ => some FileOp.fits_write_img
  | FITSCall.fits_close_file => some FileOp.fits_close_file
  | FITSCall.rm _ => none
  | FITSCall.mv s d => some (FileOp.mv s d)

/-- The datatypes of the slots of a table with images of 64, 32 and 16 bits: slot 0
holds signed 64-bit, slot 1 signed 32-bit, slot 2 unsigned 16-bit and slot 3 signed
16-bit integers. -/
def integerDatatype : Nat → Option DATATYPE
  | 0 => some DATATYPE.INT64
  | 1 => some DATATYPE.INT32
  | 2 => some DATATYPE.UINT16
  | 3 => some DATATYPE.INT16
  | _ => none

/-- A lookup for the table of `integerDatatype`: the image "imN" is in slot N. -/
def integerLookup (name : String) : Option Nat :=
  if name = "im0" then some 0
  else if name = "im1" then some 1
  else if name = "im2" then some 2
  else if name = "im3" then some 3
  else none

/-- Answers of the FITS library without any error. -/
def noErrorEnv : FITSIOEnv :=
  { create_file := 0, create_img := 0, write_img := 0, close_file := 0 }

/-! ## Facts about the concrete lookup -/

theorem image_ID_from_spec (name : String) :
    ∀ (tbl : List IMAGE) (k i : Nat), image_ID_from name k tbl = some i →
      k ≤ i ∧ ∃ s, tbl[i - k]? = some s ∧ s.used = 1 ∧ s.name = name := by
  intro tbl
  induction tbl with
  | nil => intro k i h; simp [image_ID_from] at h
  | cons a rest ih =>
    intro k i h
    unfold image_ID_from at h
    split at h
    · rename_i hc
      cases h
      exact ⟨le_refl _, a, by simp, hc.1, hc.2⟩
    · obtain ⟨hk, s, hs, hu, hn⟩ := ih (k + 1) i h
      refine ⟨by omega, s, ?_, hu, hn⟩
      have : i - k = (i - (k + 1)) + 1 := by omega
      rw [this]
      simpa using hs

theorem image_ID_used (tbl : List IMAGE) (name : String) (i : Nat) (s : IMAGE)
    (h : image_ID tbl name = some i) (hs : tbl[i]? = some s) :
    s.used = 1 ∧ s.name = name := by
  obtain ⟨_, s', hs', hu, hn⟩ := image_ID_from_spec name tbl 0 i h
  simp only [Nat.sub_zero] at hs'
  rw [hs] at hs'
  cases hs'
  exact ⟨hu, hn⟩

/-! ## Facts about `resolveIMGID` -/

theorem slotAt_some_nonneg {tbl : List IMAGE} {i : Int} {s : IMAGE}
    (h : slotAt tbl i = some s) : 0 ≤ i := by
  unfold slotAt at h
  split at h
  · cases h
  · omega

theorem slotAt_natCast (tbl : List IMAGE) (i : Nat) : slotAt tbl (i : Int) = tbl[i]? := by
  simp [slotAt]

theorem relookup_found (tbl : List IMAGE) (lookup : String → Option Nat) (img : IMGID)
    (i : Nat) (s : IMAGE) (hl : lookup img.name = some i) (hs : tbl[i]? = some s) :
    relookup tbl lookup img =
      some ({ img with ID := (i : Int), im := some i, md := some s.md,
                       createcnt := s.createcnt }, [img.name]) := by
  have h1 : ((i : Int) > -1) := by omega
  simp [relookup, hl, toImageID, slotAt_natCast, hs, h1]

theorem relookup_absent (tbl : List IMAGE) (lookup : String → Option Nat) (img : IMGID)
    (hl : lookup img.name = none) :
    relookup tbl lookup img = some ({ img with ID := -1 }, [img.name]) := by
  simp [relookup, hl, toImageID]

theorem resolveStep_unresolved (tbl : List IMAGE) (lookup : String → Option Nat)
    (img : IMGID) (h : img.ID = -1) :
    resolveStep tbl lookup img = relookup tbl lookup img := by
  simp [resolveStep, h]

theorem resolveStep_stale (tbl : List IMAGE) (lookup : String → Option Nat)
    (img : IMGID) (s : IMAGE) (hslot : slotAt tbl img.ID = some s)
    (hstale : img.createcnt ≠ s.createcnt ∨ s.used ≠ 1) :
    resolveStep tbl lookup img = relookup tbl lookup img := by
  have h0 := slotAt_some_nonneg hslot
  have hne : img.ID ≠ -1 := by omega
  simp only [resolveStep, hne, if_false, hslot]
  rw [if_pos hstale]

theorem resolveStep_cached (tbl : List IMAGE) (lookup : String → Option Nat)
    (img : IMGID) (s : IMAGE) (hslot : slotAt tbl img.ID = some s)
    (hcnt : img.createcnt = s.createcnt) (hused : s.used = 1) :
    resolveStep tbl lookup img = some (img, []) := by
  have h0 := slotAt_some_nonneg hslot
  have hne : img.ID ≠ -1 := by omega
  simp [resolveStep, hne, hslot, hcnt, hused]

theorem resolveIMGID_of_step (E : ERRMODES) (tbl : List IMAGE)
    (lookup : String → Option Nat) (img : IMGID) (ERRMODE : Int)
    (img1 : IMGID) (lk : List String) (h : resolveStep tbl lookup img = some (img1, lk)) :
    resolveIMGID E tbl lookup img ERRMODE =
      if img1.ID = -1 then
        if ERRMODE = E.ERRMODE_FAIL ∨ ERRMODE = E.ERRMODE_ABORT then
          Outcome.aborted img1 lk [errorLine img1.name]
        else if ERRMODE = E.ERRMODE_WARN then
          Outcome.returned img1.ID img1 lk [warningLine img1.name]
        else
          Outcome.returned img1.ID img1 lk []
      else
        Outcome.returned img1.ID img1 lk [] := by
  simp only [resolveIMGID, h]

theorem resolveIMGID_found (E : ERRMODES) (tbl : List IMAGE)
    (lookup : String → Option Nat) (img : IMGID) (ERRMODE : Int) (i : Nat) (s : IMAGE)
    (hstep : resolveStep tbl lookup img = relookup tbl lookup img)
    (hl : lookup img.name = some i) (hs : tbl[i]? = some s) :
    resolveIMGID E tbl lookup img ERRMODE =
      Outcome.returned (i : Int)
        { img with ID := (i : Int), im := some i, md := some s.md, createcnt := s.createcnt }
        [img.name] [] := by
  rw [resolveIMGID_of_step E tbl lookup img ERRMODE _ _
    (hstep.trans (relookup_found tbl lookup img i s hl hs))]
  have : ((i : Int) ≠ -1) := by omega
  simp [this]

theorem resolveIMGID_absent (E : ERRMODES) (tbl : List IMAGE)
    (lookup : String → Option Nat) (img : IMGID) (ERRMODE : Int)
    (hstep : resolveStep tbl lookup img = relookup tbl lookup img)
    (hl : lookup img.name = none) :
    resolveIMGID E tbl lookup img ERRMODE =
      if ERRMODE = E.ERRMODE_FAIL ∨ ERRMODE = E.ERRMODE_ABORT then
        Outcome.aborted { img with ID := -1 } [img.name] [errorLine img.name]
      else
        Outcome.returned (-1) { img with ID := -1 } [img.name]
          (if ERRMODE = E.ERRMODE_WARN then [warningLine img.name] else []) := by
  rw [resolveIMGID_of_step E tbl lookup img ERRMODE _ _
    (hstep.trans (relookup_absent tbl lookup img hl))]
  simp only [if_true]
  split_ifs <;> rfl

theorem resolveIMGID_outside (E : ERRMODES) (tbl : List IMAGE)
    (lookup : String → Option Nat) (img : IMGID) (ERRMODE : Int) (i : Nat)
    (hstep : resolveStep tbl lookup img = relookup tbl lookup img)
    (hl : lookup img.name = some i) (hs : tbl[i]? = none) :
    resolveIMGID E tbl lookup img ERRMODE = Outcome.undefined := by
  have h1 : ((i : Int) > -1) := by omega
  have : relookup tbl lookup img = none := by
    simp [relookup, hl, toImageID, slotAt_natCast, hs, h1]
  simp only [resolveIMGID, hstep, this]

theorem resolveIMGID_returned_of_relookup (E : ERRMODES) (tbl : List IMAGE)
    (lookup : String → Option Nat) (img : IMGID) (ERRMODE : Int)
    (hstep : resolveStep tbl lookup img = relookup tbl lookup img)
    (r : Int) (img1 : IMGID) (lk out : List String)
    (hret : resolveIMGID E tbl lookup img ERRMODE = Outcome.returned r img1 lk out) :
    r = toImageID (lookup img.name) ∧ lk = [img.name] ∧ img1.ID = r := by
  cases hl : lookup img.name with
  | none =>
    rw [resolveIMGID_absent E tbl lookup img ERRMODE hstep hl] at hret
    split_ifs at hret <;> cases hret <;> exact ⟨rfl, rfl, rfl⟩
  | some i =>
    cases hs : tbl[i]? with
    | none =>
      rw [resolveIMGID_outside E tbl lookup img ERRMODE i hstep hl hs] at hret
      cases hret
    | some s1 =>
      rw [resolveIMGID_found E tbl lookup img ERRMODE i s1 hstep hl hs] at hret
      cases hret
      exact ⟨rfl, rfl, rfl⟩

theorem resolveStep_cases (tbl : List IMAGE) (lookup : String → Option Nat) (img : IMGID) :
    resolveStep tbl lookup img = relookup tbl lookup img ∨
    resolveStep tbl lookup img = none ∨
    ∃ s, slotAt tbl img.ID = some s ∧ img.createcnt = s.createcnt ∧ s.used = 1 := by
  by_cases hID : img.ID = -1
  · exact Or.inl (resolveStep_unresolved tbl lookup img hID)
  · cases hslot : slotAt tbl img.ID with
    | none => exact Or.inr (Or.inl (by simp [resolveStep, hID, hslot]))
    | some s =>
      by_cases hstale : img.createcnt ≠ s.createcnt ∨ s.used ≠ 1
      · exact Or.inl (resolveStep_stale tbl lookup img s hslot hstale)
      · refine Or.inr (Or.inr ⟨s, rfl, ?_, ?_⟩)
        · by_contra hc; exact hstale (Or.inl hc)
        · by_contra hc; exact hstale (Or.inr hc)

theorem resolveIMGID_cached_aux (E : ERRMODES) (tbl : List IMAGE)
    (lookup : String → Option Nat) (img : IMGID) (ERRMODE : Int) (s : IMAGE)
    (hslot : slotAt tbl img.ID = some s) (hcnt : img.createcnt = s.createcnt)
    (hused : s.used = 1) :
    resolveIMGID E tbl lookup img ERRMODE = Outcome.returned img.ID img [] [] := by
  have h0 := slotAt_some_nonneg hslot
  have hne : img.ID ≠ -1 := by omega
  rw [resolveIMGID_of_step E tbl lookup img ERRMODE img []
    (resolveStep_cached tbl lookup img s hslot hcnt hused), if_neg hne]

theorem eq_of_ID_eq (img : IMGID) (h : img.ID = -1) : { img with ID := -1 } = img := by
  cases img
  simp only at h
  subst h
  rfl

/-! ## The claims about `resolveIMGID` -/

/-- C1, as amended.  For every handle whose ID is the sentinel -1, `resolveIMGID` looks
the name up once.  When the name is found in slot `i`, it returns `i` and the handle's ID,
cached pointers and create counter are those of that slot.  When the name is absent it
returns -1 and leaves the handle as it was, unless `ERRMODE` is `ERRMODE_FAIL` or
`ERRMODE_ABORT`, in which case it prints the error line and aborts instead of
returning. -/
theorem resolveIMGID_unresolved (E : ERRMODES) (tbl : List IMAGE)
    (lookup : String → Option Nat) (img : IMGID) (ERRMODE : Int) (h : img.ID = -1) :
    (∀ (i : Nat) (s : IMAGE), lookup img.name = some i → tbl[i]? = some s →
      resolveIMGID E tbl lookup img ERRMODE =
        Outcome.returned (toImageID (lookup img.name))
          { img with ID := (i : Int), im := some i, md := some s.md,
                     createcnt := s.createcnt }
          [img.name] []) ∧
    (lookup img.name = none →
      ¬ (ERRMODE = E.ERRMODE_FAIL ∨ ERRMODE = E.ERRMODE_ABORT) →
      resolveIMGID E tbl lookup img ERRMODE =
        Outcome.returned (-1) img [img.name]
          (if ERRMODE = E.ERRMODE_WARN then [warningLine img.name] else [])) ∧
    (lookup img.name = none →
      (ERRMODE = E.ERRMODE_FAIL ∨ ERRMODE = E.ERRMODE_ABORT) →
      resolveIMGID E tbl lookup img ERRMODE =
        Outcome.aborted img [img.name] [errorLine img.name]) := by
  have hstep := resolveStep_unresolved tbl lookup img h
  refine ⟨?_, ?_, ?_⟩
  · intro i s hl hs
    rw [resolveIMGID_found E tbl lookup img ERRMODE i s hstep hl hs, hl]
    rfl
  · intro hl hm
    rw [resolveIMGID_absent E tbl lookup img ERRMODE hstep hl, if_neg hm, eq_of_ID_eq img h]
  · intro hl hm
    rw [resolveIMGID_absent E tbl lookup img ERRMODE hstep hl, if_pos hm, eq_of_ID_eq img h]

/-- C1, instance of the amended statement: the unresolved handle for "im2" is resolved to
slot 2 of the sample table. -/
theorem resolveIMGID_unresolved_witness :
    (freshHandle "im2").ID = -1 ∧
    image_ID sampleTable (freshHandle "im2").name = some 2 ∧
    sampleTable[2]? = some { name := "im2", used := 1, createcnt := 2, md := 3000 } ∧
    resolveIMGID sampleModes sampleTable (image_ID sampleTable) (freshHandle "im2") 1 =
      Outcome.returned 2
        { freshHandle "im2" with ID := 2, im := some 2, md := some 3000, createcnt := 2 }
        ["im2"] [] :=
  ⟨rfl, by decide, by decide,
    (resolveIMGID_unresolved sampleModes sampleTable (image_ID sampleTable)
      (freshHandle "im2") 1 rfl).1 2
      { name := "im2", used := 1, createcnt := 2, md := 3000 } (by decide) (by decide)⟩

/-- C1, counterexample to the claim as stated: the handle for "missing" has ID -1 and
the name is absent from the table, yet under `ERRMODE_FAIL` the call does not return the
lookup result -1: it aborts. -/
theorem resolveIMGID_unresolved_fail_aborts :
    (freshHandle "missing").ID = -1 ∧
    image_ID sampleTable "missing" = none ∧
    resolveIMGID sampleModes sampleTable (image_ID sampleTable) (freshHandle "missing")
        sampleModes.ERRMODE_FAIL =
      Outcome.aborted (freshHandle "missing") ["missing"] [errorLine "missing"] ∧
    ¬ ∃ (r : Int) (img : IMGID) (lk out : List String),
        resolveIMGID sampleModes sampleTable (image_ID sampleTable) (freshHandle "missing")
          sampleModes.ERRMODE_FAIL = Outcome.returned r img lk out := by
  have hrun : resolveIMGID sampleModes sampleTable (image_ID sampleTable)
      (freshHandle "missing") sampleModes.ERRMODE_FAIL =
      Outcome.aborted (freshHandle "missing") ["missing"] [errorLine "missing"] := by decide
  refine ⟨rfl, by decide, hrun, ?_⟩
  rintro ⟨r, img, lk, out, hret⟩
  rw [hrun] at hret
  cases hret

/-- C2.  For every handle whose ID is a slot of the table, whose cached create counter
equals the counter of that slot and whose slot has `used == 1`, `resolveIMGID` returns
the cached ID, leaves the whole handle unchanged, looks no name up and prints nothing,
whatever `ERRMODE` is. -/
theorem resolveIMGID_cached (E : ERRMODES) (tbl : List IMAGE)
    (lookup : String → Option Nat) (img : IMGID) (ERRMODE : Int) (s : IMAGE)
    (hslot : slotAt tbl img.ID = some s) (hcnt : img.createcnt = s.createcnt)
    (hused : s.used = 1) :
    resolveIMGID E tbl lookup img ERRMODE = Outcome.returned img.ID img [] [] := by
  have h0 := slotAt_some_nonneg hslot
  have hne : img.ID ≠ -1 := by omega
  rw [resolveIMGID_of_step E tbl lookup img ERRMODE img []
    (resolveStep_cached tbl lookup img s hslot hcnt hused), if_neg hne]

/-- C2, instance: a handle resolved to slot 2 of the sample table with the current
counter is returned unchanged under `ERRMODE_FAIL`. -/
theorem resolveIMGID_cached_witness :
    slotAt sampleTable ({ staleHandle "im2" with createcnt := 2 } : IMGID).ID =
      some { name := "im2", used := 1, createcnt := 2, md := 3000 } ∧
    resolveIMGID sampleModes sampleTable (image_ID sampleTable)
        { staleHandle "im2" with createcnt := 2 } 2 =
      Outcome.returned 2 { staleHandle "im2" with createcnt := 2 } [] [] :=
  ⟨by decide,
    resolveIMGID_cached sampleModes sampleTable (image_ID sampleTable)
      { staleHandle "im2" with createcnt := 2 } 2
      { name := "im2", used := 1, createcnt := 2, md := 3000 } (by decide) rfl rfl⟩

/-- C3.  Staleness detection.  For every handle whose ID is a slot of the table and whose
cached create counter differs from the counter of that slot, or whose slot is not marked
used, `resolveIMGID` takes the lookup by name, whatever `ERRMODE` is.  When the name is
found in slot `i` it returns `i`, the lookup result, and the cached create counter and
pointers are replaced by those of slot `i`.  When the name is absent the handle's ID
becomes -1 and the call returns -1, or aborts under `ERRMODE_FAIL` and `ERRMODE_ABORT`.
Every value the call returns is the lookup result, and is the ID left in the handle. -/
theorem resolveIMGID_stale (E : ERRMODES) (tbl : List IMAGE)
    (lookup : String → Option Nat) (img : IMGID) (ERRMODE : Int) (s : IMAGE)
    (hslot : slotAt tbl img.ID = some s)
    (hstale : img.createcnt ≠ s.createcnt ∨ s.used ≠ 1) :
    resolveStep tbl lookup img = relookup tbl lookup img ∧
    (∀ (i : Nat) (s1 : IMAGE), lookup img.name = some i → tbl[i]? = some s1 →
      resolveIMGID E tbl lookup img ERRMODE =
        Outcome.returned (toImageID (lookup img.name))
          { img with ID := (i : Int), im := some i, md := some s1.md,
                     createcnt := s1.createcnt }
          [img.name] []) ∧
    (lookup img.name = none →
      resolveIMGID E tbl lookup img ERRMODE =
        if ERRMODE = E.ERRMODE_FAIL ∨ ERRMODE = E.ERRMODE_ABORT then
          Outcome.aborted { img with ID := -1 } [img.name] [errorLine img.name]
        else
          Outcome.returned (toImageID (lookup img.name)) { img with ID := -1 } [img.name]
            (if ERRMODE = E.ERRMODE_WARN then [warningLine img.name] else [])) ∧
    (∀ (r : Int) (img1 : IMGID) (lk out : List String),
      resolveIMGID E tbl lookup img ERRMODE = Outcome.returned r img1 lk out →
        r = toImageID (lookup img.name) ∧ lk = [img.name] ∧ img1.ID = r) := by
  have hstep := resolveStep_stale tbl lookup img s hslot hstale
  refine ⟨hstep, ?_, ?_, ?_⟩
  · intro i s1 hl hs
    rw [resolveIMGID_found E tbl lookup img ERRMODE i s1 hstep hl hs, hl]
    rfl
  · intro hl
    rw [resolveIMGID_absent E tbl lookup img ERRMODE hstep hl, hl]
    rfl
  · intro r img1 lk out hret
    exact resolveIMGID_returned_of_relookup E tbl lookup img ERRMODE hstep r img1 lk out hret

/-- C3, instance: a handle cached for slot 2 with an old counter and old metadata
address is resolved again; counter and pointers become those of the slot. -/
theorem resolveIMGID_stale_witness :
    slotAt sampleTable (staleHandle "im2").ID =
      some { name := "im2", used := 1, createcnt := 2, md := 3000 } ∧
    (staleHandle "im2").createcnt ≠ 2 ∧
    resolveIMGID sampleModes sampleTable (image_ID sampleTable) (staleHandle "im2") 2 =
      Outcome.returned 2
        { staleHandle "im2" with ID := 2, im := some 2, md := some 3000, createcnt := 2 }
        ["im2"] [] :=
  ⟨by decide, by decide,
    (resolveIMGID_stale sampleModes sampleTable (image_ID sampleTable) (staleHandle "im2") 2
      { name := "im2", used := 1, createcnt := 2, md := 3000 } (by decide)
      (Or.inl (by decide))).2.1 2
      { name := "im2", used := 1, createcnt := 2, md := 3000 } (by decide) (by decide)⟩

/-- C4.  Idempotence.  For every handle, table, lookup and `ERRMODE`: when a call of
`resolveIMGID` has returned the ID `r` and left the handle `img1`, a second call on
`img1`, with the same table and the same lookup, returns the same ID `r` and leaves the
handle exactly as the first call left it, its ID and cached create counter included. -/
theorem resolveIMGID_idempotent (E : ERRMODES) (tbl : List IMAGE)
    (lookup : String → Option Nat) (img : IMGID) (ERRMODE : Int)
    (r : Int) (img1 : IMGID) (lk out : List String)
    (h : resolveIMGID E tbl lookup img ERRMODE = Outcome.returned r img1 lk out) :
    ∃ (img2 : IMGID) (lk2 out2 : List String),
      resolveIMGID E tbl lookup img1 ERRMODE = Outcome.returned r img2 lk2 out2 ∧
      img2 = img1 ∧ img2.ID = img1.ID ∧ img2.createcnt = img1.createcnt := by
  rcases resolveStep_cases tbl lookup img with hstep | hnone | ⟨s, hslot, hcnt, hused⟩
  · cases hl : lookup img.name with
    | none =>
      rw [resolveIMGID_absent E tbl lookup img ERRMODE hstep hl] at h
      by_cases hm : ERRMODE = E.ERRMODE_FAIL ∨ ERRMODE = E.ERRMODE_ABORT
      · rw [if_pos hm] at h
        cases h
      · rw [if_neg hm] at h
        cases h
        have hstep2 := resolveStep_unresolved tbl lookup { img with ID := -1 } rfl
        have h2 := resolveIMGID_absent E tbl lookup { img with ID := -1 } ERRMODE hstep2 hl
        rw [if_neg hm] at h2
        exact ⟨_, _, _, h2, rfl, rfl, rfl⟩
    | some i =>
      cases hs : tbl[i]? with
      | none =>
        rw [resolveIMGID_outside E tbl lookup img ERRMODE i hstep hl hs] at h
        cases h
      | some s1 =>
        rw [resolveIMGID_found E tbl lookup img ERRMODE i s1 hstep hl hs] at h
        cases h
        have hslot2 : slotAt tbl (i : Int) = some s1 := by rw [slotAt_natCast]; exact hs
        by_cases hu : s1.used = 1
        · exact ⟨_, _, _, resolveIMGID_cached_aux E tbl lookup _ ERRMODE s1 hslot2 rfl hu,
            rfl, rfl, rfl⟩
        · have hstep2 := resolveStep_stale tbl lookup
            { img with ID := (i : Int), im := some i, md := some s1.md,
                       createcnt := s1.createcnt } s1 hslot2 (Or.inr hu)
          exact ⟨_, _, _, resolveIMGID_found E tbl lookup _ ERRMODE i s1 hstep2 hl hs,
            rfl, rfl, rfl⟩
  · simp only [resolveIMGID, hnone] at h
    cases h
  · rw [resolveIMGID_cached_aux E tbl lookup img ERRMODE s hslot hcnt hused] at h
    cases h
    exact ⟨_, _, _, resolveIMGID_cached_aux E tbl lookup img ERRMODE s hslot hcnt hused,
      rfl, rfl, rfl⟩

/-- C4, instance: the unresolved handle for "im0" is resolved to slot 0 by a first call;
a second call on the resulting handle returns 0 again and leaves it as it was. -/
theorem resolveIMGID_idempotent_witness :
    resolveIMGID sampleModes sampleTable (image_ID sampleTable) (freshHandle "im0") 1 =
      Outcome.returned 0
        { freshHandle "im0" with ID := 0, im := some 0, md := some 1000, createcnt := 4 }
        ["im0"] [] ∧
    ∃ (img2 : IMGID) (lk2 out2 : List String),
      resolveIMGID sampleModes sampleTable (image_ID sampleTable)
          { freshHandle "im0" with ID := 0, im := some 0, md := some 1000, createcnt := 4 } 1 =
        Outcome.returned 0 img2 lk2 out2 ∧
      img2 = { freshHandle "im0" with ID := 0, im := some 0, md := some 1000,
                                       createcnt := 4 } ∧
      img2.ID = 0 ∧ img2.createcnt = 4 :=
  ⟨by decide,
    resolveIMGID_idempotent sampleModes sampleTable (image_ID sampleTable)
      (freshHandle "im0") 1 0
      { freshHandle "im0" with ID := 0, im := some 0, md := some 1000, createcnt := 4 }
      ["im0"] [] (by decide)⟩

/-- C5.  The error mode decides termination.  Let `img1` be the handle as the lookup
step of `resolveIMGID` leaves it.  The call aborts the process if and only if `img1` is
unresolved (ID -1) and `ERRMODE` is `ERRMODE_FAIL` or `ERRMODE_ABORT`.  For every other
value of `ERRMODE`, and whenever `img1` is resolved, the call returns normally, its value
being the ID of `img1`. -/
theorem resolveIMGID_aborts_iff (E : ERRMODES) (tbl : List IMAGE)
    (lookup : String → Option Nat) (img : IMGID) (ERRMODE : Int)
    (img1 : IMGID) (lk : List String)
    (hstep : resolveStep tbl lookup img = some (img1, lk)) :
    ((∃ (img2 : IMGID) (lk2 out : List String),
        resolveIMGID E tbl lookup img ERRMODE = Outcome.aborted img2 lk2 out) ↔
      (img1.ID = -1 ∧ (ERRMODE = E.ERRMODE_FAIL ∨ ERRMODE = E.ERRMODE_ABORT))) ∧
    (¬ (ERRMODE = E.ERRMODE_FAIL ∨ ERRMODE = E.ERRMODE_ABORT) →
      ∃ out, resolveIMGID E tbl lookup img ERRMODE = Outcome.returned img1.ID img1 lk out) ∧
    (img1.ID ≠ -1 →
      resolveIMGID E tbl lookup img ERRMODE = Outcome.returned img1.ID img1 lk []) := by
  have hrun := resolveIMGID_of_step E tbl lookup img ERRMODE img1 lk hstep
  refine ⟨⟨?_, ?_⟩, ?_, ?_⟩
  · rintro ⟨img2, lk2, out, hab⟩
    rw [hrun] at hab
    by_cases hID : img1.ID = -1
    · by_cases hm : ERRMODE = E.ERRMODE_FAIL ∨ ERRMODE = E.ERRMODE_ABORT
      · exact ⟨hID, hm⟩
      · rw [if_pos hID, if_neg hm] at hab
        split_ifs at hab
    · rw [if_neg hID] at hab
      cases hab
  · rintro ⟨hID, hm⟩
    rw [hrun, if_pos hID, if_pos hm]
    exact ⟨_, _, _, rfl⟩
  · intro hm
    rw [hrun]
    by_cases hID : img1.ID = -1
    · rw [if_pos hID, if_neg hm]
      split_ifs
      · exact ⟨_, rfl⟩
      · exact ⟨_, rfl⟩
    · rw [if_neg hID]
      exact ⟨_, rfl⟩
  · intro hID
    rw [hrun, if_neg hID]

/-- C5, instance: for the unresolved handle of the absent name "missing" the lookup step
leaves ID -1; the call aborts under `ERRMODE_ABORT`. -/
theorem resolveIMGID_aborts_iff_witness :
    resolveStep sampleTable (image_ID sampleTable) (freshHandle "missing") =
      some (freshHandle "missing", ["missing"]) ∧
    ∃ (img2 : IMGID) (lk2 out : List String),
      resolveIMGID sampleModes sampleTable (image_ID sampleTable) (freshHandle "missing") 3 =
        Outcome.aborted img2 lk2 out :=
  ⟨by decide,
    ((resolveIMGID_aborts_iff sampleModes sampleTable (image_ID sampleTable)
      (freshHandle "missing") 3 (freshHandle "missing") ["missing"] (by decide)).1).mpr
      ⟨by decide, Or.inr (by decide)⟩⟩

/-- C6, as amended.  For every handle whose name is absent from the table, and error
mode codes with `ERRMODE_WARN` different from `ERRMODE_FAIL` and `ERRMODE_ABORT`.  When
the handle is unresolved (ID -1), or stale (its slot lies in the table and has another
create counter or is not in use), `resolveIMGID` looks the name up once; under
`ERRMODE_WARN` it returns -1, leaves the handle with ID -1 and its other fields as they
were, and prints the warning line; under every mode that is none of the three codes it
returns the same value with the same handle and the same lookup, and prints nothing.
When the handle is validly cached (its slot has the same create counter and is in use),
the call returns the cached ID, which is not -1, with the handle as it was, without
lookup and without warning, in every mode.  When the ID is neither -1 nor a slot of the
table, the call reads outside the table. -/
theorem resolveIMGID_absent_warn (E : ERRMODES) (tbl : List IMAGE)
    (lookup : String → Option Nat) (img : IMGID)
    (hWF : E.ERRMODE_WARN ≠ E.ERRMODE_FAIL) (hWA : E.ERRMODE_WARN ≠ E.ERRMODE_ABORT)
    (habs : lookup img.name = none) :
    ((img.ID = -1 ∨
        ∃ s, slotAt tbl img.ID = some s ∧ (img.createcnt ≠ s.createcnt ∨ s.used ≠ 1)) →
      resolveIMGID E tbl lookup img E.ERRMODE_WARN =
        Outcome.returned (-1) { img with ID := -1 } [img.name] [warningLine img.name] ∧
      ({ img with ID := -1 } : IMGID).ID = -1 ∧
      ∀ (ERRMODE : Int), ERRMODE ≠ E.ERRMODE_FAIL → ERRMODE ≠ E.ERRMODE_ABORT →
        ERRMODE ≠ E.ERRMODE_WARN →
        resolveIMGID E tbl lookup img ERRMODE =
          Outcome.returned (-1) { img with ID := -1 } [img.name] []) ∧
    (∀ s, slotAt tbl img.ID = some s → img.createcnt = s.createcnt → s.used = 1 →
      img.ID ≠ -1 ∧
      ∀ (ERRMODE : Int),
        resolveIMGID E tbl lookup img ERRMODE = Outcome.returned img.ID img [] []) ∧
    (img.ID ≠ -1 → slotAt tbl img.ID = none →
      ∀ (ERRMODE : Int), resolveIMGID E tbl lookup img ERRMODE = Outcome.undefined) := by
  refine ⟨?_, ?_, ?_⟩
  · intro hcase
    have hstep : resolveStep tbl lookup img = relookup tbl lookup img := by
      rcases hcase with hID | ⟨s, hslot, hstale⟩
      · exact resolveStep_unresolved tbl lookup img hID
      · exact resolveStep_stale tbl lookup img s hslot hstale
    refine ⟨?_, rfl, ?_⟩
    · rw [resolveIMGID_absent E tbl lookup img _ hstep habs]
      have hm : ¬ (E.ERRMODE_WARN = E.ERRMODE_FAIL ∨ E.ERRMODE_WARN = E.ERRMODE_ABORT) := by
        rintro (h | h)
        · exact hWF h
        · exact hWA h
      rw [if_neg hm, if_pos rfl]
    · intro ERRMODE hF hA hW
      rw [resolveIMGID_absent E tbl lookup img _ hstep habs]
      have hm : ¬ (ERRMODE = E.ERRMODE_FAIL ∨ ERRMODE = E.ERRMODE_ABORT) := by
        rintro (h | h)
        · exact hF h
        · exact hA h
      rw [if_neg hm, if_neg hW]
  · intro s hslot hcnt hused
    have h0 := slotAt_some_nonneg hslot
    refine ⟨by omega, ?_⟩
    intro ERRMODE
    exact resolveIMGID_cached_aux E tbl lookup img ERRMODE s hslot hcnt hused
  · intro hne hslot ERRMODE
    simp [resolveIMGID, resolveStep, hne, hslot]

/-- C6, instances of the amended statement under the sample codes, for the absent name
"missing": the unresolved handle, and the handle resolved to slot 2 when the counter of
the slot was 1.  The warning mode returns -1 with the warning line, mode 0 returns -1
and prints nothing; the stale handle is left with ID -1 and its old pointers. -/
theorem resolveIMGID_absent_warn_witness :
    sampleModes.ERRMODE_WARN ≠ sampleModes.ERRMODE_FAIL ∧
    sampleModes.ERRMODE_WARN ≠ sampleModes.ERRMODE_ABORT ∧
    image_ID sampleTable (freshHandle "missing").name = none ∧
    image_ID sampleTable (staleHandle "missing").name = none ∧
    resolveIMGID sampleModes sampleTable (image_ID sampleTable) (freshHandle "missing")
        sampleModes.ERRMODE_WARN =
      Outcome.returned (-1) { freshHandle "missing" with ID := -1 } ["missing"]
        [warningLine "missing"] ∧
    resolveIMGID sampleModes sampleTable (image_ID sampleTable) (freshHandle "missing") 0 =
      Outcome.returned (-1) { freshHandle "missing" with ID := -1 } ["missing"] [] ∧
    resolveIMGID sampleModes sampleTable (image_ID sampleTable) (staleHandle "missing")
        sampleModes.ERRMODE_WARN =
      Outcome.returned (-1) { staleHandle "missing" with ID := -1 } ["missing"]
        [warningLine "missing"] ∧
    resolveIMGID sampleModes sampleTable (image_ID sampleTable) (staleHandle "missing") 0 =
      Outcome.returned (-1) { staleHandle "missing" with ID := -1 } ["missing"] [] :=
  ⟨by decide, by decide, by decide, by decide,
    ((resolveIMGID_absent_warn sampleModes sampleTable (image_ID sampleTable)
      (freshHandle "missing") (by decide) (by decide) (by decide)).1 (Or.inl rfl)).1,
    ((resolveIMGID_absent_warn sampleModes sampleTable (image_ID sampleTable)
      (freshHandle "missing") (by decide) (by decide) (by decide)).1 (Or.inl rfl)).2.2 0
      (by decide) (by decide) (by decide),
    ((resolveIMGID_absent_warn sampleModes sampleTable (image_ID sampleTable)
      (staleHandle "missing") (by decide) (by decide) (by decide)).1
      (Or.inr ⟨⟨"im2", 1, 2, 3000⟩, by decide, Or.inl (by decide)⟩)).1,
    ((resolveIMGID_absent_warn sampleModes sampleTable (image_ID sampleTable)
      (staleHandle "missing") (by decide) (by decide) (by decide)).1
      (Or.inr ⟨⟨"im2", 1, 2, 3000⟩, by decide, Or.inl (by decide)⟩)).2.2 0
      (by decide) (by decide) (by decide)⟩

/-- C6, counterexample to the claim as stated: a handle named "missing", a name absent
from the table, that holds the ID, the create counter and the pointers of slot 2, which
is in use.  Under `ERRMODE_WARN` the call returns 2 and not -1; the handle keeps the ID
2, no name is looked up and no warning is printed. -/
theorem resolveIMGID_absent_name_cached :
    image_ID sampleTable "missing" = none ∧
    ({ cachedHandle with name := "missing" } : IMGID).name = "missing" ∧
    resolveIMGID sampleModes sampleTable (image_ID sampleTable)
        { cachedHandle with name := "missing" } sampleModes.ERRMODE_WARN =
      Outcome.returned 2 { cachedHandle with name := "missing" } [] [] := by
  decide

/-- C7, as amended.  Handle invariant.  Suppose the lookup yields only slots marked used,
and suppose that on entry a handle whose ID is a slot with the same create counter and
marked used holds the pointers of that slot (the path without lookup does not refresh
them).  Then whenever `resolveIMGID` returns an ID `r >= 0`, the handle's ID is `r`, its
cached create counter is the counter of slot `r`, its pointers are those of slot `r`, and
slot `r` is marked used; and whenever it returns -1 the handle's ID is -1. -/
theorem resolveIMGID_invariant (E : ERRMODES) (tbl : List IMAGE)
    (lookup : String → Option Nat) (img : IMGID) (ERRMODE : Int)
    (r : Int) (img1 : IMGID) (lk out : List String)
    (hused : ∀ (n : String) (i : Nat) (s : IMAGE),
      lookup n = some i → tbl[i]? = some s → s.used = 1)
    (hinv : ∀ s : IMAGE, slotAt tbl img.ID = some s → img.createcnt = s.createcnt →
      s.used = 1 → img.im = some img.ID.toNat ∧ img.md = some s.md)
    (hret : resolveIMGID E tbl lookup img ERRMODE = Outcome.returned r img1 lk out) :
    (0 ≤ r → ∃ s : IMAGE, slotAt tbl r = some s ∧ img1.ID = r ∧
      img1.createcnt = s.createcnt ∧ img1.im = some r.toNat ∧ img1.md = some s.md ∧
      s.used = 1) ∧
    (r = -1 → img1.ID = -1) := by
  rcases resolveStep_cases tbl lookup img with hstep | hnone | ⟨s, hslot, hcnt, hu⟩
  · cases hl : lookup img.name with
    | none =>
      rw [resolveIMGID_absent E tbl lookup img ERRMODE hstep hl] at hret
      split_ifs at hret <;> cases hret <;>
        exact ⟨fun h => absurd h (by decide), fun _ => rfl⟩
    | some i =>
      cases hs : tbl[i]? with
      | none =>
        rw [resolveIMGID_outside E tbl lookup img ERRMODE i hstep hl hs] at hret
        cases hret
      | some s1 =>
        rw [resolveIMGID_found E tbl lookup img ERRMODE i s1 hstep hl hs] at hret
        cases hret
        refine ⟨fun _ => ⟨s1, ?_, rfl, rfl, rfl, rfl, hused _ i s1 hl hs⟩, fun h => ?_⟩
        · rw [slotAt_natCast]; exact hs
        · omega
  · simp only [resolveIMGID, hnone] at hret
    cases hret
  · rw [resolveIMGID_cached_aux E tbl lookup img ERRMODE s hslot hcnt hu] at hret
    cases hret
    obtain ⟨him, hmd⟩ := hinv s hslot hcnt hu
    exact ⟨fun _ => ⟨s, hslot, rfl, hcnt, him, hmd, hu⟩, fun h => h⟩

/-- C7, instance of the amended statement: the handle cached for slot 2 of the sample
table is returned with the ID, counter and pointers of slot 2, which is marked used. -/
theorem resolveIMGID_invariant_witness :
    (∀ (n : String) (i : Nat) (s : IMAGE),
      image_ID sampleTable n = some i → sampleTable[i]? = some s → s.used = 1) ∧
    resolveIMGID sampleModes sampleTable (image_ID sampleTable) cachedHandle 1 =
      Outcome.returned 2 cachedHandle [] [] ∧
    ((0 : Int) ≤ 2 → ∃ s : IMAGE, slotAt sampleTable 2 = some s ∧ cachedHandle.ID = 2 ∧
      cachedHandle.createcnt = s.createcnt ∧ cachedHandle.im = some (2 : Int).toNat ∧
      cachedHandle.md = some s.md ∧ s.used = 1) :=
  ⟨fun n i s hl hs => (image_ID_used sampleTable n i s hl hs).1, by decide,
    (resolveIMGID_invariant sampleModes sampleTable (image_ID sampleTable) cachedHandle 1 2
      cachedHandle [] []
      (fun n i s hl hs => (image_ID_used sampleTable n i s hl hs).1)
      (fun s hs _ _ => by
        have h2 : slotAt sampleTable cachedHandle.ID =
            some { name := "im2", used := 1, createcnt := 2, md := 3000 } := by decide
        rw [h2] at hs
        cases hs
        exact ⟨rfl, rfl⟩)
      (by decide)).1⟩

/-- C7, counterexample to the claim as stated: the lookup yields only used slots, the
handle `bareHandle` has the ID and the create counter of slot 0, which is marked used,
and `resolveIMGID` returns 0 for it; yet its pointers are not those of slot 0, they are
still `NULL`. -/
theorem resolveIMGID_keeps_bare_pointers :
    (∀ (n : String) (i : Nat) (s : IMAGE),
      image_ID sampleTable n = some i → sampleTable[i]? = some s → s.used = 1) ∧
    slotAt sampleTable 0 = some { name := "im0", used := 1, createcnt := 4, md := 1000 } ∧
    (∃ (img1 : IMGID) (lk out : List String),
      resolveIMGID sampleModes sampleTable (image_ID sampleTable) bareHandle 1 =
        Outcome.returned 0 img1 lk out ∧
      ¬ (img1.im = some 0 ∧ img1.md = some 1000)) :=
  ⟨fun n i s hl hs => (image_ID_used sampleTable n i s hl hs).1, by decide,
    bareHandle, [], [], by decide, by decide⟩

/-! ## Facts about `makeIMGID` -/

theorem digitChar_plain (k : Nat) (hk : k < 10) :
    plainDigit (Nat.digitChar k) ∧ (Nat.digitChar k).toNat - 48 = k := by
  unfold plainDigit
  interval_cases k <;> decide

theorem toDigitsCore_plain : ∀ (fuel n : Nat) (acc : List Char),
    (∀ c ∈ acc, plainDigit c) → ∀ c ∈ Nat.toDigitsCore 10 fuel n acc, plainDigit c := by
  intro fuel
  induction fuel with
  | zero => intro n acc h; simpa [Nat.toDigitsCore] using h
  | succ f ih =>
    intro n acc h
    have hd := (digitChar_plain (n % 10) (Nat.mod_lt _ (by decide))).1
    have hacc : ∀ c ∈ Nat.digitChar (n % 10) :: acc, plainDigit c := by
      intro c hc
      rcases List.mem_cons.mp hc with h1 | h1
      · rw [h1]; exact hd
      · exact h c h1
    unfold Nat.toDigitsCore
    simp only
    split
    · exact hacc
    · exact ih _ _ hacc

theorem toDigitsCore_ne_nil : ∀ (fuel n : Nat) (acc : List Char),
    acc ≠ [] → Nat.toDigitsCore 10 fuel n acc ≠ [] := by
  intro fuel
  induction fuel with
  | zero => intro n acc h; simpa [Nat.toDigitsCore] using h
  | succ f ih =>
    intro n acc _
    unfold Nat.toDigitsCore
    simp only
    split
    · simp
    · exact ih _ _ (by simp)

theorem toDigitsCore_value : ∀ (fuel n : Nat) (acc : List Char), n < fuel →
    List.foldl (fun a c => 10 * a + (c.toNat - 48)) 0 (Nat.toDigitsCore 10 fuel n acc) =
      List.foldl (fun a c => 10 * a + (c.toNat - 48)) n acc := by
  intro fuel
  induction fuel with
  | zero => intro n acc h; omega
  | succ f ih =>
    intro n acc hn
    have hd := (digitChar_plain (n % 10) (Nat.mod_lt _ (by decide))).2
    unfold Nat.toDigitsCore
    simp only
    split
    · rename_i h0
      simp only [List.foldl_cons, hd]
      have : n % 10 = n := by omega
      simp [this]
    · rename_i h0
      rw [ih (n / 10) _ (by omega)]
      simp only [List.foldl_cons, hd]
      have : 10 * (n / 10) + n % 10 = n := by omega
      rw [this]

theorem toDigits_plain (N : Nat) : ∀ c ∈ Nat.toDigits 10 N, plainDigit c :=
  toDigitsCore_plain (N + 1) N [] (by simp)

theorem toDigits_ne_nil (N : Nat) : Nat.toDigits 10 N ≠ [] := by
  unfold Nat.toDigits Nat.toDigitsCore
  simp only
  split
  · simp
  · exact toDigitsCore_ne_nil _ _ _ (by simp)

theorem decValue_toDigits (N : Nat) : decValue (Nat.toDigits 10 N) = N := by
  unfold decValue Nat.toDigits
  rw [toDigitsCore_value (N + 1) N [] (by omega)]
  rfl

theorem takeWhile_all {α : Type} (p : α → Bool) (l : List α) (h : ∀ c ∈ l, p c = true) :
    l.takeWhile p = l := by
  induction l with
  | nil => rfl
  | cons a t ih =>
    have ha := h a (by simp)
    simp only [List.takeWhile_cons, ha, if_true]
    rw [ih (fun c hc => h c (by simp [hc]))]

theorem scanInt_toDigits (N : Nat) : scanInt (Nat.toDigits 10 N) = some (N : Int) := by
  have hne := toDigits_ne_nil N
  have hall := toDigits_plain N
  obtain ⟨c, t, hct⟩ := List.exists_cons_of_ne_nil hne
  have hc := hall c (by rw [hct]; simp)
  have hdrop : (Nat.toDigits 10 N).dropWhile isspace = Nat.toDigits 10 N := by
    rw [hct]; simp [List.dropWhile_cons, hc.2.1]
  have hm : (Nat.toDigits 10 N).head? ≠ some '-' := by
    rw [hct]; simpa using hc.2.2.1
  have hp : (Nat.toDigits 10 N).head? ≠ some '+' := by
    rw [hct]; simpa using hc.2.2.2.1
  have htake : (Nat.toDigits 10 N).takeWhile Char.isDigit = Nat.toDigits 10 N :=
    takeWhile_all _ _ (fun c hc => (hall c hc).1)
  unfold scanInt
  simp only [hdrop, hm, hp, or_self, if_false, htake, hne, decide_False, decValue_toDigits]

theorem scanField_toDigits (l : Char) (N : Nat) (hN : N < 2147483648) :
    scanField (l :: Nat.toDigits 10 N) = some (some (N : Int)) := by
  unfold scanField
  simp only [List.tail_cons, scanInt_toDigits]
  have h1 : (-2147483648 : Int) ≤ (N : Int) := by omega
  have h2 : (N : Int) ≤ 2147483647 := by omega
  simp [h1, h2]

theorem applyWord_plain (img : IMGID) (w : List Char) (hopt : w ∉ optionWords)
    (hk : w.head? ≠ some 'k') (hc : w.head? ≠ some 'c') : applyWord img w = some img := by
  simp [optionWords] at hopt
  simp [applyWord, hopt, hk, hc]

theorem applyWord_s (img : IMGID) : applyWord img ['s'] = some { img with shared := 1 } := by
  simp [applyWord]

theorem applyWord_k (img : IMGID) (ds : List Char) (v : Option Int)
    (h : scanField ('k' :: ds) = some v) :
    applyWord img ('k' :: ds) = some { img with NBkw := v } := by
  simp [applyWord, h]

theorem applyWord_c (img : IMGID) (ds : List Char) (v : Option Int)
    (h : scanField ('c' :: ds) = some v) :
    applyWord img ('c' :: ds) = some { img with CBsize := v } := by
  simp [applyWord, h]

theorem applyWord_defined (img : IMGID) (w : List Char)
    (h : (w.head? = some 'k' ∨ w.head? = some 'c') → (scanField w).isSome = true) :
    ∃ img1, applyWord img w = some img1 ∧ img1.naxis = img.naxis ∧ img1.size = img.size := by
  by_cases hk : w.head? = some 'k'
  · obtain ⟨v, hv⟩ := Option.isSome_iff_exists.mp (h (Or.inl hk))
    have hc : w.head? ≠ some 'c' := by rw [hk]; decide
    simp only [applyWord, hk, hv, hc, if_true, if_false, Option.map_some', Option.bind_eq_bind,
      Option.some_bind, Option.pure_def]
    refine ⟨_, rfl, ?_, ?_⟩ <;> simp only [apply_ite IMGID.naxis, apply_ite IMGID.size, ite_self]
  · by_cases hc : w.head? = some 'c'
    · obtain ⟨v, hv⟩ := Option.isSome_iff_exists.mp (h (Or.inr hc))
      simp only [applyWord, hk, hv, hc, if_true, if_false, Option.map_some',
        Option.bind_eq_bind, Option.some_bind, Option.pure_def]
      refine ⟨_, rfl, ?_, ?_⟩ <;>
        simp only [apply_ite IMGID.naxis, apply_ite IMGID.size, ite_self]
    · simp only [applyWord, hk, hc, if_false, Option.bind_eq_bind, Option.some_bind,
        Option.pure_def]
      refine ⟨_, rfl, ?_, ?_⟩ <;>
        simp only [apply_ite IMGID.naxis, apply_ite IMGID.size, ite_self]

theorem wordLoop_defined : ∀ (ws : List (List Char)) (img : IMGID),
    (∀ w ∈ ws, (w.head? = some 'k' ∨ w.head? = some 'c') → (scanField w).isSome = true) →
    ∃ img1, wordLoop img ws = some img1 ∧ img1.naxis = img.naxis ∧ img1.size = img.size := by
  intro ws
  induction ws with
  | nil => intro img _; exact ⟨img, rfl, rfl, rfl⟩
  | cons w rest ih =>
    intro img h
    obtain ⟨img1, h1, hn1, hs1⟩ := applyWord_defined img w (h w (by simp))
    obtain ⟨img2, h2, hn2, hs2⟩ := ih img1 (fun w1 hw1 => h w1 (by simp [hw1]))
    refine ⟨img2, ?_, hn2.trans hn1, hs2.trans hs1⟩
    simp only [wordLoop, h1, h2]

theorem strtokWords_cons_ne (d a : Char) (cs cur : List Char) (h : a ≠ d) :
    strtokWords d (a :: cs) cur = strtokWords d cs (a :: cur) := by
  simp [strtokWords, h]

theorem strtokWords_run (d : Char) : ∀ (w rest cur : List Char), d ∉ w →
    strtokWords d (w ++ rest) cur = strtokWords d rest (w.reverse ++ cur) := by
  intro w
  induction w with
  | nil => intro rest cur _; rfl
  | cons a t ih =>
    intro rest cur h
    have ha : a ≠ d := fun e => h (by simp [e])
    have ht : d ∉ t := fun e => h (by simp [e])
    rw [List.cons_append, strtokWords_cons_ne d a _ cur ha, ih rest (a :: cur) ht]
    simp

theorem strtokWords_last (d : Char) (w : List Char) (hd : d ∉ w) (hw : w ≠ []) :
    strtokWords d w [] = [w] := by
  have := strtokWords_run d w [] [] hd
  simp only [List.append_nil] at this
  rw [this]
  simp [strtokWords, hw]

theorem strtokWords_first (d : Char) (w rest : List Char) (hd : d ∉ w) (hw : w ≠ []) :
    strtokWords d (w ++ d :: rest) [] = w :: strtokWords d rest [] := by
  rw [strtokWords_run d w (d :: rest) [] hd]
  simp [strtokWords, hw]

theorem makeIMGID_two_words (NAMELEN : Nat) (name n : String) (w : List Char)
    (img : IMGID)
    (hname : name.toList = w ++ '>' :: n.toList)
    (hlen : name.utf8ByteSize < 200)
    (hw : '>' ∉ w) (hwne : w ≠ [])
    (hword : applyWord defaultIMGID w = some img)
    (hsep : '>' ∉ n.toList) (hne : n.toList ≠ [])
    (hopt : n.toList ∉ optionWords)
    (hk : n.toList.head? ≠ some 'k') (hc : n.toList.head? ≠ some 'c')
    (hfit : n.utf8ByteSize < NAMELEN) :
    makeIMGID NAMELEN name =
      some { img with ID := -1, createcnt := -1, name := n, im := none, md := none } := by
  have hwords : strtokWords '>' name.toList [] = [w, n.toList] := by
    rw [hname, strtokWords_first '>' w _ hw hwne, strtokWords_last '>' _ hsep hne]
  have hloop : wordLoop defaultIMGID [w, n.toList] = some img := by
    simp only [wordLoop, hword, applyWord_plain img _ hopt hk hc]
  have h200 : ¬ (200 ≤ name.utf8ByteSize) := by omega
  have hcap : ¬ (NAMELEN ≤ n.utf8ByteSize) := by omega
  have hmk : String.mk n.toList = n := rfl
  simp only [makeIMGID, h200, if_false, hwords, hloop, List.getLast?_cons_cons,
    List.getLast?_singleton, hmk, hcap]

theorem toList_ne_nil (n : String) (h : n ≠ "") : n.toList ≠ [] := by
  intro e
  apply h
  cases n
  simp only [String.toList] at e
  subst e
  rfl

theorem makeIMGID_none_cases (NAMELEN : Nat) (name : String)
    (h : makeIMGID NAMELEN name = none) :
    200 ≤ name.utf8ByteSize ∨
    (strtokWords '>' name.toList []).getLast? = none ∨
    (∃ pch1, (strtokWords '>' name.toList []).getLast? = some pch1 ∧
      NAMELEN ≤ (String.mk pch1).utf8ByteSize) ∨
    (∃ w ∈ strtokWords '>' name.toList [],
      (w.head? = some 'k' ∨ w.head? = some 'c') ∧ scanField w = none) := by
  by_cases h200 : 200 ≤ name.utf8ByteSize
  · exact Or.inl h200
  · cases hlast : (strtokWords '>' name.toList []).getLast? with
    | none => exact Or.inr (Or.inl rfl)
    | some pch1 =>
      by_cases hcap : NAMELEN ≤ (String.mk pch1).utf8ByteSize
      · exact Or.inr (Or.inr (Or.inl ⟨pch1, rfl, hcap⟩))
      · refine Or.inr (Or.inr (Or.inr ?_))
        by_contra hno
        have hnum : ∀ w ∈ strtokWords '>' name.toList [],
            (w.head? = some 'k' ∨ w.head? = some 'c') → (scanField w).isSome = true := by
          intro w hw hkc
          cases hs : scanField w with
          | none => exact absurd ⟨w, hw, hkc, hs⟩ hno
          | some v => rfl
        obtain ⟨img0, hloop, _, _⟩ := wordLoop_defined _ defaultIMGID hnum
        simp only [makeIMGID, h200, if_false, hlast, hloop, hcap] at h
        cases h

theorem wordLoop_undefined : ∀ (ws : List (List Char)) (img : IMGID),
    (∃ w ∈ ws, (w.head? = some 'k' ∨ w.head? = some 'c') ∧ scanField w = none) →
    wordLoop img ws = none := by
  intro ws
  induction ws with
  | nil => intro img h; obtain ⟨w, hw, _⟩ := h; simp at hw
  | cons w0 rest ih =>
    intro img h
    obtain ⟨w, hw, hkc, hs⟩ := h
    cases ha : applyWord img w0 with
    | none => simp only [wordLoop, ha]
    | some img1 =>
      rcases List.mem_cons.mp hw with e | hmem
      · subst e
        exfalso
        rcases hkc with hk | hc
        · simp [applyWord, hk, hs] at ha
        · by_cases hk : w.head? = some 'k'
          · simp [applyWord, hk, hs] at ha
          · simp [applyWord, hk, hc, hs] at ha
      · simp only [wordLoop, ha]
        exact ih img1 ⟨w, hmem, hkc, hs⟩

/-! ## The claims about `makeIMGID` -/

/-- C8, as amended.  Resolution is lazy.  `makeIMGID` is a function of the name alone: it
has no access to the image table and looks nothing up.  For every name on which it has
defined behaviour, namely a name of fewer than 200 bytes that holds at least one word
between its `>` separators, the last word fitting the array `img.name`, and no word that
begins with `k` or `c` continuing with a decimal number too large for an `int`, it
returns a handle with ID -1, create counter -1 and `NULL` pointers, named after the last
word, so that `resolveIMGID` on it takes the lookup by name, whatever the table is.  A
word that begins with `k` or `c` and holds no number, as in "cam1", is among these
names: it leaves the number of keywords or the buffer size indeterminate and nothing
else.  `makeIMGID_2D` and `makeIMGID_3D` return the same handle but for `naxis` and the
entries of `size`. -/
theorem makeIMGID_unresolved (NAMELEN : Nat) (name : String) (xsize ysize zsize : Nat)
    (pch1 : List Char)
    (hlen : name.utf8ByteSize < 200)
    (hlast : (strtokWords '>' name.toList []).getLast? = some pch1)
    (hfit : (String.mk pch1).utf8ByteSize < NAMELEN)
    (hnum : ∀ w ∈ strtokWords '>' name.toList [],
      (w.head? = some 'k' ∨ w.head? = some 'c') → (scanField w).isSome = true) :
    ∃ img : IMGID, makeIMGID NAMELEN name = some img ∧
      img.ID = -1 ∧ img.createcnt = -1 ∧ img.im = none ∧ img.md = none ∧
      img.name = String.mk pch1 ∧
      (∀ (tbl : List IMAGE) (lookup : String → Option Nat),
        resolveStep tbl lookup img = relookup tbl lookup img) ∧
      makeIMGID_2D NAMELEN name xsize ysize =
        some { img with naxis := 2, size := [some xsize, some ysize, none] } ∧
      makeIMGID_3D NAMELEN name xsize ysize zsize =
        some { img with naxis := 3, size := [some xsize, some ysize, some zsize] } := by
  obtain ⟨img0, hloop, _, hsz⟩ := wordLoop_defined _ defaultIMGID hnum
  have h200 : ¬ (200 ≤ name.utf8ByteSize) := by omega
  have hcap : ¬ (NAMELEN ≤ (String.mk pch1).utf8ByteSize) := by omega
  have hmk : makeIMGID NAMELEN name =
      some { img0 with ID := -1, createcnt := -1, name := String.mk pch1,
                       im := none, md := none } := by
    simp only [makeIMGID, h200, if_false, hlast, hloop, hcap]
  have hsz0 : img0.size = [some 1, some 1, none] := hsz
  refine ⟨_, hmk, rfl, rfl, rfl, rfl, rfl, ?_, ?_, ?_⟩
  · intro tbl lookup
    exact resolveStep_unresolved tbl lookup _ rfl
  · simp only [makeIMGID_2D, hmk, Option.map_some', hsz0]
    rfl
  · simp only [makeIMGID_3D, hmk, Option.map_some', hsz0]
    rfl

/-- C8, instance of the amended statement: the name "cam1", whose only word begins with
`c` and holds no number for `c%d`; the handle is unresolved and named "cam1". -/
theorem makeIMGID_unresolved_witness :
    ("cam1" : String).utf8ByteSize < 200 ∧
    (strtokWords '>' ("cam1" : String).toList []).getLast? = some "cam1".toList ∧
    (String.mk "cam1".toList).utf8ByteSize < 100 ∧
    (∀ w ∈ strtokWords '>' ("cam1" : String).toList [],
      (w.head? = some 'k' ∨ w.head? = some 'c') → (scanField w).isSome = true) ∧
    makeIMGID 100 "cam1" = some { freshHandle "cam1" with CBsize := none } ∧
    ∃ img : IMGID, makeIMGID 100 "cam1" = some img ∧
      img.ID = -1 ∧ img.createcnt = -1 ∧ img.im = none ∧ img.md = none ∧
      img.name = String.mk "cam1".toList ∧
      (∀ (tbl : List IMAGE) (lookup : String → Option Nat),
        resolveStep tbl lookup img = relookup tbl lookup img) ∧
      makeIMGID_2D 100 "cam1" 3 4 =
        some { img with naxis := 2, size := [some 3, some 4, none] } ∧
      makeIMGID_3D 100 "cam1" 3 4 5 =
        some { img with naxis := 3, size := [some 3, some 4, some 5] } :=
  ⟨by decide, by decide, by decide, by decide, by decide,
    makeIMGID_unresolved 100 "cam1" 3 4 5 "cam1".toList (by decide) (by decide)
      (by decide) (by decide)⟩

/-- C8, counterexample to the claim as stated: names for which `makeIMGID` returns no
handle.  For the empty name, and for a name made of separators only, `strtok` finds no
word and `pch1` is read without having been set.  The name "image" does not fit an array
`img.name` of 4 bytes.  In "k99999999999>im1" the number does not fit the `int` that
`sscanf` writes.  A name of 200 bytes or more does not fit `namestring`.  These are the
only cases: whenever `makeIMGID` returns no handle, the name is of one of these four
kinds, and for each name of one of these kinds it returns none. -/
theorem makeIMGID_undefined_inputs :
    (∀ NAMELEN : Nat, makeIMGID NAMELEN "" = none) ∧
    (∀ NAMELEN : Nat, makeIMGID NAMELEN ">>" = none) ∧
    makeIMGID 4 "image" = none ∧
    makeIMGID 100 "k99999999999>im1" = none ∧
    (∀ (NAMELEN : Nat) (name : String),
      makeIMGID NAMELEN name = none ↔
        (200 ≤ name.utf8ByteSize ∨
         (strtokWords '>' name.toList []).getLast? = none ∨
         (∃ pch1, (strtokWords '>' name.toList []).getLast? = some pch1 ∧
           NAMELEN ≤ (String.mk pch1).utf8ByteSize) ∨
         (∃ w ∈ strtokWords '>' name.toList [],
           (w.head? = some 'k' ∨ w.head? = some 'c') ∧ scanField w = none))) := by
  refine ⟨fun _ => rfl, fun _ => rfl, by decide, by decide, ?_⟩
  intro NAMELEN name
  refine ⟨makeIMGID_none_cases NAMELEN name, ?_⟩
  rintro (h | h | ⟨pch1, h1, h2⟩ | h)
  · simp [makeIMGID, h]
  · unfold makeIMGID
    split
    · rfl
    · simp only [h]
  · unfold makeIMGID
    split
    · rfl
    · simp only [h1]
      split
      · rfl
      · rw [if_pos h2]
  · unfold makeIMGID
    split
    · rfl
    · simp only [wordLoop_undefined _ defaultIMGID h]
      split <;> rfl

/-- C9, as amended.  Settings embedded in the name.  For every base name `n` that is not
empty, contains no `>`, is not an option word, starts with neither `k` nor `c` and fits
the array `img.name`, and every number `N` below 2^31, with composed names of fewer than
200 bytes: `makeIMGID("s>" + n)` has the shared flag set, `makeIMGID("k<N>>" + n)` has
`N` keywords, `makeIMGID("c<N>>" + n)` has circular buffer size `N`; in each case the
image name is `n`, the handle is unresolved and every other setting has its default
(datatype float, 2 axes of size 1, not shared, 100 keywords, circular buffer 0). -/
theorem makeIMGID_settings (NAMELEN : Nat) (n : String) (N : Nat)
    (hsep : '>' ∉ n.toList) (hopt : n.toList ∉ optionWords)
    (hk : n.toList.head? ≠ some 'k') (hc : n.toList.head? ≠ some 'c')
    (hne : n ≠ "") (hfit : n.utf8ByteSize < NAMELEN) (hN : N < 2147483648) :
    (("s>" ++ n).utf8ByteSize < 200 →
      makeIMGID NAMELEN ("s>" ++ n) =
        some { ID := -1, name := n, im := none, md := none, createcnt := -1,
               datatype := DATATYPE.FLOAT, naxis := 2, size := [some 1, some 1, none],
               shared := 1, NBkw := some 100, CBsize := some 0 }) ∧
    (("k" ++ toString N ++ ">" ++ n).utf8ByteSize < 200 →
      makeIMGID NAMELEN ("k" ++ toString N ++ ">" ++ n) =
        some { ID := -1, name := n, im := none, md := none, createcnt := -1,
               datatype := DATATYPE.FLOAT, naxis := 2, size := [some 1, some 1, none],
               shared := 0, NBkw := some (N : Int), CBsize := some 0 }) ∧
    (("c" ++ toString N ++ ">" ++ n).utf8ByteSize < 200 →
      makeIMGID NAMELEN ("c" ++ toString N ++ ">" ++ n) =
        some { ID := -1, name := n, im := none, md := none, createcnt := -1,
               datatype := DATATYPE.FLOAT, naxis := 2, size := [some 1, some 1, none],
               shared := 0, NBkw := some 100, CBsize := some (N : Int) }) := by
  have hnl := toList_ne_nil n hne
  have hdig : ∀ l : Char, l ≠ '>' → '>' ∉ l :: Nat.toDigits 10 N := by
    intro l hl hmem
    rcases List.mem_cons.mp hmem with h | h
    · exact hl h.symm
    · exact (toDigits_plain N _ h).2.2.2.2 rfl
  refine ⟨?_, ?_, ?_⟩
  · intro hlen
    rw [makeIMGID_two_words NAMELEN ("s>" ++ n) n ['s'] _ (by simp [String.toList]) hlen
      (by decide) (by decide) (applyWord_s defaultIMGID) hsep hnl hopt hk hc hfit]
    rfl
  · intro hlen
    rw [makeIMGID_two_words NAMELEN ("k" ++ toString N ++ ">" ++ n) n
      ('k' :: Nat.toDigits 10 N) _
      (by simp [String.toList, toString, Nat.repr, List.asString]) hlen
      (hdig 'k' (by decide)) (by simp)
      (applyWord_k defaultIMGID _ _ (scanField_toDigits 'k' N hN)) hsep hnl hopt hk hc hfit]
    rfl
  · intro hlen
    rw [makeIMGID_two_words NAMELEN ("c" ++ toString N ++ ">" ++ n) n
      ('c' :: Nat.toDigits 10 N) _
      (by simp [String.toList, toString, Nat.repr, List.asString]) hlen
      (hdig 'c' (by decide)) (by simp)
      (applyWord_c defaultIMGID _ _ (scanField_toDigits 'c' N hN)) hsep hnl hopt hk hc hfit]
    rfl

/-- C9, instance of the amended statement: the examples of the comment above `makeIMGID`,
"s>im1", "k10>im1" and "c20>im1" being "c" followed by 20. -/
theorem makeIMGID_settings_witness :
    '>' ∉ ("im1" : String).toList ∧ ("im1" : String).toList ∉ optionWords ∧
    ("im1" : String).toList.head? ≠ some 'k' ∧ ("im1" : String).toList.head? ≠ some 'c' ∧
    ("im1" : String) ≠ "" ∧ ("im1" : String).utf8ByteSize < 100 ∧ 10 < 2147483648 ∧
    makeIMGID 100 ("s>" ++ "im1") =
      some { ID := -1, name := "im1", im := none, md := none, createcnt := -1,
             datatype := DATATYPE.FLOAT, naxis := 2, size := [some 1, some 1, none],
             shared := 1, NBkw := some 100, CBsize := some 0 } ∧
    makeIMGID 100 ("k" ++ toString 10 ++ ">" ++ "im1") =
      some { ID := -1, name := "im1", im := none, md := none, createcnt := -1,
             datatype := DATATYPE.FLOAT, naxis := 2, size := [some 1, some 1, none],
             shared := 0, NBkw := some 10, CBsize := some 0 } :=
  ⟨by decide, by decide, by decide, by decide, by decide, by decide, by decide,
    (makeIMGID_settings 100 "im1" 10 (by decide) (by decide) (by decide) (by decide)
      (by decide) (by decide) (by decide)).1 (by decide),
    (makeIMGID_settings 100 "im1" 10 (by decide) (by decide) (by decide) (by decide)
      (by decide) (by decide) (by decide)).2.1 (by decide)⟩

/-- C9, counterexample to the claim as stated: the empty base name contains no `>`, is
not an option word and starts with neither `k` nor `c`; yet `makeIMGID("s>")` does not
give the image name "" with the shared flag set: the word "s" is taken both as the
setting and as the image name. -/
theorem makeIMGID_empty_base_name :
    '>' ∉ ("" : String).toList ∧ ("" : String).toList ∉ optionWords ∧
    ("" : String).toList.head? ≠ some 'k' ∧ ("" : String).toList.head? ≠ some 'c' ∧
    makeIMGID 100 ("s>" ++ "") =
      some { ID := -1, name := "s", im := none, md := none, createcnt := -1,
             datatype := DATATYPE.FLOAT, naxis := 2, size := [some 1, some 1, none],
             shared := 1, NBkw := some 100, CBsize := some 0 } ∧
    (∀ NAMELEN : Nat, ∀ img : IMGID,
      makeIMGID NAMELEN ("s>" ++ "") = some img → img.name ≠ "") := by
  refine ⟨by decide, by decide, by decide, by decide, by decide, ?_⟩
  intro NAMELEN img h
  have hval : makeIMGID NAMELEN ("s>" ++ "") =
      if NAMELEN ≤ 1 then none
      else some { ID := -1, name := "s", im := none, md := none, createcnt := -1,
                  datatype := DATATYPE.FLOAT, naxis := 2, size := [some 1, some 1, none],
                  shared := 1, NBkw := some 100, CBsize := some 0 } := rfl
  rw [hval] at h
  split_ifs at h
  cases h
  decide

/-- C10, the code at the documented input: for "tD>im1" the datatype is the default,
single precision float, and not double, the word "tD" not being one that `makeIMGID`
compares with; "tF>im1" gives float only because float is the default; double is
selected by the word "tf64". -/
theorem makeIMGID_tD_is_float :
    makeIMGID 100 "tD>im1" =
      some { ID := -1, name := "im1", im := none, md := none, createcnt := -1,
             datatype := DATATYPE.FLOAT, naxis := 2, size := [some 1, some 1, none],
             shared := 0, NBkw := some 100, CBsize := some 0 } ∧
    DATATYPE.FLOAT ≠ DATATYPE.DOUBLE ∧
    makeIMGID 100 "tF>im1" = makeIMGID 100 "im1" ∧
    makeIMGID 100 "tf64>im1" =
      some { ID := -1, name := "im1", im := none, md := none, createcnt := -1,
             datatype := DATATYPE.DOUBLE, naxis := 2, size := [some 1, some 1, none],
             shared := 0, NBkw := some 100, CBsize := some 0 } := by
  decide

/-! ## Facts about the standard compute loop -/

theorem loopStart_flag (S : LoopSetup) (hP : S.PROCINFO = true) :
    ∃ pre : List LoopCall,
      loopStart S = some (pre ++ [LoopCall.processinfo_loopstart]) ∧
      (∀ x ∈ pre, x = LoopCall.processinfo_setup S.FPS_name ∨
        x = LoopCall.processinfo_setup S.key ∨ x = LoopCall.fps_to_processinfo ∨
        x = LoopCall.image_ID S.triggerstreamname ∨
        x = LoopCall.processinfo_waitoninputstream_init) := by
  have h1 : ¬ (pinfodescr_slen S.key < 1) := by unfold pinfodescr_slen; omega
  have h2 : ¬ (200 ≤ pinfodescr_slen S.key) := by unfold pinfodescr_slen; omega
  by_cases hf : S.fpsptr = true
  · refine ⟨[LoopCall.processinfo_setup S.FPS_name, LoopCall.fps_to_processinfo,
      LoopCall.image_ID S.triggerstreamname, LoopCall.processinfo_waitoninputstream_init],
      ?_, ?_⟩
    · simp [loopStart, hP, h1, h2, hf]
    · intro x hx
      simp only [List.mem_cons, List.mem_singleton, List.not_mem_nil, or_false] at hx
      tauto
  · refine ⟨[LoopCall.processinfo_setup S.key,
      LoopCall.image_ID S.triggerstreamname, LoopCall.processinfo_waitoninputstream_init],
      ?_, ?_⟩
    · simp [loopStart, hP, h1, h2, hf]
    · intro x hx
      simp only [List.mem_cons, List.mem_singleton, List.not_mem_nil, or_false] at hx
      tauto

theorem whileLoop_not_one (P : Bool) (cycles : List Cycle) (ok : Int) (h : ok ≠ 1) :
    whileLoop P cycles ok = ([], LoopEnd.left) := by
  cases cycles <;> simp [whileLoop, h]

theorem whileLoop_closed : ∀ (cycles : List Cycle),
    (∀ c ∈ executed cycles, c.compstatus = 1 → c.body ≠ BodyEnd.endsProcess) →
    whileLoop true cycles 1 =
      ((executed cycles).flatMap cycleCalls,
        if stops cycles = true then LoopEnd.left else LoopEnd.running) := by
  intro cycles
  induction cycles with
  | nil => intro _; simp [whileLoop, executed, stops]
  | cons c rest ih =>
    intro h
    have hc := h c (by unfold executed; split <;> simp)
    by_cases h1 : c.loopstep = 1
    · have hr : whileLoop true rest 1 =
          ((executed rest).flatMap cycleCalls,
            if stops rest = true then LoopEnd.left else LoopEnd.running) :=
        ih (fun c1 hc1 => h c1 (by simp [executed, h1, hc1]))
      have hst : stops (c :: rest) = stops rest := by simp [stops, h1]
      have hex : executed (c :: rest) = c :: executed rest := by simp [executed, h1]
      rw [hst, hex]
      by_cases hs : c.compstatus = 1
      · cases hb : c.body with
        | endsProcess => exact absurd hb (hc hs)
        | returns v => simp [whileLoop, hs, hb, h1, hr, cycleCalls]
      · simp [whileLoop, hs, h1, hr, cycleCalls]
    · have hr := whileLoop_not_one true rest _ h1
      have hst : stops (c :: rest) = true := by simp [stops, h1]
      have hex : executed (c :: rest) = [c] := by simp [executed, h1]
      rw [hst, hex]
      by_cases hs : c.compstatus = 1
      · cases hb : c.body with
        | endsProcess => exact absurd hb (hc hs)
        | returns v => simp [whileLoop, hs, hb, hr, cycleCalls]
      · simp [whileLoop, hs, hr, cycleCalls]

theorem stdLoop_closed (S : LoopSetup) (cycles : List Cycle) (start : List LoopCall)
    (hP : S.PROCINFO = true) (hstart : loopStart S = some start)
    (hbody : ∀ c ∈ executed cycles, c.compstatus = 1 → c.body ≠ BodyEnd.endsProcess) :
    stdLoop S cycles =
      (start ++ (executed cycles).flatMap cycleCalls ++
          (if stops cycles = true then [LoopCall.processinfo_cleanExit] else []),
        if stops cycles = true then LoopEnd.left else LoopEnd.running) := by
  unfold stdLoop
  rw [hstart, hP]
  simp only [whileLoop_closed cycles hbody]
  by_cases hs : stops cycles = true
  · simp [hs]
  · simp [hs]

theorem filter_cycleCalls_bracket (c : Cycle) :
    (cycleCalls c).filter isExecBracket =
      [LoopCall.processinfo_exec_start, LoopCall.processinfo_exec_end] := by
  unfold cycleCalls
  split <;> rfl

theorem filter_cycleCalls_step (c : Cycle) :
    (cycleCalls c).filter isStepOrEnd =
      [LoopCall.processinfo_loopstep, LoopCall.processinfo_exec_end] := by
  unfold cycleCalls
  split <;> rfl

theorem filter_flatMap_const {α β : Type} (p : β → Bool) (f : α → List β) (k : List β)
    (h : ∀ a, (f a).filter p = k) :
    ∀ l : List α, (l.flatMap f).filter p = (List.replicate l.length k).flatten := by
  intro l
  induction l with
  | nil => rfl
  | cons a t ih =>
    simp only [List.flatMap_cons, List.filter_append, h, ih, List.length_cons,
      List.replicate_succ, List.flatten_cons]

theorem whileLoop_no_cleanExit : ∀ (cycles : List Cycle) (P : Bool) (ok : Int),
    LoopCall.processinfo_cleanExit ∉ (whileLoop P cycles ok).1 := by
  intro cycles
  induction cycles with
  | nil =>
    intro P ok
    unfold whileLoop
    split <;> simp
  | cons c rest ih =>
    intro P ok
    have hr := ih P (if P = true then c.loopstep else 0)
    unfold whileLoop
    by_cases hok : ok = 1
    · by_cases hs : (if P = true then c.compstatus else 1) = 1
      · cases hb : c.body with
        | endsProcess =>
          simp only [hok, if_true, hs, hb]
          cases P <;> simp
        | returns v =>
          simp only [hok, if_true, hs, hb]
          cases P <;> simpa using hr
      · simp only [hok, if_true, hs, if_false]
        cases P <;> simpa using hr
    · simp [hok]

theorem whileLoop_left_last : ∀ (cycles : List Cycle) (ok : Int),
    (whileLoop true cycles ok).2 = LoopEnd.left →
      (ok ≠ 1 ∧ (whileLoop true cycles ok).1 = []) ∨
      ∃ init, (whileLoop true cycles ok).1 = init ++ [LoopCall.processinfo_exec_end] := by
  intro cycles
  induction cycles with
  | nil =>
    intro ok h
    by_cases hok : ok = 1
    · simp [whileLoop, hok] at h
    · exact Or.inl ⟨hok, by simp [whileLoop, hok]⟩
  | cons c rest ih =>
    intro ok h
    by_cases hok : ok = 1
    · right
      have hr := ih c.loopstep
      by_cases hs : c.compstatus = 1
      · cases hb : c.body with
        | endsProcess => simp [whileLoop, hok, hs, hb] at h
        | returns v =>
          simp only [whileLoop, hok, hs, hb, if_true] at h ⊢
          rcases hr h with ⟨_, h0⟩ | ⟨init, hinit⟩
          · rw [h0]
            exact ⟨[LoopCall.processinfo_loopstep, LoopCall.processinfo_waitoninputstream,
              LoopCall.processinfo_exec_start, LoopCall.processinfo_compute_status,
              LoopCall.body], by simp⟩
          · rw [hinit]
            exact ⟨[LoopCall.processinfo_loopstep, LoopCall.processinfo_waitoninputstream,
              LoopCall.processinfo_exec_start, LoopCall.processinfo_compute_status,
              LoopCall.body, LoopCall.processinfo_exec_end] ++ init, by simp⟩
      · simp only [whileLoop, hok, hs, if_true, if_false] at h ⊢
        rcases hr h with ⟨_, h0⟩ | ⟨init, hinit⟩
        · rw [h0]
          exact ⟨[LoopCall.processinfo_loopstep, LoopCall.processinfo_waitoninputstream,
            LoopCall.processinfo_exec_start, LoopCall.processinfo_compute_status],
            by simp⟩
        · rw [hinit]
          exact ⟨[LoopCall.processinfo_loopstep, LoopCall.processinfo_waitoninputstream,
            LoopCall.processinfo_exec_start, LoopCall.processinfo_compute_status,
            LoopCall.processinfo_exec_end] ++ init, by simp⟩
    · exact Or.inl ⟨hok, by simp [whileLoop, hok]⟩

theorem loopStart_no_cleanExit (S : LoopSetup) (start : List LoopCall)
    (h : loopStart S = some start) : LoopCall.processinfo_cleanExit ∉ start := by
  unfold loopStart at h
  split at h
  · split at h
    · cases h
    · split at h
      · cases h
      · cases h
        split <;> simp
  · cases h
    simp

theorem whileLoop_body_ends : ∀ (pre : List Cycle) (c : Cycle) (rest : List Cycle),
    (∀ p ∈ pre, p.loopstep = 1 ∧ (p.compstatus = 1 → p.body ≠ BodyEnd.endsProcess)) →
    c.compstatus = 1 → c.body = BodyEnd.endsProcess →
    whileLoop true (pre ++ c :: rest) 1 =
      (pre.flatMap cycleCalls ++
        [LoopCall.processinfo_loopstep, LoopCall.processinfo_waitoninputstream,
         LoopCall.processinfo_exec_start, LoopCall.processinfo_compute_status,
         LoopCall.body], LoopEnd.ended) := by
  intro pre
  induction pre with
  | nil =>
    intro c rest _ hs hb
    simp [whileLoop, hs, hb]
  | cons p ps ih =>
    intro c rest hpre hs hb
    obtain ⟨h1, hpb⟩ := hpre p (by simp)
    have hr := ih c rest (fun q hq => hpre q (by simp [hq])) hs hb
    by_cases hps : p.compstatus = 1
    · cases hpbody : p.body with
      | endsProcess => exact absurd hpbody (hpb hps)
      | returns v => simp [whileLoop, hps, hpbody, h1, hr, cycleCalls]
    · simp [whileLoop, hps, h1, hr, cycleCalls]

theorem stdLoop_body_ends (S : LoopSetup) (start : List LoopCall) (pre : List Cycle)
    (c : Cycle) (rest : List Cycle) (hP : S.PROCINFO = true)
    (hstart : loopStart S = some start)
    (hpre : ∀ p ∈ pre, p.loopstep = 1 ∧ (p.compstatus = 1 → p.body ≠ BodyEnd.endsProcess))
    (hs : c.compstatus = 1) (hb : c.body = BodyEnd.endsProcess) :
    stdLoop S (pre ++ c :: rest) =
      (start ++ (pre.flatMap cycleCalls ++
        [LoopCall.processinfo_loopstep, LoopCall.processinfo_waitoninputstream,
         LoopCall.processinfo_exec_start, LoopCall.processinfo_compute_status,
         LoopCall.body]), LoopEnd.ended) := by
  unfold stdLoop
  rw [hstart, hP]
  simp only [whileLoop_body_ends pre c rest hpre hs hb]

/-! ## The claims about the standard compute loop -/

/-- C12, as amended.  With the process-info flag set, for every sequence of answers of
`processinfo_loopstep` and `processinfo_compute_status`, and a body that returns each
time it is run (a body that ends the process, as `saveFITS` does by `abort()`, leaves
the `processinfo_exec_start` of its cycle without `processinfo_exec_end`, and no call
follows it): the calls are those of the start, ending with `processinfo_loopstart`, then for
every cycle gone through, in this order, `processinfo_loopstep`,
`processinfo_waitoninputstream`, `processinfo_exec_start`, `processinfo_compute_status`,
the body exactly when the status was 1, and `processinfo_exec_end`; then
`processinfo_cleanExit` once the loop is left.  Restricted to `exec_start` and `exec_end`
the calls are one pair start, end for each cycle, so both are called once per cycle and
alternate; restricted to `loopstep` and `exec_end` they are one pair step, end for each
cycle, so the step of a cycle comes after the end of the cycle before. -/
theorem stdLoop_call_order (S : LoopSetup) (cycles : List Cycle)
    (hP : S.PROCINFO = true)
    (hbody : ∀ c ∈ executed cycles, c.compstatus = 1 → c.body ≠ BodyEnd.endsProcess) :
    ∃ pre : List LoopCall,
      (∀ x ∈ pre, x = LoopCall.processinfo_setup S.FPS_name ∨
        x = LoopCall.processinfo_setup S.key ∨ x = LoopCall.fps_to_processinfo ∨
        x = LoopCall.image_ID S.triggerstreamname ∨
        x = LoopCall.processinfo_waitoninputstream_init) ∧
      (stdLoop S cycles).1 =
        pre ++ [LoopCall.processinfo_loopstart] ++ (executed cycles).flatMap cycleCalls ++
          (if stops cycles = true then [LoopCall.processinfo_cleanExit] else []) ∧
      (∀ c : Cycle, cycleCalls c =
        [LoopCall.processinfo_loopstep, LoopCall.processinfo_waitoninputstream,
         LoopCall.processinfo_exec_start, LoopCall.processinfo_compute_status] ++
        (if c.compstatus = 1 then [LoopCall.body] else []) ++
        [LoopCall.processinfo_exec_end]) ∧
      (stdLoop S cycles).1.filter isExecBracket =
        (List.replicate (executed cycles).length
          [LoopCall.processinfo_exec_start, LoopCall.processinfo_exec_end]).flatten ∧
      (stdLoop S cycles).1.filter isStepOrEnd =
        (List.replicate (executed cycles).length
          [LoopCall.processinfo_loopstep, LoopCall.processinfo_exec_end]).flatten := by
  obtain ⟨pre, hstart, hpre⟩ := loopStart_flag S hP
  have hrun := stdLoop_closed S cycles _ hP hstart hbody
  have hf1 : pre.filter isExecBracket = [] := by
    rw [List.filter_eq_nil_iff]
    intro x hx
    rcases hpre x hx with h | h | h | h | h <;> rw [h] <;> simp [isExecBracket]
  have hf2 : pre.filter isStepOrEnd = [] := by
    rw [List.filter_eq_nil_iff]
    intro x hx
    rcases hpre x hx with h | h | h | h | h <;> rw [h] <;> simp [isStepOrEnd]
  refine ⟨pre, hpre, by rw [hrun], fun c => rfl, ?_, ?_⟩
  · rw [hrun]
    simp only [List.filter_append, hf1,
      filter_flatMap_const isExecBracket cycleCalls _ filter_cycleCalls_bracket]
    split <;> simp [isExecBracket]
  · rw [hrun]
    simp only [List.filter_append, hf2,
      filter_flatMap_const isStepOrEnd cycleCalls _ filter_cycleCalls_step]
    split <;> simp [isStepOrEnd]

/-- C12, instance: three cycles are recorded, the second without computation and with
`processinfo_loopstep` returning 0; the run goes through two cycles and is left. -/
theorem stdLoop_call_order_witness :
    sampleSetup.PROCINFO = true ∧
    (∀ c ∈ executed [⟨1, 1, BodyEnd.returns 0⟩, ⟨0, 0, BodyEnd.returns 0⟩,
        ⟨1, 1, BodyEnd.returns 0⟩],
      c.compstatus = 1 → c.body ≠ BodyEnd.endsProcess) ∧
    ∃ pre : List LoopCall,
      (∀ x ∈ pre, x = LoopCall.processinfo_setup sampleSetup.FPS_name ∨
        x = LoopCall.processinfo_setup sampleSetup.key ∨ x = LoopCall.fps_to_processinfo ∨
        x = LoopCall.image_ID sampleSetup.triggerstreamname ∨
        x = LoopCall.processinfo_waitoninputstream_init) ∧
      (stdLoop sampleSetup [⟨1, 1, BodyEnd.returns 0⟩, ⟨0, 0, BodyEnd.returns 0⟩,
          ⟨1, 1, BodyEnd.returns 0⟩]).1 =
        pre ++ [LoopCall.processinfo_loopstart] ++
          (executed [⟨1, 1, BodyEnd.returns 0⟩, ⟨0, 0, BodyEnd.returns 0⟩,
            ⟨1, 1, BodyEnd.returns 0⟩]).flatMap cycleCalls ++
          (if stops [⟨1, 1, BodyEnd.returns 0⟩, ⟨0, 0, BodyEnd.returns 0⟩,
              ⟨1, 1, BodyEnd.returns 0⟩] = true
            then [LoopCall.processinfo_cleanExit] else []) :=
  ⟨rfl, by decide,
    (stdLoop_call_order sampleSetup
      [⟨1, 1, BodyEnd.returns 0⟩, ⟨0, 0, BodyEnd.returns 0⟩, ⟨1, 1, BodyEnd.returns 0⟩]
      rfl (by decide)).imp fun _ h => ⟨h.1, h.2.1⟩⟩

/-- C12, counterexample to the claim as stated: with the flag set, the body returns in
the first cycle and ends the process in the second, where the compute status is 1.  The
calls stop with the body of the second cycle: `processinfo_exec_start` is called twice
and `processinfo_exec_end` once, so the second cycle has no `processinfo_exec_end`.  The
same holds for every run in which the body ends the process: after the cycles that ran
to their end, one `processinfo_exec_start` is left without `processinfo_exec_end`. -/
theorem stdLoop_body_abort_leaves_exec_open :
    sampleSetup.PROCINFO = true ∧
    stdLoop sampleSetup [⟨1, 1, BodyEnd.returns 0⟩, ⟨1, 1, BodyEnd.endsProcess⟩,
        ⟨0, 1, BodyEnd.returns 0⟩] =
      ([LoopCall.processinfo_setup "savefits-00", LoopCall.fps_to_processinfo,
        LoopCall.image_ID "trig", LoopCall.processinfo_waitoninputstream_init,
        LoopCall.processinfo_loopstart,
        LoopCall.processinfo_loopstep, LoopCall.processinfo_waitoninputstream,
        LoopCall.processinfo_exec_start, LoopCall.processinfo_compute_status,
        LoopCall.body, LoopCall.processinfo_exec_end,
        LoopCall.processinfo_loopstep, LoopCall.processinfo_waitoninputstream,
        LoopCall.processinfo_exec_start, LoopCall.processinfo_compute_status,
        LoopCall.body], LoopEnd.ended) ∧
    (stdLoop sampleSetup [⟨1, 1, BodyEnd.returns 0⟩, ⟨1, 1, BodyEnd.endsProcess⟩,
        ⟨0, 1, BodyEnd.returns 0⟩]).1.filter isExecBracket =
      [LoopCall.processinfo_exec_start, LoopCall.processinfo_exec_end,
       LoopCall.processinfo_exec_start] ∧
    (∀ (S : LoopSetup) (pre : List Cycle) (c : Cycle) (rest : List Cycle),
      S.PROCINFO = true →
      (∀ p ∈ pre, p.loopstep = 1 ∧ (p.compstatus = 1 → p.body ≠ BodyEnd.endsProcess)) →
      c.compstatus = 1 → c.body = BodyEnd.endsProcess →
      (stdLoop S (pre ++ c :: rest)).2 = LoopEnd.ended ∧
      (stdLoop S (pre ++ c :: rest)).1.filter isExecBracket =
        (List.replicate pre.length
          [LoopCall.processinfo_exec_start, LoopCall.processinfo_exec_end]).flatten ++
        [LoopCall.processinfo_exec_start]) := by
  refine ⟨rfl, by decide, by decide, ?_⟩
  intro S pre c rest hP hpre hs hb
  obtain ⟨pre0, hstart, hpre0⟩ := loopStart_flag S hP
  have hf1 : pre0.filter isExecBracket = [] := by
    rw [List.filter_eq_nil_iff]
    intro x hx
    rcases hpre0 x hx with h | h | h | h | h <;> rw [h] <;> simp [isExecBracket]
  rw [stdLoop_body_ends S _ pre c rest hP hstart hpre hs hb]
  refine ⟨rfl, ?_⟩
  simp only [List.filter_append, hf1,
    filter_flatMap_const isExecBracket cycleCalls _ filter_cycleCalls_bracket]
  simp [isExecBracket]

/-- C14, as amended.  With the flag set: every run in which the loop is left (the
maximum count is reached or a stop is requested, `processinfo_loopstep` returning a
value other than 1) calls `processinfo_cleanExit` exactly once, as its last call, right
after the last `processinfo_exec_end` and so outside every cycle; a run that ends the
process inside the loop (`abort()` in the body, as on a resolution error under
`ERRMODE_FAIL`), or that is still in the loop, does not call it. -/
theorem stdLoop_cleanExit (S : LoopSetup) (cycles : List Cycle) (hP : S.PROCINFO = true) :
    ((stdLoop S cycles).2 = LoopEnd.left →
      ∃ init : List LoopCall,
        (stdLoop S cycles).1 =
          init ++ [LoopCall.processinfo_exec_end, LoopCall.processinfo_cleanExit] ∧
        LoopCall.processinfo_cleanExit ∉ init ∧
        (stdLoop S cycles).1.count LoopCall.processinfo_cleanExit = 1) ∧
    ((stdLoop S cycles).2 ≠ LoopEnd.left →
      (stdLoop S cycles).1.count LoopCall.processinfo_cleanExit = 0) := by
  obtain ⟨pre, hstart, _⟩ := loopStart_flag S hP
  have hnc1 := loopStart_no_cleanExit S _ hstart
  have hnc2 := whileLoop_no_cleanExit cycles true 1
  have hlast := whileLoop_left_last cycles 1
  unfold stdLoop
  rw [hstart, hP]
  simp only
  cases hend : (whileLoop true cycles 1).2 with
  | left =>
    simp only [if_true, ne_eq, not_true_eq_false, false_implies, and_true, forall_const]
    rcases hlast hend with ⟨h1, _⟩ | ⟨init, hinit⟩
    · exact absurd rfl h1
    · have hni : LoopCall.processinfo_cleanExit ∉ init := by
        intro hm
        apply hnc2
        rw [hinit]
        simp [hm]
      have hnall : LoopCall.processinfo_cleanExit ∉
          pre ++ [LoopCall.processinfo_loopstart] ++ init := by
        intro hm
        rcases List.mem_append.mp hm with h | h
        · exact hnc1 h
        · exact hni h
      refine ⟨pre ++ [LoopCall.processinfo_loopstart] ++ init, ?_, hnall, ?_⟩
      · rw [hinit]; simp
      · rw [hinit]
        have h0 := List.count_eq_zero_of_not_mem hnc1
        have h1 := List.count_eq_zero_of_not_mem hni
        simp only [List.count_append, h0, h1]
        decide
  | ended =>
    refine ⟨fun h => (by cases h), fun _ => ?_⟩
    apply List.count_eq_zero_of_not_mem
    intro hm
    rcases List.mem_append.mp hm with h | h
    · exact hnc1 h
    · exact hnc2 h
  | running =>
    refine ⟨fun h => (by cases h), fun _ => ?_⟩
    apply List.count_eq_zero_of_not_mem
    intro hm
    rcases List.mem_append.mp hm with h | h
    · exact hnc1 h
    · exact hnc2 h

/-- C14, instance of the amended statement: a run of two cycles that is left on the
maximum count calls `processinfo_cleanExit` once, after the last
`processinfo_exec_end`. -/
theorem stdLoop_cleanExit_witness :
    sampleSetup.PROCINFO = true ∧
    (stdLoop sampleSetup [⟨1, 1, BodyEnd.returns 0⟩, ⟨0, 1, BodyEnd.returns 0⟩]).2 =
      LoopEnd.left ∧
    ∃ init : List LoopCall,
      (stdLoop sampleSetup [⟨1, 1, BodyEnd.returns 0⟩, ⟨0, 1, BodyEnd.returns 0⟩]).1 =
        init ++ [LoopCall.processinfo_exec_end, LoopCall.processinfo_cleanExit] ∧
      LoopCall.processinfo_cleanExit ∉ init ∧
      (stdLoop sampleSetup [⟨1, 1, BodyEnd.returns 0⟩, ⟨0, 1, BodyEnd.returns 0⟩]).1.count
        LoopCall.processinfo_cleanExit = 1 :=
  ⟨rfl, by decide,
    (stdLoop_cleanExit sampleSetup [⟨1, 1, BodyEnd.returns 0⟩, ⟨0, 1, BodyEnd.returns 0⟩]
      rfl).1 (by decide)⟩

/-- C14, counterexample to the claim as stated: a body that calls `resolveIMGID` under
`ERRMODE_FAIL` on an absent name ends the process; the run of the loop ends there, with
the flag set, and `processinfo_cleanExit` is not called at all. -/
theorem stdLoop_abort_skips_cleanExit :
    sampleSetup.PROCINFO = true ∧
    resolveBody (resolveIMGID sampleModes sampleTable (image_ID sampleTable)
      (freshHandle "missing") sampleModes.ERRMODE_FAIL) = some BodyEnd.endsProcess ∧
    stdLoop sampleSetup [⟨1, 1, BodyEnd.endsProcess⟩, ⟨0, 1, BodyEnd.returns 0⟩] =
      ([LoopCall.processinfo_setup "savefits-00", LoopCall.fps_to_processinfo,
        LoopCall.image_ID "trig", LoopCall.processinfo_waitoninputstream_init,
        LoopCall.processinfo_loopstart,
        LoopCall.processinfo_loopstep, LoopCall.processinfo_waitoninputstream,
        LoopCall.processinfo_exec_start, LoopCall.processinfo_compute_status,
        LoopCall.body], LoopEnd.ended) ∧
    (stdLoop sampleSetup [⟨1, 1, BodyEnd.endsProcess⟩, ⟨0, 1, BodyEnd.returns 0⟩]).1.count
      LoopCall.processinfo_cleanExit = 0 := by
  decide

/-- C15, the code at a failing step: `compute_function` of `savefits.c` does not keep the
value of `saveFITS`.  In a run of one cycle in which `saveFITS` returns `RETURN_FAILURE`,
`compute_function` returns `RETURN_SUCCESS`; and whatever the cycles are, the only value
it returns is `RETURN_SUCCESS`. -/
theorem compute_function_drops_failure :
    sampleCodes.RETURN_FAILURE ≠ sampleCodes.RETURN_SUCCESS ∧
    (compute_function sampleCodes sampleSetup
      [⟨0, 1, BodyEnd.returns sampleCodes.RETURN_FAILURE⟩]).1 =
      [LoopCall.processinfo_setup "savefits-00", LoopCall.fps_to_processinfo,
        LoopCall.image_ID "trig", LoopCall.processinfo_waitoninputstream_init,
        LoopCall.processinfo_loopstart,
        LoopCall.processinfo_loopstep, LoopCall.processinfo_waitoninputstream,
        LoopCall.processinfo_exec_start, LoopCall.processinfo_compute_status,
        LoopCall.body, LoopCall.processinfo_exec_end,
        LoopCall.processinfo_cleanExit] ∧
    (compute_function sampleCodes sampleSetup
      [⟨0, 1, BodyEnd.returns sampleCodes.RETURN_FAILURE⟩]).2 =
      some sampleCodes.RETURN_SUCCESS ∧
    (∀ (R : RETURNCODES) (S : LoopSetup) (cycles : List Cycle) (v : Int),
      (compute_function R S cycles).2 = some v → v = R.RETURN_SUCCESS) := by
  refine ⟨by decide, by decide, by decide, ?_⟩
  intro R S cycles v h
  unfold compute_function at h
  split at h
  · cases h; rfl
  · cases h

/-! ## A further claim about `makeIMGID` -/

/-- C11, the code at names without `>`: the word that is the image name is also taken
as a setting.  "c20" gives circular buffer size 20, "s" sets the shared flag, "k5" gives
5 keywords and "tf64" datatype double, instead of the defaults; for "cube" the conversion
`c%d` stores nothing and the size is read without having been written: the handle is
returned with an indeterminate circular buffer size.  Only a name such as "im1" gives the
defaults. -/
theorem makeIMGID_name_read_as_setting :
    makeIMGID 100 "c20" = some { freshHandle "c20" with CBsize := some 20 } ∧
    makeIMGID 100 "s" = some { freshHandle "s" with shared := 1 } ∧
    makeIMGID 100 "k5" = some { freshHandle "k5" with NBkw := some 5 } ∧
    makeIMGID 100 "tf64" = some { freshHandle "tf64" with datatype := DATATYPE.DOUBLE } ∧
    makeIMGID 100 "cube" = some { freshHandle "cube" with CBsize := none } ∧
    makeIMGID 100 "im1" = some (freshHandle "im1") := by
  decide

/-! ## The claims about the standard FPS functions -/

/-- C16.  For every value `fret` that `compute_function` returns, `FPSRUNfunction`
connects to the structure named `data.FPS_name` in run mode, has `data.fpsptr` point to
the connected structure while the arguments are linked and `compute_function` runs, then
sets `data.fpsptr` to `NULL`, calls `function_parameter_RUNexit` on the structure once,
after `compute_function` has returned, and returns `fret`. -/
theorem FPSRUNfunction_trace (FPS_name : String) (fpsptr0 : Option String) (fret : Int) :
    (FPSRUNfunction FPS_name fpsptr0 (BodyEnd.returns fret)).1.calls =
      [RunCall.FPS_CONNECT FPS_name FPSCONNECT.FPSCONNECT_RUN,
       RunCall.STD_FARG_LINKfunction (some FPS_name),
       RunCall.compute_function (some FPS_name),
       RunCall.function_parameter_RUNexit FPS_name none] ∧
    (FPSRUNfunction FPS_name fpsptr0 (BodyEnd.returns fret)).1.fpsptr = none ∧
    (FPSRUNfunction FPS_name fpsptr0 (BodyEnd.returns fret)).2 = some fret := by
  refine ⟨rfl, rfl, rfl⟩

/-- C17.  In `CLIfunction` of the standard FPS functions.  When no FPS command code is
set (the command has no FPS flag, or `data.FPS_CMDCODE` is 0): the arguments are checked,
`compute_function` is called if and only if `CLI_checkarg_array` returns success, and
then its value is returned; the results HELP and FUNCPARAMSET give `RETURN_SUCCESS`
without computing; every other result is returned unchanged.  When the command has the
FPS flag and `data.FPS_CMDCODE` is not 0, the function returns `RETURN_SUCCESS` and
neither checks the arguments nor calls `compute_function`. -/
theorem CLIfunction_cases (R : RETURNCODES) (fpsFlag : Bool) (FPS_CMDCODE retval : Int)
    (compute : Int) :
    (¬ (fpsFlag = true ∧ FPS_CMDCODE ≠ 0) →
      CLICall.CLI_checkarg_array ∈ (CLIfunction R fpsFlag FPS_CMDCODE retval compute).1 ∧
      (CLICall.compute_function ∈ (CLIfunction R fpsFlag FPS_CMDCODE retval compute).1 ↔
        retval = RETURN_CLICHECKARGARRAY_SUCCESS) ∧
      (retval = RETURN_CLICHECKARGARRAY_SUCCESS →
        (CLIfunction R fpsFlag FPS_CMDCODE retval compute).2 = compute) ∧
      (retval = RETURN_CLICHECKARGARRAY_HELP ∨
          retval = RETURN_CLICHECKARGARRAY_FUNCPARAMSET →
        (CLIfunction R fpsFlag FPS_CMDCODE retval compute).2 = R.RETURN_SUCCESS) ∧
      (retval ≠ RETURN_CLICHECKARGARRAY_SUCCESS → retval ≠ RETURN_CLICHECKARGARRAY_HELP →
          retval ≠ RETURN_CLICHECKARGARRAY_FUNCPARAMSET →
        (CLIfunction R fpsFlag FPS_CMDCODE retval compute).2 = retval)) ∧
    (fpsFlag = true ∧ FPS_CMDCODE ≠ 0 →
      (CLIfunction R fpsFlag FPS_CMDCODE retval compute).2 = R.RETURN_SUCCESS ∧
      CLICall.CLI_checkarg_array ∉ (CLIfunction R fpsFlag FPS_CMDCODE retval compute).1 ∧
      CLICall.compute_function ∉ (CLIfunction R fpsFlag FPS_CMDCODE retval compute).1) := by
  have d03 : RETURN_CLICHECKARGARRAY_SUCCESS ≠ RETURN_CLICHECKARGARRAY_HELP := by decide
  have d02 : RETURN_CLICHECKARGARRAY_SUCCESS ≠ RETURN_CLICHECKARGARRAY_FUNCPARAMSET := by
    decide
  have d30 : RETURN_CLICHECKARGARRAY_HELP ≠ RETURN_CLICHECKARGARRAY_SUCCESS := by decide
  have d32 : RETURN_CLICHECKARGARRAY_HELP ≠ RETURN_CLICHECKARGARRAY_FUNCPARAMSET := by
    decide
  have d20 : RETURN_CLICHECKARGARRAY_FUNCPARAMSET ≠ RETURN_CLICHECKARGARRAY_SUCCESS := by
    decide
  have d23 : RETURN_CLICHECKARGARRAY_FUNCPARAMSET ≠ RETURN_CLICHECKARGARRAY_HELP := by
    decide
  refine ⟨fun hno => ?_, fun hcmd => ?_⟩
  · by_cases h0 : retval = RETURN_CLICHECKARGARRAY_SUCCESS
    · cases fpsFlag <;> simp_all [CLIfunction]
    · by_cases h3 : retval = RETURN_CLICHECKARGARRAY_HELP
      · cases fpsFlag <;> simp_all [CLIfunction]
      · by_cases h2 : retval = RETURN_CLICHECKARGARRAY_FUNCPARAMSET
        · cases fpsFlag <;> simp_all [CLIfunction]
        · cases fpsFlag <;> simp_all [CLIfunction]
  · obtain ⟨hf, hc⟩ := hcmd
    subst hf
    simp [CLIfunction, hc]

/-- C17, instance: without a command code a successful check returns the value 7 of
`compute_function`; a failed check (code 1) is returned as it is; with the FPS flag and
command code 4 the function returns `RETURN_SUCCESS` without check or computation. -/
theorem CLIfunction_cases_witness :
    ¬ ((true : Bool) = true ∧ (0 : Int) ≠ 0) ∧
    (CLIfunction sampleCodes true 0 RETURN_CLICHECKARGARRAY_SUCCESS 7).2 = 7 ∧
    (CLIfunction sampleCodes true 0 RETURN_CLICHECKARGARRAY_FAILURE 7).2 =
      RETURN_CLICHECKARGARRAY_FAILURE ∧
    ((true : Bool) = true ∧ (4 : Int) ≠ 0) ∧
    (CLIfunction sampleCodes true 4 RETURN_CLICHECKARGARRAY_SUCCESS 7).2 =
      sampleCodes.RETURN_SUCCESS :=
  ⟨by decide,
    ((CLIfunction_cases sampleCodes true 0 RETURN_CLICHECKARGARRAY_SUCCESS 7).1
      (by decide)).2.2.1 rfl,
    ((CLIfunction_cases sampleCodes true 0 RETURN_CLICHECKARGARRAY_FAILURE 7).1
      (by decide)).2.2.2.2 (by decide) (by decide) (by decide),
    by decide,
    ((CLIfunction_cases sampleCodes true 4 RETURN_CLICHECKARGARRAY_SUCCESS 7).2
      (by decide)).1⟩

/-! ## Facts about the tmux commands -/

set_option maxRecDepth 20000

theorem tmux_kill_text_sample :
    (functionparameter_FPS_tmux_kill sampleCodes sampleMD).1.map TmuxCmd.text =
      ["tmux send-keys -t savefits-00:ctrl C-c 2> /dev/null",
       "tmux send-keys -t savefits-00:ctrl \"exit\" C-m 2> /dev/null",
       "tmux send-keys -t savefits-00:conf C-c 2> /dev/null",
       "tmux send-keys -t savefits-00:conf \"exit\" C-m 2> /dev/null",
       "tmux send-keys -t savefits-00:run C-c 2> /dev/null",
       "tmux send-keys -t savefits-00:run \"exit\" C-m 2> /dev/null",
       "tmux kill-session -t savefits-00 2> /dev/null"] := by
  decide

theorem functionstring_confstart_sample :
    functionstring_confstart sampleMD =
      "function fpsconfstart \x7b\necho \"STARTING CONF PROCESS\"\n" ++
      "milk-exec -n savefits-00 \\\"saveFITS _CONFSTART_ 00 cam\\\"\n\x7d\n" := by
  decide

theorem sendKeysTo_name (typing : TmuxWindow → List String → Option TmuxWindow)
    (session window : String) (keys : List String) (s t : TmuxSession)
    (h : sendKeysTo typing session window keys s = some t) : t.name = s.name := by
  unfold sendKeysTo at h
  split at h
  · simp only at h
    split at h
    · cases h
    · cases h; rfl
  · cases h; rfl

theorem sendKeysTo_other (typing : TmuxWindow → List String → Option TmuxWindow)
    (session window : String) (keys : List String) (s : TmuxSession)
    (h : s.name ≠ session) : sendKeysTo typing session window keys s = some s := by
  simp [sendKeysTo, h]

theorem filter_sendKeys (typing : TmuxWindow → List String → Option TmuxWindow)
    (session window : String) (keys : List String) (st : List TmuxSession) :
    (st.filterMap (sendKeysTo typing session window keys)).filter
        (notNamed session) =
      st.filter (notNamed session) := by
  induction st with
  | nil => rfl
  | cons s rest ih =>
    by_cases hs : s.name = session
    · have hps : ¬ (notNamed session s = true) := by simp [notNamed, hs]
      rw [List.filter_cons_of_neg hps]
      cases ht : sendKeysTo typing session window keys s with
      | none =>
        rw [List.filterMap_cons_none ht]
        exact ih
      | some t =>
        have hn := sendKeysTo_name typing session window keys s t ht
        have hpt : ¬ (notNamed session t = true) := by simp [notNamed, hn, hs]
        rw [List.filterMap_cons_some ht, List.filter_cons_of_neg hpt]
        exact ih
    · have hps : notNamed session s = true := by simp [notNamed, hs]
      rw [List.filterMap_cons_some (sendKeysTo_other typing session window keys s hs),
        List.filter_cons_of_pos hps, List.filter_cons_of_pos hps, ih]

theorem tmux_kill_state (typing : TmuxWindow → List String → Option TmuxWindow)
    (R : RETURNCODES) (md : FPS_MD) (st : List TmuxSession) :
    tmuxRunAll typing (functionparameter_FPS_tmux_kill R md).1 st =
      st.filter (notNamed md.name) := by
  simp only [tmuxRunAll, functionparameter_FPS_tmux_kill, List.foldl_cons, List.foldl_nil,
    tmuxRun, filter_sendKeys]

/-! ## The claims about the tmux commands -/

/-- C18.  Session teardown is idempotent.  `functionparameter_FPS_tmux_kill` returns
`RETURN_SUCCESS` whatever the sessions are.  In the model of the tmux server, whatever
becomes of a window that receives keys: after the commands of the function the sessions
are those of other names, unchanged, and none has the name of the structure; running the
commands a second time leaves that state as it is; and on a server without a session of
that name the commands change nothing. -/
theorem tmux_kill_idempotent (typing : TmuxWindow → List String → Option TmuxWindow)
    (R : RETURNCODES) (md : FPS_MD) (st : List TmuxSession) :
    (functionparameter_FPS_tmux_kill R md).2 = R.RETURN_SUCCESS ∧
    tmuxRunAll typing (functionparameter_FPS_tmux_kill R md).1 st =
      st.filter (notNamed md.name) ∧
    (∀ s ∈ tmuxRunAll typing (functionparameter_FPS_tmux_kill R md).1 st,
      s.name ≠ md.name) ∧
    tmuxRunAll typing (functionparameter_FPS_tmux_kill R md).1
        (tmuxRunAll typing (functionparameter_FPS_tmux_kill R md).1 st) =
      tmuxRunAll typing (functionparameter_FPS_tmux_kill R md).1 st ∧
    ((∀ s ∈ st, s.name ≠ md.name) →
      tmuxRunAll typing (functionparameter_FPS_tmux_kill R md).1 st = st) := by
  refine ⟨rfl, tmux_kill_state typing R md st, ?_, ?_, ?_⟩
  · intro s hs
    rw [tmux_kill_state] at hs
    simpa [notNamed] using (List.mem_filter.mp hs).2
  · simp only [tmux_kill_state, List.filter_filter, Bool.and_self]
  · intro h
    rw [tmux_kill_state, List.filter_eq_self]
    intro s hs
    simpa [notNamed] using h s hs

/-- C18, instance: on the sample server the commands remove the session "savefits-00"
and leave the session "other"; run again they leave that state as it is. -/
theorem tmux_kill_idempotent_witness :
    tmuxRunAll recordKeys (functionparameter_FPS_tmux_kill sampleCodes sampleMD).1
        sampleServer =
      [{ name := "other", windows := [{ name := "ctrl", typed := [] }] }] ∧
    tmuxRunAll recordKeys (functionparameter_FPS_tmux_kill sampleCodes sampleMD).1
        (tmuxRunAll recordKeys (functionparameter_FPS_tmux_kill sampleCodes sampleMD).1
          sampleServer) =
      tmuxRunAll recordKeys (functionparameter_FPS_tmux_kill sampleCodes sampleMD).1
        sampleServer :=
  ⟨by decide,
    (tmux_kill_idempotent recordKeys sampleCodes sampleMD sampleServer).2.2.2.1⟩

theorem utf8ByteSize_append (a b : String) :
    (a ++ b).utf8ByteSize = a.utf8ByteSize + b.utf8ByteSize := by
  cases a
  cases b
  show String.utf8ByteSize (String.mk (_ ++ _)) = _
  simp [String.utf8ByteSize_mk]

theorem snprintf_fits (maxlen : Nat) (s : String) (h : s.utf8ByteSize < maxlen) :
    snprintf maxlen s = s := by
  simp [snprintf, h]

theorem intercalate_go_size (sep : String) : ∀ (rest : List String) (acc : String),
    acc.utf8ByteSize ≤ (String.intercalate.go acc sep rest).utf8ByteSize := by
  intro rest
  induction rest with
  | nil => intro acc; simp [String.intercalate.go]
  | cons e r ih =>
    intro acc
    have h := ih (acc ++ sep ++ e)
    simp only [String.intercalate.go]
    rw [utf8ByteSize_append, utf8ByteSize_append] at h
    omega

theorem argstring_fold : ∀ (rest : List String) (acc : String),
    (String.intercalate.go acc " " rest).utf8ByteSize < 1000 →
    rest.foldl (fun a e => snprintf 1000 (a ++ " " ++ e)) acc =
      String.intercalate.go acc " " rest := by
  intro rest
  induction rest with
  | nil => intro acc _; rfl
  | cons e r ih =>
    intro acc h
    simp only [String.intercalate.go] at h ⊢
    have hle := intercalate_go_size " " r (acc ++ " " ++ e)
    rw [List.foldl_cons, snprintf_fits 1000 _ (by omega)]
    exact ih _ h

theorem argstring_join (md : FPS_MD)
    (h : (String.intercalate " " md.nameindexW).utf8ByteSize < 1000) :
    argstring md =
      if md.nameindexW = [] then " " else String.intercalate " " md.nameindexW := by
  unfold argstring
  cases hn : md.nameindexW with
  | nil => simp
  | cons e0 rest =>
    rw [hn] at h
    simp only [String.intercalate] at h ⊢
    have hle := intercalate_go_size " " rest e0
    rw [snprintf_fits 1000 e0 (by omega), argstring_fold rest e0 h]
    simp

theorem functionstring_sizes (md : FPS_MD) :
    (functionstring_runstart md).utf8ByteSize + 3 =
      (functionstring_confstart md).utf8ByteSize ∧
    (functionstring_runstop md).utf8ByteSize + 5 =
      (functionstring_confstart md).utf8ByteSize := by
  have e1 : ("function fpsconfstart \x7b\n" : String).utf8ByteSize = 24 := by decide
  have e2 : ("echo \"STARTING CONF PROCESS\"\n" : String).utf8ByteSize = 29 := by decide
  have e3 : (" _CONFSTART_ " : String).utf8ByteSize = 13 := by decide
  have f1 : ("function fpsrunstart \x7b\n" : String).utf8ByteSize = 23 := by decide
  have f2 : ("echo \"STARTING RUN PROCESS\"\n" : String).utf8ByteSize = 28 := by decide
  have f3 : (" _RUNSTART_ " : String).utf8ByteSize = 12 := by decide
  have g1 : ("function fpsrunstop \x7b\n" : String).utf8ByteSize = 22 := by decide
  have g2 : ("echo \"STOPPING RUN PROCESS\"\n" : String).utf8ByteSize = 28 := by decide
  have g3 : (" _RUNSTOP_ " : String).utf8ByteSize = 11 := by decide
  simp only [functionstring_confstart, functionstring_runstart, functionstring_runstop,
    utf8ByteSize_append, e1, e2, e3, f1, f2, f3, g1, g2, g3]
  omega

/-- C19.  Command protocol.  For every structure whose name-index table, joined by
single spaces, takes fewer than `argstring_maxlen` = 1000 bytes and whose text for
`fpsconfstart` fits the 2000 bytes of `functionstring`:
`functionparameter_FPS_tmux_init` issues, after the commands that set the session up,
exactly three commands that define a shell function, `fpsconfstart` in window `conf`,
`fpsrunstart` and `fpsrunstop` in window `run`.  The command line of each function is
`<callprogname>-exec -n <name> "<callfuncname> <VERB> <args>"`, the two quotes being
written with a backslash since the text stands between double quotes in the command,
with `<VERB>` being `_CONFSTART_`, `_RUNSTART_`, `_RUNSTOP_`; the three lines share what
stands before and after the verb, and `<args>` is the entries of the table joined by
single spaces, a single space when the table is empty. -/
theorem tmux_init_protocol (R : RETURNCODES) (md : FPS_MD)
    (hargs : (String.intercalate " " md.nameindexW).utf8ByteSize < 1000)
    (hfit : (functionstring_confstart md).utf8ByteSize < 2000) :
    ∃ args pre post : String,
      args = (if md.nameindexW = [] then " " else String.intercalate " " md.nameindexW) ∧
      pre = md.callprogname ++ "-exec -n " ++ md.name ++ " \\\"" ++ md.callfuncname ++ " " ∧
      post = " " ++ args ++ "\\\"" ∧
      functionstring_confstart md =
        "function fpsconfstart \x7b\necho \"STARTING CONF PROCESS\"\n" ++
          (pre ++ "_CONFSTART_" ++ post) ++ "\n\x7d\n" ∧
      functionstring_runstart md =
        "function fpsrunstart \x7b\necho \"STARTING RUN PROCESS\"\n" ++
          (pre ++ "_RUNSTART_" ++ post) ++ "\n\x7d\n" ∧
      functionstring_runstop md =
        "function fpsrunstop \x7b\necho \"STOPPING RUN PROCESS\"\n" ++
          (pre ++ "_RUNSTOP_" ++ post) ++ "\n\x7d\n" ∧
      functionparameter_FPS_tmux_init R md =
        some ((functionparameter_FPS_tmux_kill R md).1 ++
          [ TmuxCmd.kill_session md.name,
            TmuxCmd.new_session md.name,
            TmuxCmd.rename_window md.name 0 "ctrl",
            TmuxCmd.new_window md.name "conf",
            TmuxCmd.new_window md.name "run",
            TmuxCmd.send_keys md.name "conf"
              ["\"" ++ functionstring_confstart md ++ "\"", "C-m"] false,
            TmuxCmd.send_keys md.name "run"
              ["\"" ++ functionstring_runstart md ++ "\"", "C-m"] false,
            TmuxCmd.send_keys md.name "run"
              ["\"" ++ functionstring_runstop md ++ "\"", "C-m"] false ],
          R.RETURN_SUCCESS) := by
  have hjoin := argstring_join md hargs
  obtain ⟨s1, s2⟩ := functionstring_sizes md
  have h1 : ¬ (2000 ≤ (functionstring_confstart md).utf8ByteSize) := by omega
  have h2 : ¬ (2000 ≤ (functionstring_runstart md).utf8ByteSize) := by omega
  have h3 : ¬ (2000 ≤ (functionstring_runstop md).utf8ByteSize) := by omega
  refine ⟨_, _, _, rfl, rfl, rfl, ?_, ?_, ?_, ?_⟩
  · rw [← hjoin]
    simp only [functionstring_confstart, String.append_assoc]
    rfl
  · rw [← hjoin]
    simp only [functionstring_runstart, String.append_assoc]
    rfl
  · rw [← hjoin]
    simp only [functionstring_runstop, String.append_assoc]
    rfl
  · simp only [functionparameter_FPS_tmux_init, h1, h2, h3, if_false, List.append_assoc]
    rfl

/-- C19, instance: the structure `sampleMD`, with the entries "00" and "cam". -/
theorem tmux_init_protocol_witness :
    (String.intercalate " " sampleMD.nameindexW).utf8ByteSize < 1000 ∧
    (functionstring_confstart sampleMD).utf8ByteSize < 2000 ∧
    ∃ args pre post : String,
      args = (if sampleMD.nameindexW = [] then " "
        else String.intercalate " " sampleMD.nameindexW) ∧
      pre = sampleMD.callprogname ++ "-exec -n " ++ sampleMD.name ++ " \\\"" ++
        sampleMD.callfuncname ++ " " ∧
      post = " " ++ args ++ "\\\"" ∧
      functionstring_confstart sampleMD =
        "function fpsconfstart \x7b\necho \"STARTING CONF PROCESS\"\n" ++
          (pre ++ "_CONFSTART_" ++ post) ++ "\n\x7d\n" :=
  ⟨by decide, by decide,
    (tmux_init_protocol sampleCodes sampleMD (by decide) (by decide)).imp fun _ h =>
      h.imp fun _ h => h.imp fun _ h => ⟨h.1, h.2.1, h.2.2.1, h.2.2.2.1⟩⟩

/-! ## Facts about saving to a FITS file -/

theorem fnametmp_head (ID_name : String) (pid tid : Int) :
    (fnametmp ID_name pid tid).toList.head? = some '_' := by
  simp [fnametmp, String.toList]

theorem cfitsioFile_bang (f : String) : cfitsioFile ("!" ++ f) = f := by
  simp [cfitsioFile, String.toList]

theorem cfitsioFile_plain (f : String) (h : f.toList.head? ≠ some '!') :
    cfitsioFile f = f := by
  unfold cfitsioFile
  rw [if_neg h]

theorem cfitsioFile_file_name1 (env : WriterEnv) (w : Writer) (f : String)
    (h : f.toList.head? ≠ some '!') : cfitsioFile (file_name1 env w f) = f := by
  unfold file_name1
  split
  · exact cfitsioFile_bang f
  · split
    · exact cfitsioFile_bang f
    · exact cfitsioFile_plain f h

theorem writerRun_files (env : WriterEnv) (lookup : String → Option Nat)
    (datatypeOf : Nat → Option DATATYPE) (w : Writer) (ID_name f : String)
    (h : f.toList.head? ≠ some '!') :
    (∀ g ∈ filesWritten (writerRun env lookup datatypeOf w ID_name f).1, g = f) ∧
    renames (writerRun env lookup datatypeOf w ID_name f).1 = [] := by
  have hc := cfitsioFile_file_name1 env w f h
  unfold writerRun
  split
  · simp [filesWritten, renames]
  · split
    · simp [filesWritten, renames]
    · split
      · simp [filesWritten, renames, hc]
      · simp [filesWritten, renames, hc]

theorem writerRun_returns (env : WriterEnv) (lookup : String → Option Nat)
    (datatypeOf : Nat → Option DATATYPE) (d : DATATYPE) (w : Writer) (ID_name f : String)
    (ID : Nat) (hl : lookup ID_name = some ID) (hd : datatypeOf ID = some d)
    (hm : env.malloc_ok = true) (hs : env.create_status = 0) :
    (writerRun env lookup datatypeOf w ID_name f).2 = true := by
  simp [writerRun, hl, hd, hm, hs]

theorem writerRun_ops (env : WriterEnv) (lookup : String → Option Nat)
    (datatypeOf : Nat → Option DATATYPE) (w : Writer) (ID_name f : String) (ID : Nat)
    (hl : lookup ID_name = some ID)
    (hw : (writerRun env lookup datatypeOf w ID_name f).2 = true) :
    (writerRun env lookup datatypeOf w ID_name f).1 =
      [FileOp.fits_create_file (file_name1 env w f), FileOp.fits_create_img,
       FileOp.fits_write_img, FileOp.fits_close_file] := by
  unfold writerRun at hw ⊢
  rw [hl] at hw ⊢
  simp only at hw ⊢
  split_ifs at hw ⊢
  rfl

/-! ## The claims about saving to a FITS file -/

/-- C20, as amended.  Atomic save is a two-step process.  For every existing image,
`save_fits_atomic` has the type-specific writer create and write no other file than the
temporary file `_savefits_atomic_<image name>_<pid>_<thread id>.tmp.fits`, so never
`file_name` when that is another name.  When the writer returns, which it does whenever
`malloc` succeeds and the FITS library reports no error on creating the file, the
function issues exactly one rename, of the temporary file onto `file_name`, as its last
step, and returns `RETURN_SUCCESS`; when the writer ends the process with `exit(0)`, no
rename is issued.  Whenever the function returns for an image of one of the ten
datatypes, the operations are, in this order, the creation of the temporary file, the
creation of the image in it, the writing of the data, the closing of the file, and then
the rename: the temporary file is the one file written.  For an image whose datatype
code is none of the ten, no writer is called and the rename alone is issued.  For an image that does not exist it writes nothing, issues no rename
and returns `RETURN_SUCCESS`.  `save_fits`, for a name that fits `savename[1000]`,
behaves as `save_fits_atomic` on `file_name` with one leading `!` removed. -/
theorem save_fits_atomic_two_steps (R : RETURNCODES) (env : WriterEnv)
    (lookup : String → Option Nat) (datatypeOf : Nat → Option DATATYPE) (pid tid : Int)
    (ID_name file_name : String) :
    (∀ ID : Nat, lookup ID_name = some ID →
      (∀ g ∈ filesWritten
          (save_fits_atomic R env lookup datatypeOf pid tid ID_name file_name).1,
        g = fnametmp ID_name pid tid) ∧
      (file_name ≠ fnametmp ID_name pid tid →
        file_name ∉ filesWritten
          (save_fits_atomic R env lookup datatypeOf pid tid ID_name file_name).1) ∧
      (env.malloc_ok = true → env.create_status = 0 →
        (save_fits_atomic R env lookup datatypeOf pid tid ID_name file_name).2 =
          some R.RETURN_SUCCESS) ∧
      ((save_fits_atomic R env lookup datatypeOf pid tid ID_name file_name).2 =
          some R.RETURN_SUCCESS →
        ∃ ops : List FileOp,
          (save_fits_atomic R env lookup datatypeOf pid tid ID_name file_name).1 =
            ops ++ [FileOp.mv (fnametmp ID_name pid tid) file_name] ∧
          renames ops = [] ∧
          renames (save_fits_atomic R env lookup datatypeOf pid tid ID_name file_name).1 =
            [(fnametmp ID_name pid tid, file_name)]) ∧
      ((save_fits_atomic R env lookup datatypeOf pid tid ID_name file_name).2 = none →
        renames (save_fits_atomic R env lookup datatypeOf pid tid ID_name file_name).1 =
          []) ∧
      ((save_fits_atomic R env lookup datatypeOf pid tid ID_name file_name).2 =
          some R.RETURN_SUCCESS ∨
        (save_fits_atomic R env lookup datatypeOf pid tid ID_name file_name).2 = none) ∧
      (∀ d : DATATYPE, datatypeOf ID = some d →
        (save_fits_atomic R env lookup datatypeOf pid tid ID_name file_name).2 =
          some R.RETURN_SUCCESS →
        (save_fits_atomic R env lookup datatypeOf pid tid ID_name file_name).1 =
          [FileOp.fits_create_file
             (file_name1 env (writerFor d) (fnametmp ID_name pid tid)),
           FileOp.fits_create_img, FileOp.fits_write_img, FileOp.fits_close_file,
           FileOp.mv (fnametmp ID_name pid tid) file_name] ∧
        filesWritten
            (save_fits_atomic R env lookup datatypeOf pid tid ID_name file_name).1 =
          [fnametmp ID_name pid tid]) ∧
      (datatypeOf ID = none →
        save_fits_atomic R env lookup datatypeOf pid tid ID_name file_name =
          ([FileOp.mv (fnametmp ID_name pid tid) file_name], some R.RETURN_SUCCESS))) ∧
    (lookup ID_name = none →
      save_fits_atomic R env lookup datatypeOf pid tid ID_name file_name =
        ([], some R.RETURN_SUCCESS)) ∧
    (file_name.utf8ByteSize < 1000 →
      save_fits R env lookup datatypeOf pid tid ID_name file_name =
        some (save_fits_atomic R env lookup datatypeOf pid tid ID_name
          (if file_name.toList.head? = some '!' then String.mk file_name.toList.tail
           else file_name))) := by
  have hhead : (fnametmp ID_name pid tid).toList.head? ≠ some '!' := by
    rw [fnametmp_head]; decide
  refine ⟨?_, ?_, ?_⟩
  · intro ID hl
    cases hd : datatypeOf ID with
    | none =>
      simp [save_fits_atomic, hl, hd, filesWritten, renames]
    | some d =>
      obtain ⟨hfiles, hren⟩ :=
        writerRun_files env lookup datatypeOf (writerFor d) ID_name
          (fnametmp ID_name pid tid) hhead
      have hret := writerRun_returns env lookup datatypeOf d (writerFor d) ID_name
        (fnametmp ID_name pid tid) ID hl hd
      cases hw : (writerRun env lookup datatypeOf (writerFor d) ID_name
          (fnametmp ID_name pid tid)).2 with
      | true =>
        have hrun : save_fits_atomic R env lookup datatypeOf pid tid ID_name file_name =
            ((writerRun env lookup datatypeOf (writerFor d) ID_name
                (fnametmp ID_name pid tid)).1 ++
              [FileOp.mv (fnametmp ID_name pid tid) file_name], some R.RETURN_SUCCESS) := by
          simp [save_fits_atomic, hl, hd, hw]
        have hfw : filesWritten ((writerRun env lookup datatypeOf (writerFor d) ID_name
              (fnametmp ID_name pid tid)).1 ++
            [FileOp.mv (fnametmp ID_name pid tid) file_name]) =
            filesWritten (writerRun env lookup datatypeOf (writerFor d) ID_name
              (fnametmp ID_name pid tid)).1 := by
          simp [filesWritten]
        have hrn : renames ((writerRun env lookup datatypeOf (writerFor d) ID_name
              (fnametmp ID_name pid tid)).1 ++
            [FileOp.mv (fnametmp ID_name pid tid) file_name]) =
            [(fnametmp ID_name pid tid, file_name)] := by
          have : renames ((writerRun env lookup datatypeOf (writerFor d) ID_name
              (fnametmp ID_name pid tid)).1 ++
            [FileOp.mv (fnametmp ID_name pid tid) file_name]) =
            renames (writerRun env lookup datatypeOf (writerFor d) ID_name
              (fnametmp ID_name pid tid)).1 ++ [(fnametmp ID_name pid tid, file_name)] := by
            simp [renames]
          rw [this, hren]
          rfl
        have hops := writerRun_ops env lookup datatypeOf (writerFor d) ID_name
          (fnametmp ID_name pid tid) ID hl hw
        rw [hrun]
        refine ⟨?_, ?_, fun _ _ => rfl, fun _ => ⟨_, rfl, hren, hrn⟩, ?_, Or.inl rfl,
          ?_, ?_⟩
        · intro g hg
          rw [hfw] at hg
          exact hfiles g hg
        · intro hne hmem
          rw [hfw] at hmem
          exact hne (hfiles _ hmem)
        · intro h
          cases h
        · intro d1 hd1 _
          cases hd1
          rw [hops]
          refine ⟨rfl, ?_⟩
          simp [filesWritten, cfitsioFile_file_name1 env (writerFor d) _ hhead]
        · intro h
          cases h
      | false =>
        have hrun : save_fits_atomic R env lookup datatypeOf pid tid ID_name file_name =
            ((writerRun env lookup datatypeOf (writerFor d) ID_name
                (fnametmp ID_name pid tid)).1, none) := by
          simp [save_fits_atomic, hl, hd, hw]
        rw [hrun]
        refine ⟨hfiles, fun hne hmem => hne (hfiles _ hmem), ?_, ?_, fun _ => hren,
          Or.inr rfl, ?_, ?_⟩
        · intro hm hs
          rw [hret hm hs] at hw
          cases hw
        · intro h
          cases h
        · intro d1 _ h
          cases h
        · intro h
          cases h
  · intro hl
    simp [save_fits_atomic, hl]
  · intro hlen
    have hsz : (if file_name.toList.head? = some '!' then String.mk file_name.toList.tail
        else file_name).utf8ByteSize < 1000 := by
      split
      · rename_i hb
        have hle : (String.mk file_name.toList.tail).utf8ByteSize ≤
            file_name.utf8ByteSize := by
          cases file_name with
          | mk cs =>
            cases cs with
            | nil => simp [String.toList]
            | cons c t =>
              simp only [String.toList, List.tail_cons, String.utf8ByteSize_mk,
                String.utf8Len_cons]
              omega
        omega
      · exact hlen
    have hn : ¬ (1000 ≤ (if file_name.toList.head? = some '!' then
        String.mk file_name.toList.tail else file_name).utf8ByteSize) := by omega
    simp only [save_fits, hn, if_false]

/-- C20, instance of the amended statement: the float image "im2" of the sample table is
saved to "out.fits" by process 12, thread 345; the writer creates and fills the
temporary file, then the file is renamed. -/
theorem save_fits_atomic_two_steps_witness :
    image_ID sampleTable "im2" = some 2 ∧
    quietEnv.malloc_ok = true ∧ quietEnv.create_status = 0 ∧
    fnametmp "im2" 12 345 = "_savefits_atomic_im2_12_345.tmp.fits" ∧
    save_fits_atomic sampleCodes quietEnv (image_ID sampleTable) sampleDatatype 12 345
        "im2" "out.fits" =
      ([FileOp.fits_create_file "_savefits_atomic_im2_12_345.tmp.fits",
        FileOp.fits_create_img, FileOp.fits_write_img, FileOp.fits_close_file,
        FileOp.mv "_savefits_atomic_im2_12_345.tmp.fits" "out.fits"],
       some sampleCodes.RETURN_SUCCESS) ∧
    (save_fits_atomic sampleCodes quietEnv (image_ID sampleTable) sampleDatatype 12 345
        "im2" "out.fits").2 = some sampleCodes.RETURN_SUCCESS ∧
    save_fits sampleCodes quietEnv (image_ID sampleTable) sampleDatatype 12 345
        "im2" "!out.fits" =
      some (save_fits_atomic sampleCodes quietEnv (image_ID sampleTable) sampleDatatype
        12 345 "im2" "out.fits") :=
  ⟨by decide, rfl, rfl, by decide, by decide,
    ((save_fits_atomic_two_steps sampleCodes quietEnv (image_ID sampleTable) sampleDatatype
      12 345 "im2" "out.fits").1 2 (by decide)).2.2.1 rfl rfl,
    (save_fits_atomic_two_steps sampleCodes quietEnv (image_ID sampleTable) sampleDatatype
      12 345 "im2" "!out.fits").2.2 (by decide)⟩

/-- C20, counterexample to the claim as stated: the image "im2" exists, but the
temporary file exists already and the FITS library cannot create it; the writer
`save_fl_fits` calls `exit(0)`, and no rename is issued.  The same happens for the image
"im0", which needs a conversion, when `malloc` returns `NULL`. -/
theorem save_fits_atomic_writer_exits :
    image_ID sampleTable "im2" = some 2 ∧
    save_fits_atomic sampleCodes staleFileEnv (image_ID sampleTable) sampleDatatype 12 345
        "im2" "out.fits" =
      ([FileOp.fits_create_file "_savefits_atomic_im2_12_345.tmp.fits"], none) ∧
    renames (save_fits_atomic sampleCodes staleFileEnv (image_ID sampleTable)
      sampleDatatype 12 345 "im2" "out.fits").1 = [] ∧
    image_ID sampleTable "im0" = some 0 ∧
    save_fits_atomic sampleCodes noMemoryEnv (image_ID sampleTable) sampleDatatype 12 345
        "im0" "out.fits" = ([], none) := by
  decide

/-! ## Facts about the name of the temporary file -/

theorem append_cons_cancel {α : Type} (c : α) : ∀ (a b x y : List α), c ∉ x → c ∉ y →
    a ++ c :: x = b ++ c :: y → a = b ∧ x = y := by
  intro a
  induction a with
  | nil =>
    intro b x y hx _ h
    cases b with
    | nil => simpa using h
    | cons b0 bs =>
      simp only [List.nil_append, List.cons_append, List.cons.injEq] at h
      exact absurd (by rw [h.2]; simp) hx
  | cons a0 as ih =>
    intro b x y hx hy h
    cases b with
    | nil =>
      simp only [List.nil_append, List.cons_append, List.cons.injEq] at h
      exact absurd (by rw [← h.2]; simp) hy
    | cons b0 bs =>
      simp only [List.cons_append, List.cons.injEq] at h
      obtain ⟨e1, e2⟩ := ih bs x y hx hy h.2
      exact ⟨by rw [h.1, e1], e2⟩

theorem toString_int_toList (i : Int) :
    (toString i).toList =
      match i with
      | Int.ofNat m => Nat.toDigits 10 m
      | Int.negSucc m => '-' :: Nat.toDigits 10 (m + 1) := by
  cases i <;> rfl

theorem toDigits_injective (m n : Nat) (h : Nat.toDigits 10 m = Nat.toDigits 10 n) :
    m = n := by
  rw [← decValue_toDigits m, ← decValue_toDigits n, h]

theorem toDigits_head_ne_minus (m : Nat) (rest : List Char) :
    Nat.toDigits 10 m ≠ '-' :: rest := by
  intro h
  have := toDigits_plain m '-' (by rw [h]; simp)
  exact this.2.2.1 rfl

theorem toString_int_injective (i j : Int) (h : (toString i).toList = (toString j).toList) :
    i = j := by
  rw [toString_int_toList, toString_int_toList] at h
  cases i with
  | ofNat m =>
    cases j with
    | ofNat n => simp only at h; rw [toDigits_injective m n h]
    | negSucc n => simp only at h; exact absurd h (toDigits_head_ne_minus m _)
  | negSucc m =>
    cases j with
    | ofNat n => simp only at h; exact absurd h.symm (toDigits_head_ne_minus n _)
    | negSucc n =>
      simp only [List.cons.injEq, true_and] at h
      have := toDigits_injective _ _ h
      have : m = n := by omega
      rw [this]

theorem toString_int_no_underscore (i : Int) : '_' ∉ (toString i).toList := by
  rw [toString_int_toList]
  intro h
  cases i with
  | ofNat m =>
    simp only at h
    have := (toDigits_plain m '_' h).1
    revert this; decide
  | negSucc m =>
    simp only [List.mem_cons] at h
    rcases h with h | h
    · revert h; decide
    · have := (toDigits_plain (m + 1) '_' h).1
      revert this; decide

theorem fnametmp_toList (ID_name : String) (pid tid : Int) :
    (fnametmp ID_name pid tid).toList =
      "_savefits_atomic_".toList ++ ((ID_name.toList ++ '_' :: (toString pid).toList) ++
        '_' :: (toString tid).toList) ++ ".tmp.fits".toList := by
  simp [fnametmp, String.toList]

theorem fnametmp_inj (name1 name2 : String) (pid1 pid2 tid1 tid2 : Int)
    (h : fnametmp name1 pid1 tid1 = fnametmp name2 pid2 tid2) :
    name1 = name2 ∧ pid1 = pid2 ∧ tid1 = tid2 := by
  have h0 := congrArg String.toList h
  rw [fnametmp_toList, fnametmp_toList] at h0
  have h1 := List.append_cancel_right h0
  have h2 := List.append_cancel_left h1
  obtain ⟨h3, h4⟩ := append_cons_cancel '_' _ _ _ _ (toString_int_no_underscore tid1)
    (toString_int_no_underscore tid2) h2
  obtain ⟨h5, h6⟩ := append_cons_cancel '_' _ _ _ _ (toString_int_no_underscore pid1)
    (toString_int_no_underscore pid2) h3
  refine ⟨?_, toString_int_injective _ _ h6, toString_int_injective _ _ h4⟩
  cases name1; cases name2
  simp only [String.toList] at h5
  rw [h5]

/-! ## Facts about `saveFITS` and `save_int64_fits` -/

theorem saveFITS_create_file (R : RETURNCODES) (env : FITSIOEnv)
    (lookup : String → Option Nat) (datatypeOf : Nat → Option DATATYPE) (pid tid : Int)
    (inputimname outputFITSname : String) (outputbitpix : Int) (g : String)
    (h : FITSCall.fits_create_file g ∈
      (saveFITS R env lookup datatypeOf pid tid inputimname outputFITSname outputbitpix).1) :
    g = fnametmp inputimname pid tid := by
  unfold saveFITS at h
  split at h
  · simp at h
  · simp only at h
    split_ifs at h <;> simpa using h

theorem saveFITS_imagesCreated (R : RETURNCODES) (env : FITSIOEnv)
    (lookup : String → Option Nat) (datatypeOf : Nat → Option DATATYPE) (pid tid : Int)
    (inputimname outputFITSname : String) (outputbitpix : Int) (IDin : Nat)
    (hID : lookup inputimname = some IDin) (hc : env.create_file = 0) :
    imagesCreated
        (saveFITS R env lookup datatypeOf pid tid inputimname outputFITSname outputbitpix).1 =
      [outputbitpixSwitch outputbitpix (datatypeSwitch IDin (datatypeOf IDin)).bitpix] := by
  simp only [saveFITS, hID, hc]
  split_ifs <;> simp [imagesCreated] at *

theorem saveFITS_buffersWritten (R : RETURNCODES) (env : FITSIOEnv)
    (lookup : String → Option Nat) (datatypeOf : Nat → Option DATATYPE) (pid tid : Int)
    (inputimname outputFITSname : String) (outputbitpix : Int) (IDin : Nat)
    (hID : lookup inputimname = some IDin) (hc : env.create_file = 0)
    (hi : env.create_img = 0) :
    buffersWritten
        (saveFITS R env lookup datatypeOf pid tid inputimname outputFITSname outputbitpix).1 =
      [((datatypeSwitch IDin (datatypeOf IDin)).FITSIOdatatype,
        (datatypeSwitch IDin (datatypeOf IDin)).datainptr)] := by
  simp only [saveFITS, hID, hc, hi]
  split_ifs <;> simp [buffersWritten] at *

theorem saveFITS_no_error (R : RETURNCODES) (lookup : String → Option Nat)
    (datatypeOf : Nat → Option DATATYPE) (pid tid : Int)
    (inputimname outputFITSname : String) (outputbitpix : Int) (IDin : Nat)
    (hID : lookup inputimname = some IDin) :
    saveFITS R noErrorEnv lookup datatypeOf pid tid inputimname outputFITSname outputbitpix =
      ([FITSCall.fits_create_file (fnametmp inputimname pid tid),
        FITSCall.fits_create_img
          (outputbitpixSwitch outputbitpix (datatypeSwitch IDin (datatypeOf IDin)).bitpix),
        FITSCall.fits_write_img (datatypeSwitch IDin (datatypeOf IDin)).FITSIOdatatype
          (datatypeSwitch IDin (datatypeOf IDin)).datainptr,
        FITSCall.fits_close_file,
        FITSCall.mv (fnametmp inputimname pid tid) outputFITSname],
       some R.RETURN_SUCCESS) := by
  simp [saveFITS, hID, noErrorEnv]

theorem datatypeSwitch_16bit_alike (IDin : Nat) :
    (datatypeSwitch IDin (some DATATYPE.INT16)).FITSIOdatatype =
      (datatypeSwitch IDin (some DATATYPE.UINT16)).FITSIOdatatype ∧
    (datatypeSwitch IDin (some DATATYPE.INT16)).bitpix =
      (datatypeSwitch IDin (some DATATYPE.UINT16)).bitpix ∧
    DATATYPE.INT16.element.signed ≠ DATATYPE.UINT16.element.signed :=
  ⟨rfl, rfl, by decide⟩

theorem datatypeSwitch_no_reading (IDin : Nat) (inMemory : FITSIOTYPE → ELEMENT)
    (onDisk : IMGTYPE → ELEMENT) :
    ¬ ∀ d : DATATYPE,
      inMemory (datatypeSwitch IDin (some d)).FITSIOdatatype = d.element ∧
      onDisk (datatypeSwitch IDin (some d)).bitpix = d.element := by
  intro h
  have h1 := (h DATATYPE.INT16).1
  have h2 := (h DATATYPE.UINT16).1
  simp only [datatypeSwitch] at h1 h2
  rw [h1] at h2
  revert h2
  decide

theorem save_int64_fits_fileOps (env : WriterEnv) (lookup : String → Option Nat)
    (datatypeOf : Nat → Option DATATYPE) (ID_name file_name : String) :
    (save_int64_fits env lookup datatypeOf ID_name file_name).1.filterMap FITSCall.fileOp =
      (writerRun env lookup datatypeOf Writer.save_int64_fits ID_name file_name).1 ∧
    (save_int64_fits env lookup datatypeOf ID_name file_name).2 =
      (writerRun env lookup datatypeOf Writer.save_int64_fits ID_name file_name).2 := by
  unfold save_int64_fits writerRun
  cases hl : lookup ID_name with
  | none => simp
  | some ID =>
    cases hd : datatypeOf ID with
    | none =>
      cases hm : env.malloc_ok <;> simp [Writer.native, hd, hm]
    | some d =>
      cases hm : env.malloc_ok <;> by_cases h64 : d = DATATYPE.INT64 <;>
        by_cases hc : env.create_status = 0 <;>
        by_cases hf : env.file_exists (file_name1 env Writer.save_int64_fits file_name) = true <;>
        by_cases h32 : d = DATATYPE.INT32 <;>
        simp [Writer.native, hd, hm, h64, hc, hf, h32, FITSCall.fileOp]

theorem save_fits_atomic_files (R : RETURNCODES) (env : WriterEnv)
    (lookup : String → Option Nat) (datatypeOf : Nat → Option DATATYPE) (pid tid : Int)
    (ID_name file_name g : String)
    (h : g ∈ filesWritten
      (save_fits_atomic R env lookup datatypeOf pid tid ID_name file_name).1) :
    g = fnametmp ID_name pid tid := by
  have hh : (fnametmp ID_name pid tid).toList.head? ≠ some '!' := by
    rw [fnametmp_head]; decide
  unfold save_fits_atomic at h
  cases hl : lookup ID_name with
  | none => simp [hl, filesWritten] at h
  | some ID =>
    simp only [hl] at h
    cases hd : datatypeOf ID with
    | none => simp [hd, filesWritten] at h
    | some d =>
      simp only [hd] at h
      have hw := (writerRun_files env lookup datatypeOf (writerFor d) ID_name
        (fnametmp ID_name pid tid) hh).1
      split_ifs at h
      · simp only [filesWritten, List.filterMap_append, List.mem_append] at h
        rcases h with h | h
        · exact hw g h
        · simp at h
      · exact hw g h

/-! ## The claims about `saveFITS`, `save_int64_fits` and the temporary file name -/

/-- C21: the type that the parameter `bitpix` selects.  For every existing image,
whatever its datatype, once the temporary file is created `saveFITS` asks
`fits_create_img` for exactly one on-disk type.  With `bitpix` 8 this is `BYTE_IMG`, the
unsigned 8-bit integer and the type of the automatic choice for a `UINT8` image; with 10
it is `SBYTE_IMG`, the signed 8-bit integer and the automatic choice for an `INT8`
image: the two are the reverse of the parameter's description "8 /(10) : (un)sig 8-b
int".  The other values are as described: 16, 32, 64 select the signed and 20, 40, 80
the unsigned integers of 16, 32, 64 bits, -32 and -64 the floats of 32 and 64 bits, and
0 and every other value leave the automatic choice. -/
theorem saveFITS_bitpix_8_is_unsigned (R : RETURNCODES) (env : FITSIOEnv)
    (lookup : String → Option Nat) (datatypeOf : Nat → Option DATATYPE) (pid tid : Int)
    (inputimname outputFITSname : String) (outputbitpix : Int) (IDin : Nat)
    (hID : lookup inputimname = some IDin) (hc : env.create_file = 0) :
    ∃ t : IMGTYPE,
      imagesCreated (saveFITS R env lookup datatypeOf pid tid inputimname outputFITSname
        outputbitpix).1 = [t] ∧
      (outputbitpix = 8 → t = IMGTYPE.BYTE_IMG ∧
        t.element = { bits := 8, signed := false, floating := false } ∧
        t = (datatypeSwitch IDin (some DATATYPE.UINT8)).bitpix) ∧
      (outputbitpix = 10 → t = IMGTYPE.SBYTE_IMG ∧
        t.element = { bits := 8, signed := true, floating := false } ∧
        t = (datatypeSwitch IDin (some DATATYPE.INT8)).bitpix) ∧
      (outputbitpix = 16 → t = IMGTYPE.SHORT_IMG ∧
        t.element = { bits := 16, signed := true, floating := false }) ∧
      (outputbitpix = 20 → t = IMGTYPE.USHORT_IMG ∧
        t.element = { bits := 16, signed := false, floating := false }) ∧
      (outputbitpix = 32 → t = IMGTYPE.LONG_IMG ∧
        t.element = { bits := 32, signed := true, floating := false }) ∧
      (outputbitpix = 40 → t = IMGTYPE.ULONG_IMG ∧
        t.element = { bits := 32, signed := false, floating := false }) ∧
      (outputbitpix = 64 → t = IMGTYPE.LONGLONG_IMG ∧
        t.element = { bits := 64, signed := true, floating := false }) ∧
      (outputbitpix = 80 → t = IMGTYPE.ULONGLONG_IMG ∧
        t.element = { bits := 64, signed := false, floating := false }) ∧
      (outputbitpix = -32 → t = IMGTYPE.FLOAT_IMG ∧
        t.element = { bits := 32, signed := true, floating := true }) ∧
      (outputbitpix = -64 → t = IMGTYPE.DOUBLE_IMG ∧
        t.element = { bits := 64, signed := true, floating := true }) ∧
      (outputbitpix ∉ ([8, 10, 16, 20, 32, 40, 64, 80, -32, -64] : List Int) →
        t = (datatypeSwitch IDin (datatypeOf IDin)).bitpix) := by
  refine ⟨_, saveFITS_imagesCreated R env lookup datatypeOf pid tid inputimname
    outputFITSname outputbitpix IDin hID hc, ?_, ?_, ?_, ?_, ?_, ?_, ?_, ?_, ?_, ?_, ?_⟩
  · intro h; subst h; exact ⟨rfl, rfl, rfl⟩
  · intro h; subst h; exact ⟨rfl, rfl, rfl⟩
  · intro h; subst h; exact ⟨rfl, rfl⟩
  · intro h; subst h; exact ⟨rfl, rfl⟩
  · intro h; subst h; exact ⟨rfl, rfl⟩
  · intro h; subst h; exact ⟨rfl, rfl⟩
  · intro h; subst h; exact ⟨rfl, rfl⟩
  · intro h; subst h; exact ⟨rfl, rfl⟩
  · intro h; subst h; exact ⟨rfl, rfl⟩
  · intro h; subst h; exact ⟨rfl, rfl⟩
  · intro h
    simp only [List.mem_cons, List.mem_singleton, not_or, List.not_mem_nil, or_false] at h
    obtain ⟨h1, h2, h3, h4, h5, h6, h7, h8, h9, h10⟩ := h
    simp [outputbitpixSwitch, h1, h2, h3, h4, h5, h6, h7, h8, h9, h10]

/-- C21, the failing input: the image "im0" of a table is saved with `bitpix` 8,
described as the signed 8-bit integer; `saveFITS` asks for `BYTE_IMG`, the unsigned
8-bit integer.  With `bitpix` 10 it asks for `SBYTE_IMG`, the signed one. -/
theorem saveFITS_bitpix_8_is_unsigned_witness :
    integerLookup "im0" = some 0 ∧ noErrorEnv.create_file = 0 ∧
    (saveFITS sampleCodes noErrorEnv integerLookup integerDatatype 12 345 "im0" "out.fits"
        8).1 =
      [FITSCall.fits_create_file "_savefits_atomic_im0_12_345.tmp.fits",
       FITSCall.fits_create_img IMGTYPE.BYTE_IMG,
       FITSCall.fits_write_img FITSIOTYPE.TLONG (some (Buffer.image 0 DATATYPE.INT64)),
       FITSCall.fits_close_file,
       FITSCall.mv "_savefits_atomic_im0_12_345.tmp.fits" "out.fits"] ∧
    imagesCreated (saveFITS sampleCodes noErrorEnv integerLookup integerDatatype 12 345
      "im0" "out.fits" 10).1 = [IMGTYPE.SBYTE_IMG] ∧
    IMGTYPE.BYTE_IMG.element.signed = false ∧ IMGTYPE.SBYTE_IMG.element.signed = true ∧
    ∃ t : IMGTYPE,
      imagesCreated (saveFITS sampleCodes noErrorEnv integerLookup integerDatatype 12 345
        "im0" "out.fits" 8).1 = [t] ∧
      t = IMGTYPE.BYTE_IMG :=
  ⟨by decide, rfl, by decide, by decide, rfl, rfl,
    (saveFITS_bitpix_8_is_unsigned sampleCodes noErrorEnv integerLookup integerDatatype
      12 345 "im0" "out.fits" 8 0 (by decide) rfl).imp
      fun _ h => ⟨h.1, (h.2.1 rfl).1⟩⟩

/-- C22: the automatic choice of `saveFITS`.  For every existing image of one of the ten
datatypes, with `bitpix` 0 and once the file and the image are created, the one buffer
handed to `fits_write_img` is the image's own buffer, read through the member of its
datatype.  The in-memory type has the element type of the datatype for every datatype
but `INT16`, whose data are handed over as `TUSHORT`, unsigned (for the 64-bit datatypes
when the C type `long` has 64 bits).  The on-disk type has the element type of the
datatype for every datatype but `UINT16`, written to `SHORT_IMG`, signed. -/
theorem saveFITS_auto_16bit_signedness (LONGBITS : Nat) (R : RETURNCODES) (env : FITSIOEnv)
    (lookup : String → Option Nat) (datatypeOf : Nat → Option DATATYPE) (pid tid : Int)
    (inputimname outputFITSname : String) (IDin : Nat) (d : DATATYPE)
    (hID : lookup inputimname = some IDin) (hd : datatypeOf IDin = some d)
    (hc : env.create_file = 0) (hi : env.create_img = 0) :
    ∃ (m : FITSIOTYPE) (t : IMGTYPE),
      buffersWritten (saveFITS R env lookup datatypeOf pid tid inputimname outputFITSname
        0).1 = [(m, some (Buffer.image IDin d))] ∧
      imagesCreated (saveFITS R env lookup datatypeOf pid tid inputimname outputFITSname
        0).1 = [t] ∧
      (m.element LONGBITS = d.element ↔
        d ≠ DATATYPE.INT16 ∧ (d = DATATYPE.UINT64 ∨ d = DATATYPE.INT64 → LONGBITS = 64)) ∧
      (t.element = d.element ↔ d ≠ DATATYPE.UINT16) ∧
      (d = DATATYPE.INT16 → m = FITSIOTYPE.TUSHORT ∧ t = IMGTYPE.SHORT_IMG) ∧
      (d = DATATYPE.UINT16 → m = FITSIOTYPE.TUSHORT ∧ t = IMGTYPE.SHORT_IMG) := by
  have hb := saveFITS_buffersWritten R env lookup datatypeOf pid tid inputimname
    outputFITSname 0 IDin hID hc hi
  have ht := saveFITS_imagesCreated R env lookup datatypeOf pid tid inputimname
    outputFITSname 0 IDin hID hc
  rw [hd] at hb ht
  refine ⟨(datatypeSwitch IDin (some d)).FITSIOdatatype,
    (datatypeSwitch IDin (some d)).bitpix, ?_, ?_, ?_, ?_, ?_, ?_⟩
  · rw [hb]; cases d <;> rfl
  · rw [ht]; rfl
  · cases d <;>
      simp [datatypeSwitch, FITSIOTYPE.element, DATATYPE.element]
  · cases d <;> simp [datatypeSwitch, IMGTYPE.element, DATATYPE.element]
  · intro h; subst h; exact ⟨rfl, rfl⟩
  · intro h; subst h; exact ⟨rfl, rfl⟩

/-- C22, the failing inputs: with `bitpix` 0, the signed 16-bit image "im3" is handed to
`fits_write_img` as `TUSHORT`, an unsigned type, and the unsigned 16-bit image "im2" is
written to `SHORT_IMG`, a signed on-disk type. -/
theorem saveFITS_auto_16bit_signedness_witness :
    integerLookup "im3" = some 3 ∧ integerDatatype 3 = some DATATYPE.INT16 ∧
    noErrorEnv.create_file = 0 ∧ noErrorEnv.create_img = 0 ∧
    (saveFITS sampleCodes noErrorEnv integerLookup integerDatatype 12 345 "im3" "out.fits"
        0).1 =
      [FITSCall.fits_create_file "_savefits_atomic_im3_12_345.tmp.fits",
       FITSCall.fits_create_img IMGTYPE.SHORT_IMG,
       FITSCall.fits_write_img FITSIOTYPE.TUSHORT (some (Buffer.image 3 DATATYPE.INT16)),
       FITSCall.fits_close_file,
       FITSCall.mv "_savefits_atomic_im3_12_345.tmp.fits" "out.fits"] ∧
    (saveFITS sampleCodes noErrorEnv integerLookup integerDatatype 12 345 "im2" "out.fits"
        0).1 =
      [FITSCall.fits_create_file "_savefits_atomic_im2_12_345.tmp.fits",
       FITSCall.fits_create_img IMGTYPE.SHORT_IMG,
       FITSCall.fits_write_img FITSIOTYPE.TUSHORT (some (Buffer.image 2 DATATYPE.UINT16)),
       FITSCall.fits_close_file,
       FITSCall.mv "_savefits_atomic_im2_12_345.tmp.fits" "out.fits"] ∧
    (FITSIOTYPE.TUSHORT.element 64).signed = false ∧ DATATYPE.INT16.element.signed = true ∧
    IMGTYPE.SHORT_IMG.element.signed = true ∧ DATATYPE.UINT16.element.signed = false ∧
    ∃ (m : FITSIOTYPE) (t : IMGTYPE),
      buffersWritten (saveFITS sampleCodes noErrorEnv integerLookup integerDatatype 12 345
        "im3" "out.fits" 0).1 = [(m, some (Buffer.image 3 DATATYPE.INT16))] ∧
      m = FITSIOTYPE.TUSHORT ∧ t = IMGTYPE.SHORT_IMG :=
  ⟨by decide, rfl, rfl, rfl, by decide, by decide, rfl, rfl, rfl, rfl,
    (saveFITS_auto_16bit_signedness 64 sampleCodes noErrorEnv integerLookup integerDatatype
      12 345 "im3" "out.fits" 3 DATATYPE.INT16 (by decide) rfl rfl rfl).imp
      fun _ h => h.imp fun _ h => ⟨h.1, (h.2.2.2.2.1 rfl).1, (h.2.2.2.2.1 rfl).2⟩⟩

/-- C23: the buffer that `save_int64_fits` hands to `fits_write_img`.  For every existing
image of one of the ten datatypes, when `malloc` succeeds where it is called and the file
is created, the writer makes one call `fits_write_img(fptr, TLONG, ...)` and returns.
The buffer is the null pointer for an `INT64` image (`array` is never allocated and the
test before the call is on `_DATATYPE_INT32`); it is the image's own buffer read as
64-bit elements, `array.SI64`, for an `INT32` image (whose elements have 32 bits and
whose converted copy is left aside); it is the freshly allocated array of converted
elements for the eight other datatypes. -/
theorem save_int64_fits_buffer (env : WriterEnv) (lookup : String → Option Nat)
    (datatypeOf : Nat → Option DATATYPE) (ID_name file_name : String) (ID : Nat)
    (d : DATATYPE) (hID : lookup ID_name = some ID) (hd : datatypeOf ID = some d)
    (hm : d ≠ DATATYPE.INT64 → env.malloc_ok = true) (hc : env.create_status = 0) :
    save_int64_fits env lookup datatypeOf ID_name file_name =
      ([FITSCall.fits_create_file (file_name1 env Writer.save_int64_fits file_name),
        FITSCall.fits_create_img IMGTYPE.LONGLONG_IMG,
        FITSCall.fits_write_img FITSIOTYPE.TLONG
          (some (if d = DATATYPE.INT64 then Buffer.NULL
            else if d = DATATYPE.INT32 then Buffer.image ID DATATYPE.INT64
            else Buffer.array ID d)),
        FITSCall.fits_close_file], true) ∧
    buffersWritten (save_int64_fits env lookup datatypeOf ID_name file_name).1 =
      [(FITSIOTYPE.TLONG,
        some (if d = DATATYPE.INT64 then Buffer.NULL
          else if d = DATATYPE.INT32 then Buffer.image ID DATATYPE.INT64
          else Buffer.array ID d))] := by
  have h : save_int64_fits env lookup datatypeOf ID_name file_name =
      ([FITSCall.fits_create_file (file_name1 env Writer.save_int64_fits file_name),
        FITSCall.fits_create_img IMGTYPE.LONGLONG_IMG,
        FITSCall.fits_write_img FITSIOTYPE.TLONG
          (some (if d = DATATYPE.INT64 then Buffer.NULL
            else if d = DATATYPE.INT32 then Buffer.image ID DATATYPE.INT64
            else Buffer.array ID d)),
        FITSCall.fits_close_file], true) := by
    by_cases h64 : d = DATATYPE.INT64
    · subst h64
      simp [save_int64_fits, hID, hd, hc]
    · have hm1 := hm h64
      by_cases h32 : d = DATATYPE.INT32
      · subst h32
        simp [save_int64_fits, hID, hd, hc, hm1]
      · simp [save_int64_fits, hID, hd, hc, hm1, h64, h32]
  refine ⟨h, ?_⟩
  rw [h]
  simp [buffersWritten]

/-- C23, the failing inputs: for the signed 64-bit image "im0" the writer hands the null
pointer to `fits_write_img`; for the signed 32-bit image "im1" it hands the image's
buffer, read as 64-bit elements. -/
theorem save_int64_fits_buffer_witness :
    integerLookup "im0" = some 0 ∧ integerDatatype 0 = some DATATYPE.INT64 ∧
    integerLookup "im1" = some 1 ∧ integerDatatype 1 = some DATATYPE.INT32 ∧
    quietEnv.malloc_ok = true ∧ quietEnv.create_status = 0 ∧
    buffersWritten (save_int64_fits quietEnv integerLookup integerDatatype "im0"
      "out.fits").1 = [(FITSIOTYPE.TLONG, some Buffer.NULL)] ∧
    buffersWritten (save_int64_fits quietEnv integerLookup integerDatatype "im1"
      "out.fits").1 = [(FITSIOTYPE.TLONG, some (Buffer.image 1 DATATYPE.INT64))] ∧
    DATATYPE.INT32.element.bits = 32 ∧ DATATYPE.INT64.element.bits = 64 :=
  ⟨by decide, rfl, by decide, rfl, rfl, rfl,
    (save_int64_fits_buffer quietEnv integerLookup integerDatatype "im0" "out.fits" 0
      DATATYPE.INT64 (by decide) rfl (fun _ => rfl) rfl).2,
    (save_int64_fits_buffer quietEnv integerLookup integerDatatype "im1" "out.fits" 1
      DATATYPE.INT32 (by decide) rfl (fun _ => rfl) rfl).2,
    rfl, rfl⟩

/-- C24: the name of the temporary file is unique per image, process and thread.  The
text `_savefits_atomic_<name>_<pid>_<tid>.tmp.fits`, taken whole, is the same for two
triples of image name, process id and thread id only if the triples are the same.  So
two calls of `save_fits_atomic`, and two calls of `saveFITS`, create a file of the same
name only if they have the same image name, process id and thread id; this holds
whatever the tables, the surroundings and the other arguments of the two calls. -/
theorem fnametmp_injective (name1 name2 : String) (pid1 pid2 tid1 tid2 : Int) :
    (fnametmp name1 pid1 tid1 = fnametmp name2 pid2 tid2 ↔
      name1 = name2 ∧ pid1 = pid2 ∧ tid1 = tid2) ∧
    (∀ (R1 R2 : RETURNCODES) (env1 env2 : WriterEnv) (lookup1 lookup2 : String → Option Nat)
        (datatypeOf1 datatypeOf2 : Nat → Option DATATYPE) (file1 file2 g : String),
      g ∈ filesWritten
        (save_fits_atomic R1 env1 lookup1 datatypeOf1 pid1 tid1 name1 file1).1 →
      g ∈ filesWritten
        (save_fits_atomic R2 env2 lookup2 datatypeOf2 pid2 tid2 name2 file2).1 →
      name1 = name2 ∧ pid1 = pid2 ∧ tid1 = tid2) ∧
    (∀ (R1 R2 : RETURNCODES) (env1 env2 : FITSIOEnv) (lookup1 lookup2 : String → Option Nat)
        (datatypeOf1 datatypeOf2 : Nat → Option DATATYPE) (out1 out2 g : String)
        (bitpix1 bitpix2 : Int),
      FITSCall.fits_create_file g ∈
        (saveFITS R1 env1 lookup1 datatypeOf1 pid1 tid1 name1 out1 bitpix1).1 →
      FITSCall.fits_create_file g ∈
        (saveFITS R2 env2 lookup2 datatypeOf2 pid2 tid2 name2 out2 bitpix2).1 →
      name1 = name2 ∧ pid1 = pid2 ∧ tid1 = tid2) := by
  refine ⟨⟨fnametmp_inj name1 name2 pid1 pid2 tid1 tid2, ?_⟩, ?_, ?_⟩
  · rintro ⟨h1, h2, h3⟩
    rw [h1, h2, h3]
  · intro R1 R2 env1 env2 lookup1 lookup2 datatypeOf1 datatypeOf2 file1 file2 g h1 h2
    have e1 := save_fits_atomic_files R1 env1 lookup1 datatypeOf1 pid1 tid1 name1 file1 g h1
    have e2 := save_fits_atomic_files R2 env2 lookup2 datatypeOf2 pid2 tid2 name2 file2 g h2
    exact fnametmp_inj name1 name2 pid1 pid2 tid1 tid2 (e1.symm.trans e2)
  · intro R1 R2 env1 env2 lookup1 lookup2 datatypeOf1 datatypeOf2 out1 out2 g b1 b2 h1 h2
    have e1 := saveFITS_create_file R1 env1 lookup1 datatypeOf1 pid1 tid1 name1 out1 b1 g h1
    have e2 := saveFITS_create_file R2 env2 lookup2 datatypeOf2 pid2 tid2 name2 out2 b2 g h2
    exact fnametmp_inj name1 name2 pid1 pid2 tid1 tid2 (e1.symm.trans e2)

/-- C24, instance: the names for the image "im_1" in process 2, thread 34 and for the
image "im" in process 12, thread 34 differ, although both names and numbers are made of
the same characters around the separator. -/
theorem fnametmp_injective_witness :
    fnametmp "im_1" 2 34 = "_savefits_atomic_im_1_2_34.tmp.fits" ∧
    fnametmp "im" 12 34 = "_savefits_atomic_im_12_34.tmp.fits" ∧
    fnametmp "im" (-12) 34 = "_savefits_atomic_im_-12_34.tmp.fits" ∧
    fnametmp "im_1" 2 34 ≠ fnametmp "im" 12 34 :=
  ⟨by decide, by decide, by decide,
    fun h => absurd ((fnametmp_injective "im_1" "im" 2 12 34 34).1.mp h).2.1 (by decide)⟩

end Cream
